import Mathlib

/-!
# Chat application: message submission, conversation keys and the socket registry

A shallow embedding of the server of the chat application:

* `server/index.js`: the WebSocket side (`userSockets`, the `connection`,
  `sendMessage` and `disconnect` handlers);
* `server/routes/messageRoutes.js`: `POST /messages`, `POST /messages/send-message` and
  `GET /messages/:chatId`;
* `server/routes/authRoutes.js`: `GET /auth/users`, the profile picture filter and
  `POST /auth/update-profile`;
* `server/routes/authMiddleware.js`: `authenticate`.

Conventions of the embedding.

* A user identifier is a JavaScript number holding an integer (the `id` column of the
  `users` table, carried in the token payload); it is an `Int` here. The handlers
  `sendMessage`, `postMessage` and `postSendMessage` take the identifiers of a payload or
  of a body as such numbers.
* A payload or a body may carry an identifier as a string instead (every field of a
  multipart form is one). The namespace `Raw` holds the same three handlers on identifiers
  as they arrive (`JsId`), with the truthiness, the comparison `<` and the rendering of
  JavaScript on strings and the reading of a text parameter by the store. On numbers they
  are the handlers above (`sendMessage_raw`, `postMessage_raw`, `postSendMessage_raw`).
* A field of a request body or socket payload that may be missing (`undefined`) is an
  `Option`.
* The database is explicit state (`Db`); what a query does that the handler does not decide
  (the value of `NOW()`, the id the sequence assigns, whether the query throws) is an
  explicit input (`StoreRun`).
* `jwt.verify` is a parameter `verify : String → Option TokenPayload` (`none`: it throws).
* The conversions of a string to a number (`Number` in `GET /:chatId`, the one `<` applies)
  and the reading of a text parameter by the store are parameters of the handlers that use
  them (`number`, `toNumber`, `asInteger`). `Number`, `ToNumber` and `pgInteger` are their
  exact readings, for the examples.
* The answer of the store to the history query is computed from the table (`historyRows`):
  the rows of the key, sorted by timestamp. The order among rows of equal timestamp, which
  `ORDER BY timestamp ASC` leaves to the store, is an input of the fetch (`FetchRun.rank`);
  `IsHistory` says what the query promises of an answer.
* Sequences of calls are runs of a state machine (`Server`, `Event`, `step`, `steps`), each
  event being one whole handler call; submissions over the three paths made one after
  another are `Raw.submitAll`.
-/

namespace ChatApp

/-! ## JavaScript conventions -/

/-- Truthiness of a JavaScript number holding an integer: every integer except `0`. -/
def truthyNum (n : Int) : Bool := n != 0

/-- Truthiness of a JavaScript string: every string except the empty one. -/
def truthyStr (s : String) : Bool := s != ""

/-- Truthiness of a possibly missing number (`undefined` is falsy). -/
def truthyOptNum : Option Int → Bool
  | none => false
  | some n => truthyNum n

/-- Truthiness of a possibly missing string (`undefined` and `null` are falsy). -/
def truthyOptStr : Option String → Bool
  | none => false
  | some s => truthyStr s

/-- White space and line terminators removed by `String.prototype.trim`. -/
def isJsWhiteSpace (c : Char) : Bool :=
  let n := c.toNat
  n == 0x09 || n == 0x0A || n == 0x0B || n == 0x0C || n == 0x0D || n == 0x20 ||
  n == 0xA0 || n == 0x1680 || (0x2000 ≤ n && n ≤ 0x200A) || n == 0x2028 || n == 0x2029 ||
  n == 0x202F || n == 0x205F || n == 0x3000 || n == 0xFEFF

/-- The method `String.prototype.trim`. -/
def trim (s : String) : String :=
  String.mk ((s.toList.dropWhile isJsWhiteSpace).reverse.dropWhile isJsWhiteSpace).reverse

/-! ## Conversation key -/

/-- The conversation key, as computed at `index.js:76`, `messageRoutes.js:62` and
`messageRoutes.js:122`:
`sender_id < receiver_id ? sender_id_receiver_id : receiver_id_sender_id`
(both template literals join the two numbers with an underscore). -/
def chat_id (sender_id receiver_id : Int) : String :=
  if sender_id < receiver_id then s!"{sender_id}_{receiver_id}"
  else s!"{receiver_id}_{sender_id}"

/-! ## Data model -/

/-- A row of the `users` table. -/
structure User where
  id : Int
  name : String
  email : String
  profile_pic : Option String
deriving DecidableEq, Repr

/-- The columns `id`, `name` and `profile_pic` of a row of the `users` table. -/
structure UserSummary where
  id : Int
  name : String
  profile_pic : Option String
deriving DecidableEq, Repr

/-- A row of the `messages` table (the columns named by the `INSERT` statements, and the
`id` the client reads back). -/
structure Message where
  id : Nat
  chat_id : String
  sender_id : Int
  receiver_id : Int
  content : Option String
  file_path : Option String
  timestamp : Nat
deriving DecidableEq, Repr

/-- The database: the two tables. -/
structure Db where
  users : List User
  messages : List Message
deriving DecidableEq, Repr

/-- What the database contributes to one handler call. -/
structure StoreRun where
  /-- the value of `NOW()` in the `INSERT` -/
  now : Nat
  /-- the id the sequence gives to the inserted row -/
  newId : Nat
  /-- the `SELECT` of the call throws -/
  selectThrows : Bool
  /-- the `INSERT` of the call throws -/
  insertThrows : Bool
deriving DecidableEq, Repr

/-- Result of `SELECT id FROM users WHERE id = $1`: its `rowCount`, or `none` when the
query throws. -/
def selectUserById (run : StoreRun) (db : Db) (id : Int) : Option Nat :=
  if run.selectThrows then none
  else some ((db.users.filter (fun u => u.id == id)).length)

/-- Result of `INSERT INTO messages (...) VALUES (..., NOW()) RETURNING *`: the inserted
row (`result.rows[0]`) and the database after the insert, or `none` when the query throws
(nothing is inserted then). -/
def insertMessage (run : StoreRun) (db : Db) (chat : String) (sender_id receiver_id : Int)
    (content file_path : Option String) : Option (Message × Db) :=
  if run.insertThrows then none
  else
    let row : Message :=
      { id := run.newId, chat_id := chat, sender_id := sender_id, receiver_id := receiver_id,
        content := content, file_path := file_path, timestamp := run.now }
    some (row, { db with messages := db.messages ++ [row] })

/-! ## HTTP side: requests, responses and `authenticate` -/

/-- The decoded token: `jwt.sign`s payload, an object with `id` and `email`. -/
structure TokenPayload where
  id : Int
  email : String
deriving DecidableEq, Repr

/-- A file part of a multipart request, as multer sees it: its MIME type and the extension
`path.extname(file.originalname)` of its original name. -/
structure Upload where
  mimetype : String
  ext : String
deriving DecidableEq, Repr

/-- The parts of an HTTP request the message routes read. -/
structure Request where
  /-- `req.cookies.token` -/
  token : Option String
  /-- `req.body.receiver_id` -/
  receiver_id : Option Int
  /-- `req.body.content` -/
  content : Option String
  /-- the part named `file` of a multipart body -/
  file : Option Upload
  /-- the value of `Date.now()` when multer names the stored file -/
  dateNow : Nat
deriving DecidableEq, Repr

/-- The bodies the routes send: JSON, but for the page of the error handler. -/
inductive Body where
  /-- an object with the one key `error` -/
  | error (msg : String)
  /-- the body of `POST /`: message `"Message sent"`, `data` the inserted row -/
  | messageSent (data : Message)
  /-- the body of `POST /send-message`: `success: true`, `message` the inserted row -/
  | success (message : Message)
  /-- the body of `GET /:chatId`: `messages`, the rows of the answer -/
  | messages (rows : List Message)
  /-- the body of `GET /auth/users`: the array of the rows of the answer -/
  | users (rows : List UserSummary)
  /-- the body of `POST /auth/update-profile`: `success: true`, `user` the returned row
  (`undefined` when the statement returned none) -/
  | profile (user : Option User)
  /-- the HTML page the default error handler of express sends for an error passed to
  `next` that no handler of the application takes (here with the message of the error) -/
  | errorPage (msg : String)
deriving DecidableEq, Repr

/-- An HTTP response: status code and JSON body. -/
structure Response where
  status : Nat
  body : Body
deriving DecidableEq, Repr

/-- The middleware `authenticate` (`authMiddleware.js:6-20`): the decoded token it stores in
`req.user` before calling `next()`, or the response it sends instead. -/
def authenticate (verify : String → Option TokenPayload) (req : Request) :
    Except Response TokenPayload :=
  if !truthyOptStr req.token then
    .error { status := 401, body := .error "Unauthorized" }
  else
    match req.token.bind verify with
    | some decoded => .ok decoded
    | none => .error { status := 401, body := .error "Invalid token" }

/-- The method `String.prototype.startsWith`, with one argument. -/
def startsWith (s searchString : String) : Bool :=
  searchString.toList.isPrefixOf s.toList

/-- The filter `messageFileFilter` (`messageRoutes.js:28-35`): whether the file is kept. -/
def messageFileFilter (file : Upload) : Bool :=
  startsWith file.mimetype "image/" || startsWith file.mimetype "video/"

/-- The middleware `uploadMessage.single("file")`: the pair of `req.file.filename`
(`Date.now() + ext`, absent when there is no file or the filter drops it) and
`req.fileValidationError`. -/
def uploadMessage (req : Request) : Option String × Option String :=
  match req.file with
  | none => (none, none)
  | some file =>
    if messageFileFilter file then (some (toString req.dateNow ++ file.ext), none)
    else (none, some "Only images and videos are allowed!")

/-! ## `POST /messages` and `POST /messages/send-message` -/

/-- The route `POST /` (`messageRoutes.js:43-75`) behind `authenticate`, for a body whose
`receiver_id` is a number: the response and the database after the call. -/
def postMessage (verify : String → Option TokenPayload) (run : StoreRun) (db : Db)
    (req : Request) : Response × Db :=
  match authenticate verify req with
  | .error res => (res, db)
  | .ok user =>
    let sender_id := user.id
    match req.receiver_id with
    | none =>
      -- receiver_id is undefined
      ({ status := 400, body := .error "Receiver ID and message content are required" }, db)
    | some receiver_id =>
      if !truthyNum receiver_id || !truthyOptStr (req.content.map trim) then
        ({ status := 400, body := .error "Receiver ID and message content are required" }, db)
      else if sender_id == receiver_id then
        ({ status := 400, body := .error "You cannot message yourself" }, db)
      else
        match selectUserById run db receiver_id with
        | none => ({ status := 500, body := .error "Internal server error" }, db)
        | some rowCount =>
          if rowCount == 0 then
            ({ status := 404, body := .error "Receiver not found" }, db)
          else
            match insertMessage run db (chat_id sender_id receiver_id) sender_id receiver_id
                req.content none with
            | none => ({ status := 500, body := .error "Internal server error" }, db)
            | some (row, db1) => ({ status := 201, body := .messageSent row }, db1)

/-- The route `POST /send-message` (`messageRoutes.js:108-135`) behind `authenticate` and
`uploadMessage.single("file")`, for a body whose `receiver_id` is a number: the response
and the database after the call. -/
def postSendMessage (verify : String → Option TokenPayload) (run : StoreRun) (db : Db)
    (req : Request) : Response × Db :=
  match authenticate verify req with
  | .error res => (res, db)
  | .ok user =>
    let sender_id := user.id
    let filePath := (uploadMessage req).1
    match (uploadMessage req).2 with
    | some fileValidationError => ({ status := 400, body := .error fileValidationError }, db)
    | none =>
      match req.receiver_id with
      | none => ({ status := 400, body := .error "Message or file is required" }, db)
      | some receiver_id =>
        if !truthyNum receiver_id || (!truthyOptStr req.content && !truthyOptStr filePath) then
          ({ status := 400, body := .error "Message or file is required" }, db)
        else
          match insertMessage run db (chat_id sender_id receiver_id) sender_id receiver_id
              (if truthyOptStr req.content then req.content else none) filePath with
          | none => ({ status := 500, body := .error "Message sending failed" }, db)
          | some (row, db1) => ({ status := 201, body := .success row }, db1)

/-! ## WebSocket side: the registry `userSockets` and the handlers -/

/-- A socket.io socket id: a generated, non-empty string. -/
structure SocketId where
  val : String
  nonempty : val ≠ ""
deriving DecidableEq

/-- The object `userSockets` (`index.js:66`): its own properties, as key and value pairs. -/
structure UserSockets where
  entries : List (Int × SocketId)
deriving DecidableEq

namespace UserSockets

/-- The initial value, the empty object. -/
def empty : UserSockets := ⟨[]⟩

/-- The assignment `userSockets[userId] = socketId`: the property is created, or its value
replaced. -/
def set (m : UserSockets) (userId : Int) (socketId : SocketId) : UserSockets :=
  ⟨(userId, socketId) :: m.entries.filter (fun e => e.1 != userId)⟩

/-- The read `userSockets[userId]`: `none` stands for `undefined`. -/
def get (m : UserSockets) (userId : Int) : Option SocketId :=
  (m.entries.find? (fun e => e.1 == userId)).map (fun e => e.2)

/-- The statement `delete userSockets[userId]`. -/
def delete (m : UserSockets) (userId : Int) : UserSockets :=
  ⟨m.entries.filter (fun e => e.1 != userId)⟩

/-- The number of properties of the object under the key `userId`. -/
def count (m : UserSockets) (userId : Int) : Nat :=
  (m.entries.filter (fun e => e.1 == userId)).length

end UserSockets

/-- A connected socket: its id and the decoded token the handshake middleware stored in
`socket.user`. -/
structure Socket where
  id : SocketId
  user : TokenPayload
deriving DecidableEq

/-- The handshake middleware `io.use` (`index.js:42-57`): the decoded token stored in
`socket.user` before `next()`, or the message of the error passed to `next`, which refuses
the connection. -/
def handshake (verify : String → Option TokenPayload) (token : Option String) :
    Except String TokenPayload :=
  if !truthyOptStr token then .error "Unauthorized"
  else
    match token.bind verify with
    | some decoded => .ok decoded
    | none => .error "Invalid token"

/-- The `connection` handler (`index.js:68-72`): `userSockets[userId] = socket.id` with
`userId = socket.user.id`. -/
def onConnection (userSockets : UserSockets) (socket : Socket) : UserSockets :=
  userSockets.set socket.user.id socket.id

/-- The `disconnect` handler of a socket (`index.js:94-97`): `delete userSockets[userId]`,
with the `userId` captured at connection. -/
def onDisconnect (userSockets : UserSockets) (socket : Socket) : UserSockets :=
  userSockets.delete socket.user.id

/-- The payload of a `sendMessage` event, destructured at `index.js:74`. -/
structure Payload where
  sender_id : Option Int
  receiver_id : Option Int
  content : Option String
deriving DecidableEq, Repr

/-- The two events the server emits. -/
inductive EventName where
  | receiveMessage
  | messageSent
deriving DecidableEq, Repr

/-- One emitted event: the socket it is addressed to (`io.to(id)`, or the socket that
emits), its name and the row it carries. -/
structure Emit where
  room : SocketId
  event : EventName
  payload : Message
deriving DecidableEq

/-- How a run of the `sendMessage` handler ended. -/
inductive Outcome where
  /-- the early `return` of `index.js:75` -/
  | ignored
  /-- the insert resolved with this row -/
  | stored (savedMessage : Message)
  /-- the insert threw; the `catch` block logged the error -/
  | failed
deriving DecidableEq

/-- Everything a run of the `sendMessage` handler does. -/
structure SendResult where
  db : Db
  emits : List Emit
  outcome : Outcome
deriving DecidableEq

/-- The `sendMessage` handler of `socket` (`index.js:74-92`), for a payload whose identifiers
are numbers. `userSockets` is the registry as it stands when the awaited insert resolves,
which is when the handler reads it. -/
def sendMessage (run : StoreRun) (db : Db) (userSockets : UserSockets) (socket : Socket)
    (p : Payload) : SendResult :=
  match p.sender_id, p.receiver_id, p.content with
  | some sender_id, some receiver_id, some content =>
    if !truthyNum sender_id || !truthyNum receiver_id || !truthyStr content then
      { db := db, emits := [], outcome := .ignored }
    else
      match insertMessage run db (chat_id sender_id receiver_id) sender_id receiver_id
          (some content) none with
      | none => { db := db, emits := [], outcome := .failed }
      | some (savedMessage, db1) =>
        let toReceiver : List Emit :=
          match userSockets.get receiver_id with
          | some receiverSocket =>
            if truthyStr receiverSocket.val then
              [{ room := receiverSocket, event := .receiveMessage, payload := savedMessage }]
            else []
          | none => []
        { db := db1,
          emits := toReceiver ++ [{ room := socket.id, event := .messageSent,
                                    payload := savedMessage }],
          outcome := .stored savedMessage }
  | _, _, _ =>
    -- one of the three fields is undefined
    { db := db, emits := [], outcome := .ignored }

/-! ## `GET /messages/:chatId` -/

/-- The method `String.prototype.split` with a one-character separator, on the characters of
the string: the pieces between the occurrences of the separator (one piece, the whole
string, when it does not occur). -/
def splitChars (sep : Char) : List Char → List (List Char)
  | [] => [[]]
  | c :: cs =>
    if c = sep then [] :: splitChars sep cs
    else
      match splitChars sep cs with
      | p :: ps => (c :: p) :: ps
      | [] => [[c]]

/-- The call `s.split(sep)` for a separator of one character. -/
def split (s : String) (sep : Char) : List String :=
  (splitChars sep s.toList).map String.mk

/-- The value of a digit in the bases up to 16, `none` for any other character. -/
def digitValue (c : Char) : Option Nat :=
  if '0' ≤ c ∧ c ≤ '9' then some (c.toNat - 48)
  else if 'a' ≤ c ∧ c ≤ 'f' then some (c.toNat - 87)
  else if 'A' ≤ c ∧ c ≤ 'F' then some (c.toNat - 55)
  else none

/-- One more digit of a numeral of the given base: the value so far and the next character
give the next value, `none` once a character is no digit of the base. -/
def digitStep (base : Nat) (acc : Option Nat) (c : Char) : Option Nat :=
  match acc, digitValue c with
  | some n, some d => if d < base then some (base * n + d) else none
  | _, _ => none

/-- The value of a non-empty run of digits of the given base, `none` when the run is empty
or holds another character. -/
def digitsValue (base : Nat) (cs : List Char) : Option Nat :=
  if cs.isEmpty then none else cs.foldl (digitStep base) (some 0)

/-- A binary, octal or hexadecimal integer literal (`0b`, `0o`, `0x`, either case). -/
def nonDecimalInteger : List Char → Option Nat
  | '0' :: c :: rest =>
    if c = 'x' ∨ c = 'X' then digitsValue 16 rest
    else if c = 'o' ∨ c = 'O' then digitsValue 8 rest
    else if c = 'b' ∨ c = 'B' then digitsValue 2 rest
    else none
  | _ => none

/-- The exponent part of a decimal literal, absent (exponent 0) or `e`, an optional sign and
digits. -/
def exponentPart : List Char → Option Int
  | [] => some 0
  | c :: rest =>
    if c = 'e' ∨ c = 'E' then
      match rest with
      | '+' :: ds => (digitsValue 10 ds).map (fun n => (n : Int))
      | '-' :: ds => (digitsValue 10 ds).map (fun n => -(n : Int))
      | ds => (digitsValue 10 ds).map (fun n => (n : Int))
    else none

/-- An unsigned decimal literal (digits, an optional fraction, an optional exponent): a pair
`(m, e)` standing for the value `m * 10 ^ e`, or `none` when the characters are no such
literal. -/
def unsignedDecimal (cs : List Char) : Option (Nat × Int) :=
  let ip := cs.takeWhile Char.isDigit
  match cs.dropWhile Char.isDigit with
  | '.' :: r =>
    let fp := r.takeWhile Char.isDigit
    if ip.isEmpty && fp.isEmpty then none
    else
      (exponentPart (r.dropWhile Char.isDigit)).map
        (fun e => ((digitsValue 10 (ip ++ fp)).getD 0, e - fp.length))
  | r =>
    if ip.isEmpty then none
    else (exponentPart r).map (fun e => ((digitsValue 10 ip).getD 0, e))

/-- The integer `m * 10 ^ e`, when that value is an integer. -/
def integerValue (v : Nat × Int) : Option Int :=
  if 0 ≤ v.2 then some ((v.1 : Int) * 10 ^ v.2.toNat)
  else if v.1 % 10 ^ (-v.2).toNat = 0 then some ((v.1 / 10 ^ (-v.2).toNat : Nat) : Int)
  else none

/-- The conversion `Number(s)` of a string, as far as a comparison with an integer can
tell: `some n` when the string denotes the integer `n`, `none` when it denotes `NaN`, an
infinity or a fraction. The value of a literal is taken exactly: this is the conversion of
JavaScript on every literal of at most 15 significant digits, among them the decimal
rendering of every identifier a column of type `integer` holds; on longer literals
JavaScript rounds to the nearest double.
The routes take the conversion as a parameter, so that what is proved of them for every
string does not rest on this reading. -/
def Number (s : String) : Option Int :=
  let t := (trim s).toList
  if t.isEmpty then some 0
  else
    match nonDecimalInteger t with
    | some n => some (n : Int)
    | none =>
      match t with
      | '-' :: r => ((unsignedDecimal r).bind integerValue).map (fun n => -n)
      | '+' :: r => (unsignedDecimal r).bind integerValue
      | r => (unsignedDecimal r).bind integerValue

/-- What the database contributes to one call of `GET /:chatId`. -/
structure FetchRun where
  /-- the `SELECT` on `users` throws (the connection fails, or the store refuses an integer
  its column type cannot hold) -/
  usersThrows : Bool
  /-- the `SELECT` on `messages` throws -/
  messagesThrows : Bool
  /-- the order the store gives to rows of equal timestamp in this answer: the row of the
  lower rank comes first -/
  rank : Message → Nat

/-- What SQL promises of the answer to
`SELECT * FROM messages WHERE chat_id = $1 ORDER BY timestamp ASC`: it holds the rows of the
table with that `chat_id`, each as often as the table does, in an order in which the
timestamps ascend. The order among rows of equal timestamp is the store's choice. -/
def IsHistory (db : Db) (chatId : String) (rows : List Message) : Prop :=
  rows.Perm (db.messages.filter (fun m => m.chat_id == chatId)) ∧
  rows.Pairwise (fun a b => a.timestamp ≤ b.timestamp)

instance (db : Db) (chatId : String) (rows : List Message) :
    Decidable (IsHistory db chatId rows) := by
  unfold IsHistory
  infer_instance

/-- The order of the rows of an answer sorted by `ORDER BY timestamp ASC`: by timestamp, and
among rows of equal timestamp by the rank the store gives them. -/
def historyOrder (rank : Message → Nat) (a b : Message) : Prop :=
  a.timestamp < b.timestamp ∨ (a.timestamp = b.timestamp ∧ rank a ≤ rank b)

instance (rank : Message → Nat) : DecidableRel (historyOrder rank) := by
  intro a b
  unfold historyOrder
  infer_instance

/-- The answer to `SELECT * FROM messages WHERE chat_id = $1 ORDER BY timestamp ASC`
(`messageRoutes.js:95-98`): the rows of the table with that `chat_id`, sorted by timestamp;
rows of equal timestamp come in the order of the store's rank, and in the order of the
table where the ranks are equal too. -/
def historyRows (rank : Message → Nat) (db : Db) (chatId : String) : List Message :=
  (db.messages.filter (fun m => m.chat_id == chatId)).insertionSort (historyOrder rank)

/-- Result of `SELECT id FROM users WHERE id IN ($1, $2)`: its `rowCount`, or `none` when the
query throws. A parameter is an integer (`some (some n)`), `undefined` (`none`), which is
sent as `NULL` and matches no row, or a number that is no integer (`some none`: `NaN`, an
infinity, a fraction), for which the store refuses the query. -/
def selectUsersIn (run : FetchRun) (db : Db) (user1 user2 : Option (Option Int)) :
    Option Nat :=
  if run.usersThrows then none
  else if user1 == some none || user2 == some none then none
  else
    some ((db.users.filter
      (fun u => some (some u.id) == user1 || some (some u.id) == user2)).length)

/-- Result of the `SELECT` on `messages`: `result.rows`, or `none` when the query throws. -/
def selectMessages (run : FetchRun) (db : Db) (chatId : String) : Option (List Message) :=
  if run.messagesThrows then none else some (historyRows run.rank db chatId)

/-- The route `GET /:chatId` (`messageRoutes.js:78-105`) behind `authenticate`; `chatId` is
`req.params.chatId`. The conversion `Number` of JavaScript is the parameter `number`, as far
as a comparison with an integer can tell: `some n` when the string converts to the integer
`n`, `none` when it converts to `NaN`, an infinity or a fraction. The route reads the
database and does not change it. -/
def getMessages (verify : String → Option TokenPayload) (number : String → Option Int)
    (run : FetchRun) (db : Db) (req : Request) (chatId : String) : Response :=
  match authenticate verify req with
  | .error res => res
  | .ok user =>
    let userId := user.id
    let parts := (split chatId '_').map number
    let user1 := parts[0]?
    let user2 := parts[1]?
    if !(user1 == some (some userId) || user2 == some (some userId)) then
      { status := 403, body := .error "Unauthorized access to chat" }
    else
      match selectUsersIn run db user1 user2 with
      | none => { status := 500, body := .error "Internal server error" }
      | some rowCount =>
        if rowCount < 2 then
          { status := 404, body := .error "Invalid chat participants" }
        else
          match selectMessages run db chatId with
          | none => { status := 500, body := .error "Internal server error" }
          | some rows => { status := 200, body := .messages rows }

/-! ## The server as a state machine -/

/-- A connection attempt (`index.js:42-72`): the handshake middleware and, when it admits
the socket, the `connection` handler. The registry after the attempt, and the admitted
socket or the error that refuses the connection. -/
def connect (verify : String → Option TokenPayload) (userSockets : UserSockets)
    (id : SocketId) (token : Option String) : UserSockets × Except String Socket :=
  match handshake verify token with
  | .error msg => (userSockets, .error msg)
  | .ok decoded =>
    (onConnection userSockets { id := id, user := decoded }, .ok { id := id, user := decoded })

/-- The state of the server: the database, the registry and the sockets that are open
(admitted and not yet disconnected). -/
structure Server where
  db : Db
  userSockets : UserSockets
  sockets : List Socket
deriving DecidableEq

/-- What can happen to the server. -/
inductive Event where
  /-- a connection attempt with this socket id and handshake token -/
  | connect (id : SocketId) (token : Option String)
  /-- the `disconnect` event of a socket -/
  | disconnect (socket : Socket)
  /-- a `sendMessage` event on a socket -/
  | sendMessage (run : StoreRun) (socket : Socket) (p : Payload)
  /-- a request to `POST /messages` -/
  | postMessage (run : StoreRun) (req : Request)
  /-- a request to `POST /messages/send-message` -/
  | postSendMessage (run : StoreRun) (req : Request)
deriving DecidableEq

/-- The effect of one event on the server. -/
def step (verify : String → Option TokenPayload) (st : Server) : Event → Server
  | .connect id token =>
    match (connect verify st.userSockets id token).2 with
    | .error _ => st
    | .ok socket =>
      { st with userSockets := (connect verify st.userSockets id token).1,
                sockets := socket :: st.sockets }
  | .disconnect socket =>
    { st with userSockets := onDisconnect st.userSockets socket,
              sockets := st.sockets.filter (fun s => s != socket) }
  | .sendMessage run socket p =>
    { st with db := (sendMessage run st.db st.userSockets socket p).db }
  | .postMessage run req => { st with db := (postMessage verify run st.db req).2 }
  | .postSendMessage run req => { st with db := (postSendMessage verify run st.db req).2 }

/-- The effect of a sequence of events, in order. -/
def steps (verify : String → Option TokenPayload) (st : Server) (events : List Event) :
    Server :=
  events.foldl (step verify) st

/-! ## `GET /auth/users` -/

/-- The answer to the query of `GET /users` (`authRoutes.js:189-196`),
`SELECT DISTINCT u.id, u.name, u.profile_pic FROM users u JOIN messages m
ON u.id = m.sender_id OR u.id = m.receiver_id
WHERE u.id != $1 AND (m.sender_id = $1 OR m.receiver_id = $1)`:
the pairs of a user row and a message row that pass the `ON` and the `WHERE` condition,
projected on the three columns, each distinct row once. The order of the rows is the
store's choice; the rows are listed here in the order of the tables. -/
def selectConversationUsers (db : Db) (userId : Int) : List UserSummary :=
  (((db.users.flatMap (fun u => db.messages.map (fun m => (u, m)))).filter
      (fun um => um.1.id == um.2.sender_id || um.1.id == um.2.receiver_id)).filter
      (fun um => um.1.id != userId &&
        (um.2.sender_id == userId || um.2.receiver_id == userId))).map
    (fun um => ({ id := um.1.id, name := um.1.name, profile_pic := um.1.profile_pic } :
      UserSummary)) |>.dedup

/-- The route `GET /users` (`authRoutes.js:184-203`) behind `authenticate`; the query throws
when `run.selectThrows`. The route reads the database and does not change it. -/
def getUsers (verify : String → Option TokenPayload) (run : StoreRun) (db : Db)
    (req : Request) : Response :=
  match authenticate verify req with
  | .error res => res
  | .ok user =>
    let userId := user.id
    if run.selectThrows then { status := 500, body := .error "Failed to fetch users" }
    else { status := 200, body := .users (selectConversationUsers db userId) }

/-! ## `POST /auth/update-profile` -/

/-- The filter `fileFilter` of the profile picture upload (`authRoutes.js:25-31`): the file
is kept (`cb(null, true)`), or the error passed to the callback. -/
def fileFilter (file : Upload) : Except String Unit :=
  if startsWith file.mimetype "image/" then .ok ()
  else .error "Only image files are allowed!"

/-- The middleware `upload.single("profile_pic")`: `req.file.filename` (`Date.now() + ext`,
absent when the request has no such part), or the error of the filter, which multer passes
to `next` so that the route handler does not run. -/
def upload (req : Request) : Except String (Option String) :=
  match req.file with
  | none => .ok none
  | some file =>
    match fileFilter file with
    | .ok _ => .ok (some (toString req.dateNow ++ file.ext))
    | .error msg => .error msg

/-- A value of the `values` array of a query. -/
inductive SqlValue where
  | str (s : String)
  | num (n : Int)
deriving DecidableEq, Repr

/-- A parameterised statement as handed to `pool.query(query, values)`. -/
structure Statement where
  query : String
  values : List SqlValue
deriving DecidableEq, Repr

/-- What the database contributes to one call of `POST /update-profile`. -/
structure UpdateRun where
  /-- the `UPDATE` throws -/
  throws : Bool
  /-- the row the `UPDATE` returns (`result.rows[0]`), absent when no row matched -/
  row : Option User
deriving DecidableEq, Repr

/-- The statement built at `authRoutes.js:216-232` from a truthy `name`, a truthy
`profilePicPath`, or both (the caller has rejected the case of neither). -/
def updateStatement (name profilePicPath : Option String) (userId : Int) : Statement :=
  let updateFields : List String := []
  let values : List SqlValue := []
  let (updateFields, values) :=
    match name with
    | some n =>
      if truthyStr n then (updateFields ++ ["name = $1"], values ++ [SqlValue.str n])
      else (updateFields, values)
    | none => (updateFields, values)
  let (updateFields, values) :=
    match profilePicPath with
    | some f =>
      if truthyStr f then
        (updateFields ++ ["profile_pic = $" ++ toString (values.length + 1)],
         values ++ [SqlValue.str f])
      else (updateFields, values)
    | none => (updateFields, values)
  let values := values ++ [SqlValue.num userId]
  { query := "UPDATE users SET " ++ ", ".intercalate updateFields ++ " WHERE id = $" ++
      toString values.length ++ " RETURNING id, name, email, profile_pic",
    values := values }

/-- The route `POST /update-profile` (`authRoutes.js:206-239`) behind `authenticate` and
`upload.single("profile_pic")`; `name` is `req.body.name`. The response, and the statement
the route issued, if any. An error of the upload filter is passed to `next`; the
application has no error handler, so the default one of express answers 500 with its HTML
page, and the route handler does not run. -/
def updateProfile (verify : String → Option TokenPayload) (run : UpdateRun) (req : Request)
    (name : Option String) : Response × Option Statement :=
  match authenticate verify req with
  | .error res => (res, none)
  | .ok user =>
    match upload req with
    | .error msg => ({ status := 500, body := .errorPage msg }, none)
    | .ok profilePicPath =>
      let userId := user.id
      if !truthyOptStr name && !truthyOptStr profilePicPath then
        ({ status := 400, body := .error "No changes provided" }, none)
      else
        let statement := updateStatement name profilePicPath userId
        if run.throws then
          ({ status := 500, body := .error "Profile update failed" }, some statement)
        else
          ({ status := 200, body := .profile run.row }, some statement)

/-- The numbers of the placeholders (`$1`, `$2`, ...) of a query text, in the order in which
they occur; `current` is the number being read, if the characters before were a dollar sign
and digits. -/
def placeholdersFrom : List Char → Option Nat → List Nat
  | [], none => []
  | [], some n => [n]
  | c :: cs, none =>
    if c = '$' then placeholdersFrom cs (some 0) else placeholdersFrom cs none
  | c :: cs, some n =>
    if c.isDigit then placeholdersFrom cs (some (10 * n + (c.toNat - 48)))
    else n :: (if c = '$' then placeholdersFrom cs (some 0) else placeholdersFrom cs none)

/-- The numbers of the placeholders of a query text, in order of occurrence. -/
def placeholders (query : String) : List Nat :=
  placeholdersFrom query.toList none

/-! ## Identifiers as they arrive

The handlers above take the identifiers of a payload or body as the integers they are when
the client sends numbers. A request may carry them as strings as well: every field of a
multipart form is a string, and a JSON body or a socket payload holds what the client put
there. The handlers of the namespace `Raw` are the same source functions on identifiers as
they arrive, a number or a string; on numbers they are the handlers above
(`sendMessage_raw`, `postMessage_raw`, `postSendMessage_raw`). -/

/-- The value of `sender_id` or `receiver_id` as a payload or body carries it: a number
holding an integer, or a string. -/
inductive JsId where
  | num (n : Int)
  | str (s : String)
deriving DecidableEq, Repr

/-- A JavaScript number, as far as a comparison with an integer can tell. -/
inductive JsNumber where
  | nan
  | negInf
  | posInf
  /-- the integer `n` -/
  | int (n : Int)
  /-- a number strictly between `floor` and `floor + 1` -/
  | frac (floor : Int)
deriving DecidableEq, Repr

namespace JsNumber

/-- The comparison `n < x` of the integer `n` with the number `x`. -/
def gtInt : JsNumber → Int → Bool
  | .nan, _ => false
  | .negInf, _ => false
  | .posInf, _ => true
  | .int m, n => decide (n < m)
  | .frac f, n => decide (n ≤ f)

/-- The comparison `x < n` of the number `x` with the integer `n`. -/
def ltInt : JsNumber → Int → Bool
  | .nan, _ => false
  | .negInf, _ => true
  | .posInf, _ => false
  | .int m, n => decide (m < n)
  | .frac f, n => decide (f < n)

/-- Unary minus. -/
def neg : JsNumber → JsNumber
  | .nan => .nan
  | .negInf => .posInf
  | .posInf => .negInf
  | .int n => .int (-n)
  | .frac f => .frac (-f - 1)

end JsNumber

/-- The number `m * 10 ^ e` of a decimal literal. -/
def decimalNumber (v : Nat × Int) : JsNumber :=
  if 0 ≤ v.2 then .int ((v.1 : Int) * 10 ^ v.2.toNat)
  else if v.1 % 10 ^ (-v.2).toNat = 0 then .int ((v.1 / 10 ^ (-v.2).toNat : Nat) : Int)
  else .frac ((v.1 / 10 ^ (-v.2).toNat : Nat) : Int)

/-- The number of an unsigned literal: `Infinity`, a decimal literal, or `NaN` for anything
else. -/
def unsignedNumber (cs : List Char) : JsNumber :=
  if cs = "Infinity".toList then .posInf
  else
    match unsignedDecimal cs with
    | some v => decimalNumber v
    | none => .nan

/-- The conversion of a string to a number that `<` applies when its other operand is a
number, the value of a literal taken exactly as in `Number`. It is the conversion of
JavaScript on the literals of at most 15 significant digits; the handlers take the
conversion as a parameter. -/
def ToNumber (s : String) : JsNumber :=
  let t := (trim s).toList
  if t.isEmpty then .int 0
  else
    match nonDecimalInteger t with
    | some n => .int (n : Int)
    | none =>
      match t with
      | '-' :: r => (unsignedNumber r).neg
      | '+' :: r => unsignedNumber r
      | r => unsignedNumber r

/-- The UTF-16 code units of a character. -/
def utf16 (c : Char) : List Nat :=
  if c.toNat < 0x10000 then [c.toNat]
  else [0xD800 + (c.toNat - 0x10000) / 0x400, 0xDC00 + (c.toNat - 0x10000) % 0x400]

/-- The UTF-16 code units of a string. -/
def codeUnits (s : String) : List Nat :=
  s.toList.flatMap utf16

/-- The comparison `<` of two strings, on their code units: the first difference decides,
and a string is below every string it begins. -/
def lessUnits : List Nat → List Nat → Bool
  | [], [] => false
  | [], _ :: _ => true
  | _ :: _, [] => false
  | x :: xs, y :: ys => if x < y then true else if y < x then false else lessUnits xs ys

/-- White space the store skips around a number. -/
def isPgSpace (c : Char) : Bool :=
  let n := c.toNat
  n == 0x20 || n == 0x09 || n == 0x0A || n == 0x0B || n == 0x0C || n == 0x0D

/-- The integer PostgreSQL reads from a text parameter bound to a column of type `integer`,
in the decimal form (optional white space around an optional sign and digits, within the
range of the type); `none` when it refuses the text, and the statement throws. The handlers
take the store's reading as a parameter. -/
def pgInteger (s : String) : Option Int :=
  let t := ((s.toList.dropWhile isPgSpace).reverse.dropWhile isPgSpace).reverse
  let v : Option Int :=
    match t with
    | '-' :: r => (digitsValue 10 r).map (fun n => -(n : Int))
    | '+' :: r => (digitsValue 10 r).map (fun n => (n : Int))
    | r => (digitsValue 10 r).map (fun n => (n : Int))
  v.bind (fun n => if -2147483648 ≤ n ∧ n ≤ 2147483647 then some n else none)

namespace JsId

/-- Truthiness: every number except `0`, every string except the empty one. -/
def truthy : JsId → Bool
  | .num n => truthyNum n
  | .str s => truthyStr s

/-- The string a template literal or a property key makes of the value. -/
def render : JsId → String
  | .num n => toString n
  | .str s => s

instance : ToString JsId := ⟨render⟩

/-- The comparison `a < b`: of two numbers by value, of two strings by code units, of a
number and a string by value after the string is converted to a number. -/
def less (toNumber : String → JsNumber) : JsId → JsId → Bool
  | .num a, .num b => decide (a < b)
  | .num a, .str t => (toNumber t).gtInt a
  | .str s, .num b => (toNumber s).ltInt b
  | .str s, .str t => lessUnits (codeUnits s) (codeUnits t)

/-- The value the store puts in a column of type `integer` for the parameter: the number
itself, or what the store reads from the string; `none` when it refuses the string. -/
def column (asInteger : String → Option Int) : JsId → Option Int
  | .num n => some n
  | .str s => asInteger s

/-- Whether the value is a number. -/
def isNum : JsId → Bool
  | .num _ => true
  | .str _ => false

/-- The value is the number `n`, or the decimal rendering of `n`, which the conversion to a
number and the store both read as `n`. -/
def Denotes (toNumber : String → JsNumber) (asInteger : String → Option Int) (x : JsId)
    (n : Int) : Prop :=
  x = .num n ∨
    (x = .str (toString n) ∧ toNumber (toString n) = .int n ∧ asInteger (toString n) = some n)

instance (toNumber : String → JsNumber) (asInteger : String → Option Int) (x : JsId)
    (n : Int) : Decidable (Denotes toNumber asInteger x n) :=
  inferInstanceAs (Decidable (x = .num n ∨
    (x = .str (toString n) ∧ toNumber (toString n) = .int n ∧
      asInteger (toString n) = some n)))

/-- The sender `x` and the receiver `y` of a submission stand for the users `s` and `r`:
each is the number or its decimal rendering, and at least one of the two is a number. -/
def Pair (toNumber : String → JsNumber) (asInteger : String → Option Int) (s r : Int) :
    Option (JsId × JsId) → Prop
  | some (x, y) =>
    (x.isNum = true ∨ y.isNum = true) ∧ Denotes toNumber asInteger x s ∧
      Denotes toNumber asInteger y r
  | none => False

instance (toNumber : String → JsNumber) (asInteger : String → Option Int) (s r : Int) :
    (o : Option (JsId × JsId)) → Decidable (Pair toNumber asInteger s r o)
  | some (x, y) =>
    inferInstanceAs (Decidable ((x.isNum = true ∨ y.isNum = true) ∧
      Denotes toNumber asInteger x s ∧ Denotes toNumber asInteger y r))
  | none => inferInstanceAs (Decidable False)

end JsId

namespace UserSockets

/-- The read `userSockets[key]` for a key as it arrives: the property whose name is the
rendering of the key (the name of the property of user `n` is the rendering of `n`). -/
def getKey (m : UserSockets) (key : JsId) : Option SocketId :=
  (m.entries.find? (fun e => toString e.1 == key.render)).map (fun e => e.2)

end UserSockets

namespace Raw

/-- The conversation key, as computed at `index.js:76`, `messageRoutes.js:62` and
`messageRoutes.js:122`, on identifiers as they arrive. -/
def chat_id (toNumber : String → JsNumber) (sender_id receiver_id : JsId) : String :=
  if sender_id.less toNumber receiver_id then s!"{sender_id}_{receiver_id}"
  else s!"{receiver_id}_{sender_id}"

/-- Result of `SELECT id FROM users WHERE id = $1`: its `rowCount`, or `none` when the
query throws, as it does when the store refuses the parameter. -/
def selectUserById (asInteger : String → Option Int) (run : StoreRun) (db : Db) (id : JsId) :
    Option Nat :=
  match id.column asInteger with
  | none => none
  | some n => ChatApp.selectUserById run db n

/-- Result of the `INSERT`: the inserted row and the database after the insert, or `none`
when the query throws, as it does when the store refuses a parameter. -/
def insertMessage (asInteger : String → Option Int) (run : StoreRun) (db : Db)
    (chat : String) (sender_id receiver_id : JsId) (content file_path : Option String) :
    Option (Message × Db) :=
  match sender_id.column asInteger, receiver_id.column asInteger with
  | some s, some r => ChatApp.insertMessage run db chat s r content file_path
  | _, _ => none

/-- The parts of an HTTP request the message routes read. -/
structure Request where
  /-- `req.cookies.token` -/
  token : Option String
  /-- `req.body.receiver_id` -/
  receiver_id : Option JsId
  /-- `req.body.content` -/
  content : Option String
  /-- the part named `file` of a multipart body -/
  file : Option Upload
  /-- the value of `Date.now()` when multer names the stored file -/
  dateNow : Nat
deriving DecidableEq, Repr

/-- The middleware `authenticate` (`authMiddleware.js:6-20`). -/
def authenticate (verify : String → Option TokenPayload) (req : Request) :
    Except Response TokenPayload :=
  if !truthyOptStr req.token then
    .error { status := 401, body := .error "Unauthorized" }
  else
    match req.token.bind verify with
    | some decoded => .ok decoded
    | none => .error { status := 401, body := .error "Invalid token" }

/-- The middleware `uploadMessage.single("file")`: the pair of `req.file.filename` and
`req.fileValidationError`. -/
def uploadMessage (req : Request) : Option String × Option String :=
  match req.file with
  | none => (none, none)
  | some file =>
    if messageFileFilter file then (some (toString req.dateNow ++ file.ext), none)
    else (none, some "Only images and videos are allowed!")

/-- The route `POST /` (`messageRoutes.js:43-75`) behind `authenticate`. -/
def postMessage (verify : String → Option TokenPayload) (toNumber : String → JsNumber)
    (asInteger : String → Option Int) (run : StoreRun) (db : Db) (req : Request) :
    Response × Db :=
  match authenticate verify req with
  | .error res => (res, db)
  | .ok user =>
    let sender_id := JsId.num user.id
    match req.receiver_id with
    | none =>
      ({ status := 400, body := .error "Receiver ID and message content are required" }, db)
    | some receiver_id =>
      if !receiver_id.truthy || !truthyOptStr (req.content.map trim) then
        ({ status := 400, body := .error "Receiver ID and message content are required" }, db)
      else if sender_id == receiver_id then
        -- strict equality: a string never equals the number of the token
        ({ status := 400, body := .error "You cannot message yourself" }, db)
      else
        match selectUserById asInteger run db receiver_id with
        | none => ({ status := 500, body := .error "Internal server error" }, db)
        | some rowCount =>
          if rowCount == 0 then
            ({ status := 404, body := .error "Receiver not found" }, db)
          else
            match insertMessage asInteger run db (chat_id toNumber sender_id receiver_id)
                sender_id receiver_id req.content none with
            | none => ({ status := 500, body := .error "Internal server error" }, db)
            | some (row, db1) => ({ status := 201, body := .messageSent row }, db1)

/-- The route `POST /send-message` (`messageRoutes.js:108-135`) behind `authenticate` and
`uploadMessage.single("file")`. -/
def postSendMessage (verify : String → Option TokenPayload) (toNumber : String → JsNumber)
    (asInteger : String → Option Int) (run : StoreRun) (db : Db) (req : Request) :
    Response × Db :=
  match authenticate verify req with
  | .error res => (res, db)
  | .ok user =>
    let sender_id := JsId.num user.id
    let filePath := (uploadMessage req).1
    match (uploadMessage req).2 with
    | some fileValidationError => ({ status := 400, body := .error fileValidationError }, db)
    | none =>
      match req.receiver_id with
      | none => ({ status := 400, body := .error "Message or file is required" }, db)
      | some receiver_id =>
        if !receiver_id.truthy || (!truthyOptStr req.content && !truthyOptStr filePath) then
          ({ status := 400, body := .error "Message or file is required" }, db)
        else
          match insertMessage asInteger run db (chat_id toNumber sender_id receiver_id)
              sender_id receiver_id
              (if truthyOptStr req.content then req.content else none) filePath with
          | none => ({ status := 500, body := .error "Message sending failed" }, db)
          | some (row, db1) => ({ status := 201, body := .success row }, db1)

/-- The payload of a `sendMessage` event, destructured at `index.js:74`. -/
structure Payload where
  sender_id : Option JsId
  receiver_id : Option JsId
  content : Option String
deriving DecidableEq, Repr

/-- The `sendMessage` handler of `socket` (`index.js:74-92`). -/
def sendMessage (toNumber : String → JsNumber) (asInteger : String → Option Int)
    (run : StoreRun) (db : Db) (userSockets : UserSockets) (socket : Socket) (p : Payload) :
    SendResult :=
  match p.sender_id, p.receiver_id, p.content with
  | some sender_id, some receiver_id, some content =>
    if !sender_id.truthy || !receiver_id.truthy || !truthyStr content then
      { db := db, emits := [], outcome := .ignored }
    else
      match insertMessage asInteger run db (chat_id toNumber sender_id receiver_id)
          sender_id receiver_id (some content) none with
      | none => { db := db, emits := [], outcome := .failed }
      | some (savedMessage, db1) =>
        let toReceiver : List Emit :=
          match userSockets.getKey receiver_id with
          | some receiverSocket =>
            if truthyStr receiverSocket.val then
              [{ room := receiverSocket, event := .receiveMessage, payload := savedMessage }]
            else []
          | none => []
        { db := db1,
          emits := toReceiver ++ [{ room := socket.id, event := .messageSent,
                                    payload := savedMessage }],
          outcome := .stored savedMessage }
  | _, _, _ =>
    { db := db, emits := [], outcome := .ignored }

/-- One submission: a call of one of the three handlers that insert a message, with what
the database contributes to it. -/
inductive Submission where
  /-- a `sendMessage` event on `socket` -/
  | socket (run : StoreRun) (userSockets : UserSockets) (socket : Socket) (p : Payload)
  /-- a request to `POST /messages` -/
  | post (run : StoreRun) (req : Request)
  /-- a request to `POST /messages/send-message` -/
  | upload (run : StoreRun) (req : Request)

namespace Submission

/-- What the database contributes to the call. -/
def run : Submission → StoreRun
  | .socket run _ _ _ => run
  | .post run _ => run
  | .upload run _ => run

/-- The sender and the receiver as they reach the handler: both from the payload on the
socket, the sender from the token and the receiver from the body on the routes. -/
def ids (verify : String → Option TokenPayload) : Submission → Option (JsId × JsId)
  | .socket _ _ _ p =>
    match p.sender_id, p.receiver_id with
    | some s, some r => some (s, r)
    | _, _ => none
  | .post _ req =>
    match authenticate verify req, req.receiver_id with
    | .ok user, some r => some (.num user.id, r)
    | _, _ => none
  | .upload _ req =>
    match authenticate verify req, req.receiver_id with
    | .ok user, some r => some (.num user.id, r)
    | _, _ => none

/-- The content the handler binds to the `content` column. -/
def content : Submission → Option String
  | .socket _ _ _ p => p.content
  | .post _ req => req.content
  | .upload _ req => if truthyOptStr req.content then req.content else none

/-- A submission from user `s` to user `r`: the identifiers reach the handler as the numbers
`s` and `r` or as their decimal renderings, not both as strings. -/
def From (verify : String → Option TokenPayload) (toNumber : String → JsNumber)
    (asInteger : String → Option Int) (s r : Int) (sub : Submission) : Prop :=
  JsId.Pair toNumber asInteger s r (sub.ids verify)

instance (verify : String → Option TokenPayload) (toNumber : String → JsNumber)
    (asInteger : String → Option Int) (s r : Int) (sub : Submission) :
    Decidable (From verify toNumber asInteger s r sub) :=
  inferInstanceAs (Decidable (JsId.Pair toNumber asInteger s r (sub.ids verify)))

/-- A submission between the users `a` and `b`, in either direction. -/
def Between (verify : String → Option TokenPayload) (toNumber : String → JsNumber)
    (asInteger : String → Option Int) (a b : Int) (sub : Submission) : Prop :=
  From verify toNumber asInteger a b sub ∨ From verify toNumber asInteger b a sub

instance (verify : String → Option TokenPayload) (toNumber : String → JsNumber)
    (asInteger : String → Option Int) (a b : Int) (sub : Submission) :
    Decidable (Between verify toNumber asInteger a b sub) :=
  inferInstanceAs (Decidable (From verify toNumber asInteger a b sub ∨
    From verify toNumber asInteger b a sub))

end Submission

/-- One submission on a database: the database after the call and the row the handler got
back from the insert (`none` when it inserted none). -/
def submit (verify : String → Option TokenPayload) (toNumber : String → JsNumber)
    (asInteger : String → Option Int) (db : Db) : Submission → Db × Option Message
  | .socket run userSockets socket p =>
    let res := sendMessage toNumber asInteger run db userSockets socket p
    (res.db, match res.outcome with
      | .stored row => some row
      | _ => none)
  | .post run req =>
    let res := postMessage verify toNumber asInteger run db req
    (res.2, match res.1.body with
      | .messageSent row => some row
      | _ => none)
  | .upload run req =>
    let res := postSendMessage verify toNumber asInteger run db req
    (res.2, match res.1.body with
      | .success row => some row
      | _ => none)

/-- Submissions made one after another, each on the database the one before left: the
database after the last and the rows got back, in the order of the submissions. -/
def submitAll (verify : String → Option TokenPayload) (toNumber : String → JsNumber)
    (asInteger : String → Option Int) : Db → List Submission → Db × List (Option Message)
  | db, [] => (db, [])
  | db, s :: rest =>
    let out := submit verify toNumber asInteger db s
    let tail := submitAll verify toNumber asInteger out.1 rest
    (tail.1, out.2 :: tail.2)

end Raw

/-- The identifiers of a payload, each as the number it is. -/
def Payload.raw (p : Payload) : Raw.Payload :=
  { sender_id := p.sender_id.map .num, receiver_id := p.receiver_id.map .num,
    content := p.content }

/-- The receiver of a body as the number it is. -/
def Request.raw (req : Request) : Raw.Request :=
  { token := req.token, receiver_id := req.receiver_id.map .num, content := req.content,
    file := req.file, dateNow := req.dateNow }

/-! ## Auxiliary facts about the embedding -/

theorem toString_string (s : String) : toString s = s := rfl

theorem chat_id_eq (a b : Int) : chat_id a b =
    if a < b then toString a ++ "_" ++ toString b else toString b ++ "_" ++ toString a := by
  unfold chat_id
  simp only [toString_string, String.append_empty, String.empty_append]

theorem chat_id_min_max (a b : Int) :
    chat_id a b = toString (min a b) ++ "_" ++ toString (max a b) := by
  rw [chat_id_eq]
  by_cases h : a < b
  · simp [h, min_eq_left (le_of_lt h), max_eq_right (le_of_lt h)]
  · have h2 : b ≤ a := not_lt.mp h
    simp [h, min_eq_right h2, max_eq_left h2]

theorem insertMessage_some {run : StoreRun} {db : Db} {chat : String} {s r : Int}
    {c f : Option String} {row : Message} {db1 : Db}
    (h : insertMessage run db chat s r c f = some (row, db1)) :
    run.insertThrows = false ∧
    row = { id := run.newId, chat_id := chat, sender_id := s, receiver_id := r,
            content := c, file_path := f, timestamp := run.now } ∧
    db1 = { db with messages := db.messages ++ [row] } := by
  unfold insertMessage at h
  split at h
  · simp at h
  · simp only [Option.some.injEq, Prod.mk.injEq] at h
    obtain ⟨h1, h2⟩ := h
    subst h1
    refine ⟨by simpa using ‹¬ run.insertThrows = true›, rfl, h2.symm⟩

theorem authenticate_status {verify : String → Option TokenPayload} {req : Request}
    {res : Response} (h : authenticate verify req = .error res) :
    ∃ msg, res = { status := 401, body := .error msg } := by
  unfold authenticate at h
  split at h
  · cases h; exact ⟨_, rfl⟩
  · split at h
    · cases h
    · cases h; exact ⟨_, rfl⟩

/-- Every run of `POST /` either leaves the database as it was and answers 400, 401, 404
or 500, or inserts one row and answers 201 with that row. -/
theorem postMessage_spec (verify : String → Option TokenPayload) (run : StoreRun)
    (db : Db) (req : Request) :
    (∃ st msg, postMessage verify run db req = ({ status := st, body := .error msg }, db) ∧
      (st = 400 ∨ st = 401 ∨ st = 404 ∨ st = 500)) ∨
    (∃ user r row, authenticate verify req = .ok user ∧ req.receiver_id = some r ∧
      r ≠ 0 ∧ truthyOptStr (req.content.map trim) = true ∧ user.id ≠ r ∧
      (db.users.filter (fun u => u.id == r)).length ≠ 0 ∧ run.insertThrows = false ∧
      row = { id := run.newId, chat_id := chat_id user.id r, sender_id := user.id,
              receiver_id := r, content := req.content, file_path := none,
              timestamp := run.now } ∧
      postMessage verify run db req =
        ({ status := 201, body := .messageSent row },
         { db with messages := db.messages ++ [row] })) := by
  cases hauth : authenticate verify req with
  | error res =>
    have h : postMessage verify run db req = (res, db) := by simp only [postMessage, hauth]
    obtain ⟨msg, hmsg⟩ := authenticate_status hauth
    exact Or.inl ⟨401, msg, hmsg ▸ h, Or.inr (Or.inl rfl)⟩
  | ok user =>
    cases hr : req.receiver_id with
    | none =>
      have h : postMessage verify run db req =
          ({ status := 400, body := .error "Receiver ID and message content are required" },
            db) := by
        simp only [postMessage, hauth, hr]
      exact Or.inl ⟨_, _, h, Or.inl rfl⟩
    | some r =>
      cases hv : (!truthyNum r || !truthyOptStr (req.content.map trim)) with
      | true =>
        have h : postMessage verify run db req =
            ({ status := 400, body := .error "Receiver ID and message content are required" },
              db) := by
          simp only [postMessage, hauth, hr, hv, if_true]
        exact Or.inl ⟨_, _, h, Or.inl rfl⟩
      | false =>
        cases hself : (user.id == r) with
        | true =>
          have h : postMessage verify run db req =
              ({ status := 400, body := .error "You cannot message yourself" }, db) := by
            simp only [postMessage, hauth, hr, hv, hself, if_true, Bool.false_eq_true, if_false]
          exact Or.inl ⟨_, _, h, Or.inl rfl⟩
        | false =>
          cases hsel : selectUserById run db r with
          | none =>
            have h : postMessage verify run db req =
                ({ status := 500, body := .error "Internal server error" }, db) := by
              simp only [postMessage, hauth, hr, hv, hself, hsel, Bool.false_eq_true, if_false]
            exact Or.inl ⟨_, _, h, Or.inr (Or.inr (Or.inr rfl))⟩
          | some rowCount =>
            cases hz : (rowCount == 0) with
            | true =>
              have h : postMessage verify run db req =
                  ({ status := 404, body := .error "Receiver not found" }, db) := by
                simp only [postMessage, hauth, hr, hv, hself, hsel, hz, if_true,
                  Bool.false_eq_true, if_false]
              exact Or.inl ⟨_, _, h, Or.inr (Or.inr (Or.inl rfl))⟩
            | false =>
              cases hins : insertMessage run db (chat_id user.id r) user.id r req.content
                  none with
              | none =>
                have h : postMessage verify run db req =
                    ({ status := 500, body := .error "Internal server error" }, db) := by
                  simp only [postMessage, hauth, hr, hv, hself, hsel, hz, hins,
                    Bool.false_eq_true, if_false]
                exact Or.inl ⟨_, _, h, Or.inr (Or.inr (Or.inr rfl))⟩
              | some out =>
                obtain ⟨row, db1⟩ := out
                obtain ⟨hthrow, hrow, hdb⟩ := insertMessage_some hins
                have hv2 : truthyNum r = true ∧
                    truthyOptStr (req.content.map trim) = true := by simpa using hv
                refine Or.inr ⟨user, r, row, rfl, rfl, ?_, hv2.2, ?_, ?_, hthrow, hrow, ?_⟩
                · intro h0
                  have := hv2.1
                  simp [h0, truthyNum] at this
                · simpa using hself
                · unfold selectUserById at hsel
                  split at hsel
                  · cases hsel
                  · cases hsel; simpa using hz
                · simp only [postMessage, hauth, hr, hv, hself, hsel, hz, hins,
                    Bool.false_eq_true, if_false, hdb]

/-- A run of the `sendMessage` handler that stored a row: what the payload was, what the row
is, and everything the run did. -/
theorem sendMessage_stored {run : StoreRun} {db : Db} {reg : UserSockets} {sock : Socket}
    {p : Payload} {row : Message}
    (h : (sendMessage run db reg sock p).outcome = .stored row) :
    ∃ s r c, p.sender_id = some s ∧ p.receiver_id = some r ∧ p.content = some c ∧
      s ≠ 0 ∧ r ≠ 0 ∧ c ≠ "" ∧ run.insertThrows = false ∧
      row = { id := run.newId, chat_id := chat_id s r, sender_id := s, receiver_id := r,
              content := some c, file_path := none, timestamp := run.now } ∧
      (sendMessage run db reg sock p).db = { db with messages := db.messages ++ [row] } ∧
      (sendMessage run db reg sock p).emits =
        (match reg.get r with
          | some sid => [{ room := sid, event := .receiveMessage, payload := row }]
          | none => []) ++
        [{ room := sock.id, event := .messageSent, payload := row }] := by
  obtain ⟨ps, pr, pc⟩ := p
  cases ps with
  | none => simp [sendMessage] at h
  | some s =>
    cases pr with
    | none => simp [sendMessage] at h
    | some r =>
      cases pc with
      | none => simp [sendMessage] at h
      | some c =>
        by_cases hs : s = 0
        · simp [sendMessage, truthyNum, hs] at h
        by_cases hr : r = 0
        · simp [sendMessage, truthyNum, hr] at h
        by_cases hc : c = ""
        · simp [sendMessage, truthyStr, hc] at h
        by_cases hi : run.insertThrows = true
        · simp [sendMessage, truthyNum, truthyStr, hs, hr, hc, insertMessage, hi] at h
        simp only [Bool.not_eq_true] at hi
        simp [sendMessage, truthyNum, truthyStr, hs, hr, hc, insertMessage, hi] at h
        refine ⟨s, r, c, rfl, rfl, rfl, hs, hr, hc, hi, h.symm, ?_, ?_⟩
        · subst h
          simp [sendMessage, truthyNum, truthyStr, hs, hr, hc, insertMessage, hi]
        · subst h
          simp [sendMessage, truthyNum, truthyStr, hs, hr, hc, insertMessage, hi]
          cases hg : reg.get r with
          | none => simp
          | some sid => simp [sid.nonempty]

/-- Every run of `POST /send-message` either leaves the database as it was and answers 400,
401 or 500, or inserts one row and answers 201 with that row. -/
theorem postSendMessage_spec (verify : String → Option TokenPayload) (run : StoreRun)
    (db : Db) (req : Request) :
    (∃ st msg, postSendMessage verify run db req =
        ({ status := st, body := .error msg }, db) ∧ (st = 400 ∨ st = 401 ∨ st = 500)) ∨
    (∃ user r row, authenticate verify req = .ok user ∧ (uploadMessage req).2 = none ∧
      req.receiver_id = some r ∧ r ≠ 0 ∧
      (truthyOptStr req.content = true ∨ truthyOptStr (uploadMessage req).1 = true) ∧
      run.insertThrows = false ∧
      row = { id := run.newId, chat_id := chat_id user.id r, sender_id := user.id,
              receiver_id := r,
              content := if truthyOptStr req.content then req.content else none,
              file_path := (uploadMessage req).1, timestamp := run.now } ∧
      postSendMessage verify run db req =
        ({ status := 201, body := .success row },
         { db with messages := db.messages ++ [row] })) := by
  cases hauth : authenticate verify req with
  | error res =>
    have h : postSendMessage verify run db req = (res, db) := by
      simp only [postSendMessage, hauth]
    obtain ⟨msg, hmsg⟩ := authenticate_status hauth
    exact Or.inl ⟨401, msg, hmsg ▸ h, Or.inr (Or.inl rfl)⟩
  | ok user =>
    cases hf : (uploadMessage req).2 with
    | some err =>
      have h : postSendMessage verify run db req =
          ({ status := 400, body := .error err }, db) := by
        simp only [postSendMessage, hauth, hf]
      exact Or.inl ⟨_, _, h, Or.inl rfl⟩
    | none =>
      cases hr : req.receiver_id with
      | none =>
        have h : postSendMessage verify run db req =
            ({ status := 400, body := .error "Message or file is required" }, db) := by
          simp only [postSendMessage, hauth, hf, hr]
        exact Or.inl ⟨_, _, h, Or.inl rfl⟩
      | some r =>
        cases hv : (!truthyNum r ||
            (!truthyOptStr req.content && !truthyOptStr (uploadMessage req).1)) with
        | true =>
          have h : postSendMessage verify run db req =
              ({ status := 400, body := .error "Message or file is required" }, db) := by
            simp only [postSendMessage, hauth, hf, hr, hv, if_true]
          exact Or.inl ⟨_, _, h, Or.inl rfl⟩
        | false =>
          cases hins : insertMessage run db (chat_id user.id r) user.id r
              (if truthyOptStr req.content then req.content else none)
              (uploadMessage req).1 with
          | none =>
            have h : postSendMessage verify run db req =
                ({ status := 500, body := .error "Message sending failed" }, db) := by
              simp only [postSendMessage, hauth, hf, hr, hv, hins, Bool.false_eq_true,
                if_false]
            exact Or.inl ⟨_, _, h, Or.inr (Or.inr rfl)⟩
          | some out =>
            obtain ⟨row, db1⟩ := out
            obtain ⟨hthrow, hrow, hdb⟩ := insertMessage_some hins
            have hv2 : truthyNum r = true ∧
                (truthyOptStr req.content = true ∨
                  truthyOptStr (uploadMessage req).1 = true) := by
              revert hv
              cases truthyNum r <;> cases truthyOptStr req.content <;>
                cases truthyOptStr (uploadMessage req).1 <;> simp
            refine Or.inr ⟨user, r, row, rfl, rfl, rfl, ?_, hv2.2, hthrow, hrow, ?_⟩
            · intro h0
              have := hv2.1
              simp [h0, truthyNum] at this
            · simp only [postSendMessage, hauth, hf, hr, hv, hins, Bool.false_eq_true,
                if_false, hdb]

/-- A run of the `sendMessage` handler that did not store a row left the database as it
was and emitted nothing. -/
theorem sendMessage_not_stored {run : StoreRun} {db : Db} {reg : UserSockets}
    {sock : Socket} {p : Payload}
    (h : ∀ row, (sendMessage run db reg sock p).outcome ≠ .stored row) :
    (sendMessage run db reg sock p).db = db ∧ (sendMessage run db reg sock p).emits = [] := by
  obtain ⟨ps, pr, pc⟩ := p
  cases ps with
  | none => simp [sendMessage]
  | some s =>
    cases pr with
    | none => simp [sendMessage]
    | some r =>
      cases pc with
      | none => simp [sendMessage]
      | some c =>
        cases hv : (!truthyNum s || !truthyNum r || !truthyStr c) with
        | true => simp only [sendMessage, hv, if_true, and_self]
        | false =>
          cases hi : run.insertThrows with
          | true =>
            simp only [sendMessage, hv, insertMessage, hi, if_true, Bool.false_eq_true,
              if_false, and_self]
          | false =>
            exfalso
            refine h { id := run.newId, chat_id := chat_id s r, sender_id := s,
                       receiver_id := r, content := some c, file_path := none,
                       timestamp := run.now } ?_
            simp only [sendMessage, hv, insertMessage, hi, Bool.false_eq_true, if_false]

namespace UserSockets

theorem get_set_self (m : UserSockets) (u : Int) (sid : SocketId) :
    (m.set u sid).get u = some sid := by
  simp [set, get]

theorem count_set_self (m : UserSockets) (u : Int) (sid : SocketId) :
    (m.set u sid).count u = 1 := by
  simp [set, count, List.filter_filter]

theorem get_delete_self (m : UserSockets) (u : Int) : (m.delete u).get u = none := by
  simp [delete, get, List.find?_eq_none]

theorem count_delete_self (m : UserSockets) (u : Int) : (m.delete u).count u = 0 := by
  simp [delete, count, List.filter_filter]

end UserSockets
/-! ## The conversation key -/

/-- C1. For every two distinct user identifiers `a` and `b`, the conversation key computed
for sender `a` and receiver `b` equals the key computed for sender `b` and receiver `a`.
The socket `sendMessage` handler, `POST /messages` and `POST /messages/send-message` all
compute the key by this one expression. -/
theorem chat_id_comm (a b : Int) (_hab : a ≠ b) : chat_id a b = chat_id b a := by
  rw [chat_id_min_max a b, chat_id_min_max b a, min_comm a b, max_comm a b]

theorem chat_id_comm_witness : (7 : Int) ≠ 3 ∧ chat_id 7 3 = chat_id 3 7 :=
  ⟨by decide, chat_id_comm 7 3 (by decide)⟩

/-! ## Rejections -/

/-- C3. A submission whose receiver is the sender itself: `POST /messages` rejects it with
400 and inserts nothing, but the socket `sendMessage` handler and
`POST /messages/send-message` have no such check and store the row, under the key `1_1`. -/
theorem self_send_stored_by_socket_and_upload_route :
    (postMessage (fun t => if t = "t1" then some ⟨1, "a@x"⟩ else none) ⟨50, 9, false, false⟩
        ⟨[⟨1, "A", "a@x", none⟩], []⟩ ⟨some "t1", some 1, some "hi", none, 0⟩) =
      (⟨400, .error "You cannot message yourself"⟩, ⟨[⟨1, "A", "a@x", none⟩], []⟩) ∧
    (sendMessage ⟨50, 9, false, false⟩ ⟨[⟨1, "A", "a@x", none⟩], []⟩ UserSockets.empty
        ⟨⟨"s1", by decide⟩, ⟨1, "a@x"⟩⟩ ⟨some 1, some 1, some "hi"⟩).db.messages =
      [⟨9, "1_1", 1, 1, some "hi", none, 50⟩] ∧
    (postSendMessage (fun t => if t = "t1" then some ⟨1, "a@x"⟩ else none)
        ⟨50, 9, false, false⟩ ⟨[⟨1, "A", "a@x", none⟩], []⟩
        ⟨some "t1", some 1, some "hi", none, 0⟩) =
      (⟨201, .success ⟨9, "1_1", 1, 1, some "hi", none, 50⟩⟩,
       ⟨[⟨1, "A", "a@x", none⟩], [⟨9, "1_1", 1, 1, some "hi", none, 50⟩]⟩) := by
  refine ⟨by decide, by decide, by decide⟩

/-- C4, as stated, fails on the socket: a `sendMessage` event without content makes the
handler return at once, and nothing at all is emitted to the submitting socket. -/
theorem socket_rejection_is_silent :
    (sendMessage ⟨50, 9, false, false⟩ ⟨[⟨1, "A", "a@x", none⟩, ⟨2, "B", "b@x", none⟩], []⟩
        UserSockets.empty ⟨⟨"s1", by decide⟩, ⟨1, "a@x"⟩⟩ ⟨some 1, some 2, none⟩).outcome =
      .ignored ∧
    (sendMessage ⟨50, 9, false, false⟩ ⟨[⟨1, "A", "a@x", none⟩, ⟨2, "B", "b@x", none⟩], []⟩
        UserSockets.empty ⟨⟨"s1", by decide⟩, ⟨1, "a@x"⟩⟩ ⟨some 1, some 2, none⟩).emits =
      [] := by
  refine ⟨by decide, by decide⟩

theorem truthyOptStr_map_trim {c : Option String} (h : truthyOptStr c = false) :
    truthyOptStr (c.map trim) = false := by
  cases c with
  | none => rfl
  | some s =>
    have hs : s = "" := by simpa [truthyOptStr, truthyStr] using h
    subst hs
    decide

/-- C4, amended. A submission in which both the text content and the media reference are
absent is rejected on every entry point and inserts no row: an authenticated request to
`POST /messages` or `POST /messages/send-message` is answered 400 with an error body, and
the socket `sendMessage` handler returns without emitting any event. -/
theorem absent_content_rejected (verify : String → Option TokenPayload) (run : StoreRun)
    (db : Db) (reg : UserSockets) (sock : Socket) (p : Payload) (req : Request)
    (user : TokenPayload) (hp : truthyOptStr p.content = false)
    (hauth : authenticate verify req = .ok user)
    (hc : truthyOptStr req.content = false) (hf : (uploadMessage req).1 = none) :
    sendMessage run db reg sock p = { db := db, emits := [], outcome := .ignored } ∧
    postMessage verify run db req =
      ({ status := 400, body := .error "Receiver ID and message content are required" },
       db) ∧
    ∃ msg, postSendMessage verify run db req = ({ status := 400, body := .error msg }, db) := by
  refine ⟨?_, ?_, ?_⟩
  · obtain ⟨ps, pr, pc⟩ := p
    cases ps <;> cases pr <;> cases pc <;> try rfl
    rename_i s r c
    have hc0 : truthyStr c = false := hp
    simp [sendMessage, hc0]
  · have ht := truthyOptStr_map_trim hc
    cases hr : req.receiver_id with
    | none => simp only [postMessage, hauth, hr]
    | some r => simp [postMessage, hauth, hr, ht]
  · cases hv : (uploadMessage req).2 with
    | some err => exact ⟨err, by simp only [postSendMessage, hauth, hv]⟩
    | none =>
      refine ⟨"Message or file is required", ?_⟩
      cases hr : req.receiver_id with
      | none => simp only [postSendMessage, hauth, hv, hr]
      | some r =>
        have hf1 : truthyOptStr (uploadMessage req).1 = false := by rw [hf]; rfl
        simp [postSendMessage, hauth, hv, hr, hc, hf1]

theorem absent_content_rejected_witness :
    (truthyOptStr (⟨some 1, some 2, none⟩ : Payload).content = false ∧
     authenticate (fun t => if t = "t1" then some ⟨1, "a@x"⟩ else none)
        ⟨some "t1", some 2, none, none, 0⟩ = .ok ⟨1, "a@x"⟩ ∧
     truthyOptStr (⟨some "t1", some 2, none, none, 0⟩ : Request).content = false ∧
     (uploadMessage ⟨some "t1", some 2, none, none, 0⟩).1 = none) ∧
    (sendMessage ⟨50, 9, false, false⟩ ⟨[], []⟩ UserSockets.empty
        ⟨⟨"s1", by decide⟩, ⟨1, "a@x"⟩⟩ ⟨some 1, some 2, none⟩ =
      { db := ⟨[], []⟩, emits := [], outcome := .ignored } ∧
    postMessage (fun t => if t = "t1" then some ⟨1, "a@x"⟩ else none) ⟨50, 9, false, false⟩
        ⟨[], []⟩ ⟨some "t1", some 2, none, none, 0⟩ =
      ({ status := 400, body := .error "Receiver ID and message content are required" },
       ⟨[], []⟩) ∧
    ∃ msg, postSendMessage (fun t => if t = "t1" then some ⟨1, "a@x"⟩ else none)
        ⟨50, 9, false, false⟩ ⟨[], []⟩ ⟨some "t1", some 2, none, none, 0⟩ =
      ({ status := 400, body := .error msg }, ⟨[], []⟩)) :=
  ⟨⟨by decide, rfl, by decide, by decide⟩,
   absent_content_rejected (fun t => if t = "t1" then some ⟨1, "a@x"⟩ else none)
    ⟨50, 9, false, false⟩ ⟨[], []⟩ UserSockets.empty ⟨⟨"s1", by decide⟩, ⟨1, "a@x"⟩⟩
    ⟨some 1, some 2, none⟩ ⟨some "t1", some 2, none, none, 0⟩ ⟨1, "a@x"⟩
    (by decide) rfl (by decide) (by decide)⟩

/-- C5. A submission whose receiver is not in the `users` table: `POST /messages` rejects it
with 404 and inserts nothing, but the socket `sendMessage` handler and
`POST /messages/send-message` never look the receiver up and store the row. -/
theorem unknown_receiver_stored_by_socket_and_upload_route :
    (postMessage (fun t => if t = "t1" then some ⟨1, "a@x"⟩ else none) ⟨50, 9, false, false⟩
        ⟨[⟨1, "A", "a@x", none⟩], []⟩ ⟨some "t1", some 99, some "hi", none, 0⟩) =
      (⟨404, .error "Receiver not found"⟩, ⟨[⟨1, "A", "a@x", none⟩], []⟩) ∧
    (sendMessage ⟨50, 9, false, false⟩ ⟨[⟨1, "A", "a@x", none⟩], []⟩ UserSockets.empty
        ⟨⟨"s1", by decide⟩, ⟨1, "a@x"⟩⟩ ⟨some 1, some 99, some "hi"⟩).db.messages =
      [⟨9, "1_99", 1, 99, some "hi", none, 50⟩] ∧
    (postSendMessage (fun t => if t = "t1" then some ⟨1, "a@x"⟩ else none)
        ⟨50, 9, false, false⟩ ⟨[⟨1, "A", "a@x", none⟩], []⟩
        ⟨some "t1", some 99, some "hi", none, 0⟩) =
      (⟨201, .success ⟨9, "1_99", 1, 99, some "hi", none, 50⟩⟩,
       ⟨[⟨1, "A", "a@x", none⟩], [⟨9, "1_99", 1, 99, some "hi", none, 50⟩]⟩) := by
  refine ⟨by decide, by decide, by decide⟩

/-- C6. On every path of a submission entry point that ends in a rejection (a 400, 403 or
404 response of `POST /messages` or `POST /messages/send-message`, or the early return of
the socket `sendMessage` handler), the `messages` table is exactly as it was before the
call. -/
theorem rejection_leaves_messages (verify : String → Option TokenPayload) (run : StoreRun)
    (db : Db) (reg : UserSockets) (sock : Socket) (p : Payload) (req : Request) :
    (((postMessage verify run db req).1.status = 400 ∨
      (postMessage verify run db req).1.status = 403 ∨
      (postMessage verify run db req).1.status = 404) →
        (postMessage verify run db req).2.messages = db.messages) ∧
    (((postSendMessage verify run db req).1.status = 400 ∨
      (postSendMessage verify run db req).1.status = 403 ∨
      (postSendMessage verify run db req).1.status = 404) →
        (postSendMessage verify run db req).2.messages = db.messages) ∧
    ((sendMessage run db reg sock p).outcome = .ignored →
        (sendMessage run db reg sock p).db.messages = db.messages) := by
  refine ⟨?_, ?_, ?_⟩
  · intro h
    rcases postMessage_spec verify run db req with ⟨st, msg, hres, -⟩ | hc
    · rw [hres]
    · obtain ⟨user, r, row, -, -, -, -, -, -, -, -, hpost⟩ := hc
      rw [hpost] at h
      simp at h
  · intro h
    rcases postSendMessage_spec verify run db req with ⟨st, msg, hres, -⟩ | hc
    · rw [hres]
    · obtain ⟨user, r, row, -, -, -, -, -, -, -, hpost⟩ := hc
      rw [hpost] at h
      simp at h
  · intro h
    have hns : ∀ row, (sendMessage run db reg sock p).outcome ≠ .stored row := by
      intro row hrow
      rw [h] at hrow
      cases hrow
    rw [(sendMessage_not_stored hns).1]

theorem rejection_leaves_messages_witness :
    ((postMessage (fun t => if t = "t1" then some ⟨1, "a@x"⟩ else none)
        ⟨50, 9, false, false⟩ ⟨[⟨1, "A", "a@x", none⟩], [⟨4, "1_2", 2, 1, some "yo", none, 7⟩]⟩
        ⟨some "t1", some 99, some "hi", none, 0⟩).1.status = 404 ∧
     (postMessage (fun t => if t = "t1" then some ⟨1, "a@x"⟩ else none)
        ⟨50, 9, false, false⟩ ⟨[⟨1, "A", "a@x", none⟩], [⟨4, "1_2", 2, 1, some "yo", none, 7⟩]⟩
        ⟨some "t1", some 99, some "hi", none, 0⟩).2.messages =
       [⟨4, "1_2", 2, 1, some "yo", none, 7⟩]) ∧
    ((postSendMessage (fun t => if t = "t1" then some ⟨1, "a@x"⟩ else none)
        ⟨50, 9, false, false⟩ ⟨[⟨1, "A", "a@x", none⟩], [⟨4, "1_2", 2, 1, some "yo", none, 7⟩]⟩
        ⟨some "t1", some 2, some "hi", some ⟨"text/plain", ".txt"⟩, 0⟩).1.status = 400 ∧
     (postSendMessage (fun t => if t = "t1" then some ⟨1, "a@x"⟩ else none)
        ⟨50, 9, false, false⟩ ⟨[⟨1, "A", "a@x", none⟩], [⟨4, "1_2", 2, 1, some "yo", none, 7⟩]⟩
        ⟨some "t1", some 2, some "hi", some ⟨"text/plain", ".txt"⟩, 0⟩).2.messages =
       [⟨4, "1_2", 2, 1, some "yo", none, 7⟩]) ∧
    ((sendMessage ⟨50, 9, false, false⟩
        ⟨[⟨1, "A", "a@x", none⟩], [⟨4, "1_2", 2, 1, some "yo", none, 7⟩]⟩ UserSockets.empty
        ⟨⟨"s1", by decide⟩, ⟨1, "a@x"⟩⟩ ⟨some 1, some 0, some "hi"⟩).outcome = .ignored ∧
     (sendMessage ⟨50, 9, false, false⟩
        ⟨[⟨1, "A", "a@x", none⟩], [⟨4, "1_2", 2, 1, some "yo", none, 7⟩]⟩ UserSockets.empty
        ⟨⟨"s1", by decide⟩, ⟨1, "a@x"⟩⟩ ⟨some 1, some 0, some "hi"⟩).db.messages =
       [⟨4, "1_2", 2, 1, some "yo", none, 7⟩]) :=
  have h := rejection_leaves_messages (fun t => if t = "t1" then some ⟨1, "a@x"⟩ else none)
    ⟨50, 9, false, false⟩ ⟨[⟨1, "A", "a@x", none⟩], [⟨4, "1_2", 2, 1, some "yo", none, 7⟩]⟩
    UserSockets.empty ⟨⟨"s1", by decide⟩, ⟨1, "a@x"⟩⟩ ⟨some 1, some 0, some "hi"⟩
  ⟨⟨by decide, (h ⟨some "t1", some 99, some "hi", none, 0⟩).1 (Or.inr (Or.inr (by decide)))⟩,
   ⟨by decide, (h ⟨some "t1", some 2, some "hi", some ⟨"text/plain", ".txt"⟩, 0⟩).2.1
      (Or.inl (by decide))⟩,
   ⟨by decide, (h ⟨some "t1", some 2, none, none, 0⟩).2.2 (by decide)⟩⟩
/-! ## The registry -/

/-- C7. After a connection `s1` of a user is registered and then a connection `s2` of the
same user, the registry holds exactly one entry for the user and looking the user up yields
the id of `s2`: the second connection replaces the mapping of the first. -/
theorem reconnect_replaces_mapping (userSockets : UserSockets) (s1 s2 : Socket)
    (h : s1.user.id = s2.user.id) :
    (onConnection (onConnection userSockets s1) s2).count s1.user.id = 1 ∧
    (onConnection (onConnection userSockets s1) s2).get s1.user.id = some s2.id := by
  unfold onConnection
  rw [h]
  exact ⟨UserSockets.count_set_self _ _ _, UserSockets.get_set_self _ _ _⟩

theorem reconnect_replaces_mapping_witness :
    (⟨⟨"h1", by decide⟩, ⟨5, "e@x"⟩⟩ : Socket).user.id =
      (⟨⟨"h2", by decide⟩, ⟨5, "e@x"⟩⟩ : Socket).user.id ∧
    (onConnection (onConnection ⟨[(5, ⟨"h0", by decide⟩), (6, ⟨"k", by decide⟩)]⟩
        ⟨⟨"h1", by decide⟩, ⟨5, "e@x"⟩⟩) ⟨⟨"h2", by decide⟩, ⟨5, "e@x"⟩⟩).count 5 = 1 ∧
    (onConnection (onConnection ⟨[(5, ⟨"h0", by decide⟩), (6, ⟨"k", by decide⟩)]⟩
        ⟨⟨"h1", by decide⟩, ⟨5, "e@x"⟩⟩) ⟨⟨"h2", by decide⟩, ⟨5, "e@x"⟩⟩).get 5 =
      some ⟨"h2", by decide⟩ :=
  ⟨rfl, reconnect_replaces_mapping ⟨[(5, ⟨"h0", by decide⟩), (6, ⟨"k", by decide⟩)]⟩
    ⟨⟨"h1", by decide⟩, ⟨5, "e@x"⟩⟩ ⟨⟨"h2", by decide⟩, ⟨5, "e@x"⟩⟩ rfl⟩

/-- C8, as stated, fails: user 5 connects as `h1`, connects again as `h2`, then the
disconnect event of `h1` is processed; looking up user 5 no longer yields `h2`, it yields
nothing. -/
theorem stale_disconnect_removes_newer_mapping :
    (onConnection (onConnection UserSockets.empty ⟨⟨"h1", by decide⟩, ⟨5, "e@x"⟩⟩)
        ⟨⟨"h2", by decide⟩, ⟨5, "e@x"⟩⟩).get 5 = some ⟨"h2", by decide⟩ ∧
    (onDisconnect (onConnection (onConnection UserSockets.empty
        ⟨⟨"h1", by decide⟩, ⟨5, "e@x"⟩⟩) ⟨⟨"h2", by decide⟩, ⟨5, "e@x"⟩⟩)
        ⟨⟨"h1", by decide⟩, ⟨5, "e@x"⟩⟩).get 5 ≠ some ⟨"h2", by decide⟩ := by
  refine ⟨by decide, by decide⟩

/-- C8, amended. After a connection `s1` of a user is registered, then a connection `s2` of
the same user, and then the disconnect event of `s1` is processed, looking the user up
yields nothing: the disconnect handler deletes the entry of its user by key, also when a
more recent connection of that user installed it. -/
theorem disconnect_deletes_by_user (userSockets : UserSockets) (s1 s2 : Socket)
    (_h : s1.user.id = s2.user.id) :
    (onDisconnect (onConnection (onConnection userSockets s1) s2) s1).get s1.user.id = none ∧
    (onDisconnect (onConnection (onConnection userSockets s1) s2) s1).count s1.user.id = 0 := by
  unfold onDisconnect
  exact ⟨UserSockets.get_delete_self _ _, UserSockets.count_delete_self _ _⟩

theorem disconnect_deletes_by_user_witness :
    (⟨⟨"h1", by decide⟩, ⟨5, "e@x"⟩⟩ : Socket).user.id =
      (⟨⟨"h2", by decide⟩, ⟨5, "e@x"⟩⟩ : Socket).user.id ∧
    (onDisconnect (onConnection (onConnection UserSockets.empty
        ⟨⟨"h1", by decide⟩, ⟨5, "e@x"⟩⟩) ⟨⟨"h2", by decide⟩, ⟨5, "e@x"⟩⟩)
        ⟨⟨"h1", by decide⟩, ⟨5, "e@x"⟩⟩).get 5 = none ∧
    (onDisconnect (onConnection (onConnection UserSockets.empty
        ⟨⟨"h1", by decide⟩, ⟨5, "e@x"⟩⟩) ⟨⟨"h2", by decide⟩, ⟨5, "e@x"⟩⟩)
        ⟨⟨"h1", by decide⟩, ⟨5, "e@x"⟩⟩).count 5 = 0 :=
  ⟨rfl, disconnect_deletes_by_user UserSockets.empty ⟨⟨"h1", by decide⟩, ⟨5, "e@x"⟩⟩
    ⟨⟨"h2", by decide⟩, ⟨5, "e@x"⟩⟩ rfl⟩

/-! ## Delivery and acknowledgement -/

/-- C9. For every socket submission that stored a row for receiver `r`: if `r` has an entry
in the registry when the insert returns, exactly one `receiveMessage` event is emitted, it
carries the inserted row and is addressed to the socket registered for `r`; if `r` has no
entry, no `receiveMessage` event is emitted. -/
theorem deliver_exactly_once (run : StoreRun) (db : Db) (userSockets : UserSockets)
    (socket : Socket) (p : Payload) (row : Message)
    (h : (sendMessage run db userSockets socket p).outcome = .stored row) :
    (sendMessage run db userSockets socket p).db.messages = db.messages ++ [row] ∧
    p.receiver_id = some row.receiver_id ∧
    (∀ sid, userSockets.get row.receiver_id = some sid →
      (sendMessage run db userSockets socket p).emits.filter
          (fun e => e.event == .receiveMessage) =
        [{ room := sid, event := .receiveMessage, payload := row }]) ∧
    (userSockets.get row.receiver_id = none →
      (sendMessage run db userSockets socket p).emits.filter
          (fun e => e.event == .receiveMessage) = []) := by
  obtain ⟨s, r, c, -, hr, -, -, -, -, -, hrow, hdb, hemits⟩ := sendMessage_stored h
  have hrr : row.receiver_id = r := by rw [hrow]
  rw [hdb, hemits, hrr]
  refine ⟨rfl, hr, ?_, ?_⟩
  · intro sid hsid
    rw [hsid]
    simp
  · intro hnone
    rw [hnone]
    simp

theorem deliver_exactly_once_witness :
    (sendMessage ⟨50, 9, false, false⟩ ⟨[], []⟩ ⟨[(3, ⟨"h3", by decide⟩)]⟩
        ⟨⟨"h7", by decide⟩, ⟨7, "g@x"⟩⟩ ⟨some 7, some 3, some "a"⟩).outcome =
      .stored ⟨9, "3_7", 7, 3, some "a", none, 50⟩ ∧
    (sendMessage ⟨50, 9, false, false⟩ ⟨[], []⟩ ⟨[(3, ⟨"h3", by decide⟩)]⟩
        ⟨⟨"h7", by decide⟩, ⟨7, "g@x"⟩⟩ ⟨some 7, some 3, some "a"⟩).emits.filter
        (fun e => e.event == .receiveMessage) =
      [{ room := ⟨"h3", by decide⟩, event := .receiveMessage,
         payload := ⟨9, "3_7", 7, 3, some "a", none, 50⟩ }] :=
  ⟨by decide,
   (deliver_exactly_once ⟨50, 9, false, false⟩ ⟨[], []⟩ ⟨[(3, ⟨"h3", by decide⟩)]⟩
      ⟨⟨"h7", by decide⟩, ⟨7, "g@x"⟩⟩ ⟨some 7, some 3, some "a"⟩
      ⟨9, "3_7", 7, 3, some "a", none, 50⟩ (by decide)).2.2.1 ⟨"h3", by decide⟩ (by decide)⟩

/-- C10. For every socket submission whose insert succeeds, exactly one `messageSent` event
is emitted; it carries the inserted row, with the id and timestamp the store assigned, and
is addressed to the submitting socket, whatever the registry holds for the receiver. -/
theorem ack_exactly_once (run : StoreRun) (db : Db) (userSockets : UserSockets)
    (socket : Socket) (p : Payload) (row : Message)
    (h : (sendMessage run db userSockets socket p).outcome = .stored row) :
    (sendMessage run db userSockets socket p).db.messages = db.messages ++ [row] ∧
    row.id = run.newId ∧ row.timestamp = run.now ∧
    (sendMessage run db userSockets socket p).emits.filter
        (fun e => e.event == .messageSent) =
      [{ room := socket.id, event := .messageSent, payload := row }] := by
  obtain ⟨s, r, c, -, -, -, -, -, -, -, hrow, hdb, hemits⟩ := sendMessage_stored h
  rw [hdb, hemits]
  refine ⟨rfl, by rw [hrow], by rw [hrow], ?_⟩
  cases userSockets.get r <;> simp

theorem ack_exactly_once_witness :
    (sendMessage ⟨50, 9, false, false⟩ ⟨[], []⟩ UserSockets.empty
        ⟨⟨"h7", by decide⟩, ⟨7, "g@x"⟩⟩ ⟨some 7, some 3, some "a"⟩).outcome =
      .stored ⟨9, "3_7", 7, 3, some "a", none, 50⟩ ∧
    (sendMessage ⟨50, 9, false, false⟩ ⟨[], []⟩ UserSockets.empty
        ⟨⟨"h7", by decide⟩, ⟨7, "g@x"⟩⟩ ⟨some 7, some 3, some "a"⟩).emits.filter
        (fun e => e.event == .messageSent) =
      [{ room := ⟨"h7", by decide⟩, event := .messageSent,
         payload := ⟨9, "3_7", 7, 3, some "a", none, 50⟩ }] :=
  ⟨by decide,
   (ack_exactly_once ⟨50, 9, false, false⟩ ⟨[], []⟩ UserSockets.empty
      ⟨⟨"h7", by decide⟩, ⟨7, "g@x"⟩⟩ ⟨some 7, some 3, some "a"⟩
      ⟨9, "3_7", 7, 3, some "a", none, 50⟩ (by decide)).2.2.2⟩
/-! ## Failed inserts and refused connections -/

/-- C11. A socket submission whose insert fails emits nothing, so no `receiveMessage` event
reaches the receiver; and on every run, whatever `receiveMessage` event is emitted carries
the row the store returned from the successful insert of that run, which is then in the
`messages` table. -/
theorem deliver_only_stored_rows (run : StoreRun) (db : Db) (userSockets : UserSockets)
    (socket : Socket) (p : Payload) :
    (run.insertThrows = true → (sendMessage run db userSockets socket p).emits = [] ∧
      (sendMessage run db userSockets socket p).db = db) ∧
    ((sendMessage run db userSockets socket p).outcome = .failed →
      (sendMessage run db userSockets socket p).emits = []) ∧
    (∀ e ∈ (sendMessage run db userSockets socket p).emits, e.event = .receiveMessage →
      run.insertThrows = false ∧
      (sendMessage run db userSockets socket p).outcome = .stored e.payload ∧
      e.payload ∈ (sendMessage run db userSockets socket p).db.messages) := by
  have hcases : (∀ row, (sendMessage run db userSockets socket p).outcome ≠ .stored row) ∨
      ∃ row, (sendMessage run db userSockets socket p).outcome = .stored row := by
    by_cases h : ∃ row, (sendMessage run db userSockets socket p).outcome = .stored row
    · exact Or.inr h
    · exact Or.inl (fun row hrow => h ⟨row, hrow⟩)
  refine ⟨?_, ?_, ?_⟩
  · intro hthrow
    rcases hcases with hns | ⟨row, hrow⟩
    · exact ⟨(sendMessage_not_stored hns).2, (sendMessage_not_stored hns).1⟩
    · obtain ⟨s, r, c, -, -, -, -, -, -, hi, -⟩ := sendMessage_stored hrow
      rw [hthrow] at hi
      cases hi
  · intro hfailed
    refine (sendMessage_not_stored ?_).2
    intro row hrow
    rw [hfailed] at hrow
    cases hrow
  · intro e he hev
    rcases hcases with hns | ⟨row, hrow⟩
    · rw [(sendMessage_not_stored hns).2] at he
      cases he
    · obtain ⟨s, r, c, -, -, -, -, -, -, hi, -, hdb, hemits⟩ := sendMessage_stored hrow
      rw [hemits] at he
      have hpay : e.payload = row := by
        rcases List.mem_append.mp he with h1 | h1
        · cases hg : userSockets.get r with
          | none => rw [hg] at h1; cases h1
          | some sid =>
            rw [hg] at h1
            rw [List.mem_singleton.mp h1]
        · rw [List.mem_singleton.mp h1]
      rw [hpay, hdb]
      exact ⟨hi, hrow, by simp⟩

theorem deliver_only_stored_rows_witness :
    (sendMessage ⟨50, 9, false, true⟩ ⟨[], []⟩ ⟨[(3, ⟨"h3", by decide⟩)]⟩
        ⟨⟨"h7", by decide⟩, ⟨7, "g@x"⟩⟩ ⟨some 7, some 3, some "a"⟩).outcome = .failed ∧
    (sendMessage ⟨50, 9, false, true⟩ ⟨[], []⟩ ⟨[(3, ⟨"h3", by decide⟩)]⟩
        ⟨⟨"h7", by decide⟩, ⟨7, "g@x"⟩⟩ ⟨some 7, some 3, some "a"⟩).emits = [] :=
  ⟨by decide,
   (deliver_only_stored_rows ⟨50, 9, false, true⟩ ⟨[], []⟩ ⟨[(3, ⟨"h3", by decide⟩)]⟩
      ⟨⟨"h7", by decide⟩, ⟨7, "g@x"⟩⟩ ⟨some 7, some 3, some "a"⟩).2.1 (by decide)⟩

theorem handshake_ok_iff (verify : String → Option TokenPayload) (token : Option String)
    (decoded : TokenPayload) :
    handshake verify token = .ok decoded ↔
      ∃ t, token = some t ∧ t ≠ "" ∧ verify t = some decoded := by
  unfold handshake
  cases token with
  | none => simp [truthyOptStr]
  | some t =>
    by_cases ht : t = ""
    · simp [truthyOptStr, truthyStr, ht]
    · cases hv : verify t with
      | none => simp [truthyOptStr, truthyStr, ht, hv]
      | some d => simp [truthyOptStr, truthyStr, ht, hv]

theorem authenticate_ok_iff (verify : String → Option TokenPayload) (req : Request)
    (decoded : TokenPayload) :
    authenticate verify req = .ok decoded ↔
      ∃ t, req.token = some t ∧ t ≠ "" ∧ verify t = some decoded := by
  unfold authenticate
  cases req.token with
  | none => simp [truthyOptStr]
  | some t =>
    by_cases ht : t = ""
    · simp [truthyOptStr, truthyStr, ht]
    · cases hv : verify t with
      | none => simp [truthyOptStr, truthyStr, ht, hv]
      | some d => simp [truthyOptStr, truthyStr, ht, hv]

theorem find_filter_of_imp {α : Type} (p q : α → Bool) (h : ∀ a, q a = true → p a = true)
    (l : List α) : (l.filter p).find? q = l.find? q := by
  induction l with
  | nil => rfl
  | cons a l ih =>
    by_cases hp : p a = true
    · rw [List.filter_cons_of_pos hp]
      by_cases hq : q a = true
      · rw [List.find?_cons_of_pos _ hq, List.find?_cons_of_pos _ hq]
      · rw [List.find?_cons_of_neg _ hq, List.find?_cons_of_neg _ hq, ih]
    · rw [List.filter_cons_of_neg hp]
      have hq : ¬ q a = true := fun hq => hp (h a hq)
      rw [List.find?_cons_of_neg _ hq, ih]

namespace UserSockets

theorem get_delete_other (m : UserSockets) (u v : Int) (h : u ≠ v) :
    (m.delete u).get v = m.get v := by
  simp only [delete, get]
  rw [find_filter_of_imp]
  intro e he
  have hev : e.1 = v := by simpa using he
  simpa [hev] using (Ne.symm h)

theorem get_set_other (m : UserSockets) (u v : Int) (sid : SocketId) (h : u ≠ v) :
    (m.set u sid).get v = m.get v := by
  have hd := get_delete_other m u v h
  simp only [delete, get] at hd
  simp only [set, get]
  rw [List.find?_cons_of_neg _ (by simpa using h)]
  exact hd

end UserSockets

theorem connect_refused {verify : String → Option TokenPayload} {token : Option String}
    (h : truthyOptStr token = false ∨ token.bind verify = none) (userSockets : UserSockets)
    (id : SocketId) :
    ∃ msg, connect verify userSockets id token = (userSockets, .error msg) := by
  unfold connect handshake
  rcases h with h | h
  · exact ⟨"Unauthorized", by simp [h]⟩
  · by_cases ht : truthyOptStr token = true
    · exact ⟨"Invalid token", by simp [ht, h]⟩
    · exact ⟨"Unauthorized", by simp [ht]⟩

theorem connect_admitted {verify : String → Option TokenPayload} {token : Option String}
    {decoded : TokenPayload} (h : handshake verify token = .ok decoded)
    (userSockets : UserSockets) (id : SocketId) :
    connect verify userSockets id token =
      (userSockets.set decoded.id id, .ok { id := id, user := decoded }) := by
  simp [connect, h, onConnection]

theorem handshake_cases (verify : String → Option TokenPayload) (token : Option String) :
    (∃ msg, handshake verify token = .error msg ∧
      (truthyOptStr token = false ∨ token.bind verify = none)) ∨
    (∃ decoded, handshake verify token = .ok decoded) := by
  unfold handshake
  by_cases ht : truthyOptStr token = true
  · cases hv : token.bind verify with
    | none => exact Or.inl ⟨"Invalid token", by simp [ht], Or.inr rfl⟩
    | some d => exact Or.inr ⟨d, by simp [ht]⟩
  · exact Or.inl ⟨"Unauthorized", by simp [ht], Or.inl (by simpa using ht)⟩

theorem step_connect_refused {verify : String → Option TokenPayload} {token : Option String}
    (h : truthyOptStr token = false ∨ token.bind verify = none) (st : Server)
    (id : SocketId) : step verify st (.connect id token) = st := by
  obtain ⟨msg, hmsg⟩ := connect_refused h st.userSockets id
  simp [step, hmsg]

theorem step_connect_admitted {verify : String → Option TokenPayload}
    {token : Option String} {decoded : TokenPayload}
    (h : handshake verify token = .ok decoded) (st : Server) (id : SocketId) :
    step verify st (.connect id token) =
      { st with userSockets := st.userSockets.set decoded.id id,
                sockets := { id := id, user := decoded } :: st.sockets } := by
  simp [step, connect_admitted h]

/-- C12. A connection attempt whose handshake carries no token, or a token that fails
verification, is refused and leaves the registry (and the whole server state) as it was; and
whenever an event gives the registry a new value for a user `u`, that event is a connection
attempt whose handshake token verified to a payload with id `u`. -/
theorem registry_written_only_by_verified_handshake
    (verify : String → Option TokenPayload) (st : Server) :
    (∀ (id : SocketId) (token : Option String),
      (truthyOptStr token = false ∨ token.bind verify = none) →
        (∃ msg, connect verify st.userSockets id token = (st.userSockets, .error msg)) ∧
        step verify st (.connect id token) = st) ∧
    (∀ (ev : Event) (u : Int) (sid : SocketId),
      (step verify st ev).userSockets.get u = some sid →
      st.userSockets.get u ≠ some sid →
        ∃ t decoded, ev = .connect sid (some t) ∧ t ≠ "" ∧ verify t = some decoded ∧
          decoded.id = u) := by
  refine ⟨fun id token h => ⟨connect_refused h _ _, step_connect_refused h _ _⟩, ?_⟩
  intro ev u sid hafter hbefore
  cases ev with
  | connect id token =>
    rcases handshake_cases verify token with ⟨msg, -, hbad⟩ | ⟨decoded, hok⟩
    · rw [step_connect_refused hbad] at hafter
      exact absurd hafter hbefore
    · rw [step_connect_admitted hok] at hafter
      simp only at hafter
      by_cases hu : decoded.id = u
      · subst hu
        rw [UserSockets.get_set_self] at hafter
        obtain ⟨t, ht, hne, hv⟩ := (handshake_ok_iff verify token decoded).mp hok
        cases hafter
        exact ⟨t, decoded, by rw [ht], hne, hv, rfl⟩
      · rw [UserSockets.get_set_other _ _ _ _ hu] at hafter
        exact absurd hafter hbefore
  | disconnect socket =>
    simp only [step, onDisconnect] at hafter
    by_cases hu : socket.user.id = u
    · subst hu
      rw [UserSockets.get_delete_self] at hafter
      cases hafter
    · rw [UserSockets.get_delete_other _ _ _ hu] at hafter
      exact absurd hafter hbefore
  | sendMessage run socket p => exact absurd hafter hbefore
  | postMessage run req => exact absurd hafter hbefore
  | postSendMessage run req => exact absurd hafter hbefore

theorem registry_written_only_by_verified_handshake_witness :
    (truthyOptStr (some "bad") = false ∨
      (some "bad").bind (fun t => if t = "t5" then some (⟨5, "e@x"⟩ : TokenPayload) else none)
        = none) ∧
    step (fun t => if t = "t5" then some ⟨5, "e@x"⟩ else none)
        ⟨⟨[], []⟩, ⟨[(6, ⟨"k", by decide⟩)]⟩, [⟨⟨"k", by decide⟩, ⟨6, "f@x"⟩⟩]⟩
        (.connect ⟨"h1", by decide⟩ (some "bad")) =
      ⟨⟨[], []⟩, ⟨[(6, ⟨"k", by decide⟩)]⟩, [⟨⟨"k", by decide⟩, ⟨6, "f@x"⟩⟩]⟩ :=
  ⟨Or.inr (by decide),
   ((registry_written_only_by_verified_handshake
      (fun t => if t = "t5" then some ⟨5, "e@x"⟩ else none)
      ⟨⟨[], []⟩, ⟨[(6, ⟨"k", by decide⟩)]⟩, [⟨⟨"k", by decide⟩, ⟨6, "f@x"⟩⟩]⟩).1
      ⟨"h1", by decide⟩ (some "bad") (Or.inr (by decide))).2⟩

/-! ## Invariants of the stored rows and of the registry -/

theorem trim_empty : trim "" = "" := by decide

theorem truthyOptStr_of_map_trim {c : Option String}
    (h : truthyOptStr (c.map trim) = true) : truthyOptStr c = true := by
  cases c with
  | none => exact h
  | some s =>
    by_cases hs : s = ""
    · subst hs
      simp [truthyOptStr, truthyStr, trim_empty] at h
    · simp [truthyOptStr, truthyStr, hs]

/-- What one event does to the `messages` table: nothing, or it appends one row that has a
non-empty content or a file path. -/
theorem step_messages (verify : String → Option TokenPayload) (st : Server) (ev : Event) :
    (step verify st ev).db.messages = st.db.messages ∨
    ∃ row, (step verify st ev).db.messages = st.db.messages ++ [row] ∧
      (truthyOptStr row.content = true ∨ row.file_path.isSome = true) := by
  cases ev with
  | connect id token =>
    left
    rcases handshake_cases verify token with ⟨msg, -, hbad⟩ | ⟨decoded, hok⟩
    · rw [step_connect_refused hbad]
    · rw [step_connect_admitted hok]
  | disconnect socket => exact Or.inl rfl
  | sendMessage run socket p =>
    by_cases h : ∃ row, (sendMessage run st.db st.userSockets socket p).outcome = .stored row
    · obtain ⟨row, hrow⟩ := h
      obtain ⟨s, r, c, -, -, -, -, -, hc, -, hr, hdb, -⟩ := sendMessage_stored hrow
      refine Or.inr ⟨row, by simp [step, hdb], Or.inl ?_⟩
      rw [hr]
      simp [truthyOptStr, truthyStr, hc]
    · left
      have hns : ∀ row, (sendMessage run st.db st.userSockets socket p).outcome ≠
          .stored row := fun row hrow => h ⟨row, hrow⟩
      simp [step, (sendMessage_not_stored hns).1]
  | postMessage run req =>
    rcases postMessage_spec verify run st.db req with ⟨s, msg, hres, -⟩ | hc
    · exact Or.inl (by simp [step, hres])
    · obtain ⟨user, r, row, -, -, -, hcontent, -, -, -, hrow, hpost⟩ := hc
      refine Or.inr ⟨row, by simp [step, hpost], Or.inl ?_⟩
      rw [hrow]
      exact truthyOptStr_of_map_trim hcontent
  | postSendMessage run req =>
    rcases postSendMessage_spec verify run st.db req with ⟨s, msg, hres, -⟩ | hc
    · exact Or.inl (by simp [step, hres])
    · obtain ⟨user, r, row, -, -, -, -, hcf, -, hrow, hpost⟩ := hc
      refine Or.inr ⟨row, by simp [step, hpost], ?_⟩
      rw [hrow]
      rcases hcf with hcont | hfile
      · exact Or.inl (by simp [hcont])
      · right
        cases hf : (uploadMessage req).1 with
        | none => rw [hf] at hfile; cases hfile
        | some f => rfl

/-- C16. Every row that any of the three submission entry points inserts has a non-empty
content or a non-null file path: starting from a table whose rows all do, no sequence of
events leaves a row with both absent in the `messages` table. -/
theorem stored_rows_have_content_or_file (verify : String → Option TokenPayload)
    (st : Server) (events : List Event)
    (h : ∀ m ∈ st.db.messages, truthyOptStr m.content = true ∨ m.file_path.isSome = true) :
    ∀ m ∈ (steps verify st events).db.messages,
      truthyOptStr m.content = true ∨ m.file_path.isSome = true := by
  induction events generalizing st with
  | nil => exact h
  | cons ev evs ih =>
    have hs : steps verify st (ev :: evs) = steps verify (step verify st ev) evs := rfl
    rw [hs]
    apply ih
    intro m hm
    rcases step_messages verify st ev with heq | ⟨row, heq, hrow⟩
    · rw [heq] at hm
      exact h m hm
    · rw [heq] at hm
      rcases List.mem_append.mp hm with h1 | h1
      · exact h m h1
      · rw [List.mem_singleton.mp h1]
        exact hrow

theorem stored_rows_have_content_or_file_witness :
    (∀ m ∈ (⟨⟨[], []⟩, UserSockets.empty, []⟩ : Server).db.messages,
      truthyOptStr m.content = true ∨ m.file_path.isSome = true) ∧
    (steps (fun t => if t = "t1" then some ⟨1, "a@x"⟩ else none)
        ⟨⟨[], []⟩, UserSockets.empty, []⟩
        [.sendMessage ⟨50, 1, false, false⟩ ⟨⟨"s1", by decide⟩, ⟨1, "a@x"⟩⟩
           ⟨some 1, some 2, some "hi"⟩,
         .postSendMessage ⟨51, 2, false, false⟩
           ⟨some "t1", some 2, none, some ⟨"image/png", ".png"⟩, 1700⟩]).db.messages =
      [⟨1, "1_2", 1, 2, some "hi", none, 50⟩,
       ⟨2, "1_2", 1, 2, none, some "1700.png", 51⟩] ∧
    (∀ m ∈ (steps (fun t => if t = "t1" then some ⟨1, "a@x"⟩ else none)
        ⟨⟨[], []⟩, UserSockets.empty, []⟩
        [.sendMessage ⟨50, 1, false, false⟩ ⟨⟨"s1", by decide⟩, ⟨1, "a@x"⟩⟩
           ⟨some 1, some 2, some "hi"⟩,
         .postSendMessage ⟨51, 2, false, false⟩
           ⟨some "t1", some 2, none, some ⟨"image/png", ".png"⟩, 1700⟩]).db.messages,
      truthyOptStr m.content = true ∨ m.file_path.isSome = true) :=
  ⟨by simp, by decide,
   stored_rows_have_content_or_file (fun t => if t = "t1" then some ⟨1, "a@x"⟩ else none)
    ⟨⟨[], []⟩, UserSockets.empty, []⟩ _ (by simp)⟩

/-- Every entry of the registry names an open socket of its user, in every state the
events lead to from a state where that holds. -/
theorem registry_names_open_sockets (verify : String → Option TokenPayload) (st : Server)
    (events : List Event)
    (h : ∀ u sid, st.userSockets.get u = some sid →
      ∃ s ∈ st.sockets, s.id = sid ∧ s.user.id = u) :
    ∀ u sid, (steps verify st events).userSockets.get u = some sid →
      ∃ s ∈ (steps verify st events).sockets, s.id = sid ∧ s.user.id = u := by
  induction events generalizing st with
  | nil => exact h
  | cons ev evs ih =>
    have hs : steps verify st (ev :: evs) = steps verify (step verify st ev) evs := rfl
    rw [hs]
    apply ih
    intro u sid hget
    cases ev with
    | connect id token =>
      rcases handshake_cases verify token with ⟨msg, -, hbad⟩ | ⟨decoded, hok⟩
      · rw [step_connect_refused hbad] at hget ⊢
        exact h u sid hget
      · rw [step_connect_admitted hok] at hget ⊢
        simp only at hget ⊢
        by_cases hu : decoded.id = u
        · subst hu
          rw [UserSockets.get_set_self] at hget
          cases hget
          exact ⟨_, List.mem_cons_self _ _, rfl, rfl⟩
        · rw [UserSockets.get_set_other _ _ _ _ hu] at hget
          obtain ⟨s, hs1, hs2, hs3⟩ := h u sid hget
          exact ⟨s, List.mem_cons_of_mem _ hs1, hs2, hs3⟩
    | disconnect socket =>
      simp only [step, onDisconnect] at hget ⊢
      by_cases hu : socket.user.id = u
      · subst hu
        rw [UserSockets.get_delete_self] at hget
        cases hget
      · rw [UserSockets.get_delete_other _ _ _ hu] at hget
        obtain ⟨s, hs1, hs2, hs3⟩ := h u sid hget
        refine ⟨s, ?_, hs2, hs3⟩
        rw [List.mem_filter]
        refine ⟨hs1, ?_⟩
        have hne : s ≠ socket := by
          intro heq
          rw [heq] at hs3
          exact hu hs3
        simpa using hne
    | sendMessage run socket p => exact h u sid hget
    | postMessage run req => exact h u sid hget
    | postSendMessage run req => exact h u sid hget

/-- C18. In every state that events (connection attempts, disconnects, submissions) lead to
from the initial state, a user with no open authenticated connection has no entry in the
registry: looking the user up yields nothing. -/
theorem no_entry_without_open_socket (verify : String → Option TokenPayload) (db : Db)
    (events : List Event) (u : Int)
    (h : ∀ s ∈ (steps verify ⟨db, UserSockets.empty, []⟩ events).sockets, s.user.id ≠ u) :
    (steps verify ⟨db, UserSockets.empty, []⟩ events).userSockets.get u = none := by
  cases hget : (steps verify ⟨db, UserSockets.empty, []⟩ events).userSockets.get u with
  | none => rfl
  | some sid =>
    exfalso
    obtain ⟨s, hs1, -, hs3⟩ :=
      registry_names_open_sockets verify ⟨db, UserSockets.empty, []⟩ events
        (by intro u sid hg; simp [UserSockets.get, UserSockets.empty] at hg) u sid hget
    exact h s hs1 hs3

theorem no_entry_without_open_socket_witness :
    (∀ s ∈ (steps (fun t => if t = "t5" then some ⟨5, "e@x"⟩ else none)
        ⟨⟨[], []⟩, UserSockets.empty, []⟩
        [.connect ⟨"h1", by decide⟩ (some "t5"),
         .disconnect ⟨⟨"h1", by decide⟩, ⟨5, "e@x"⟩⟩]).sockets, s.user.id ≠ 5) ∧
    (steps (fun t => if t = "t5" then some ⟨5, "e@x"⟩ else none)
        ⟨⟨[], []⟩, UserSockets.empty, []⟩
        [.connect ⟨"h1", by decide⟩ (some "t5"),
         .disconnect ⟨⟨"h1", by decide⟩, ⟨5, "e@x"⟩⟩]).userSockets.get 5 = none :=
  ⟨by decide,
   no_entry_without_open_socket (fun t => if t = "t5" then some ⟨5, "e@x"⟩ else none)
    ⟨[], []⟩ [.connect ⟨"h1", by decide⟩ (some "t5"),
              .disconnect ⟨⟨"h1", by decide⟩, ⟨5, "e@x"⟩⟩] 5 (by decide)⟩

/-- C19. For every two different users `u` and `v`, a connection attempt whose token
verifies to `u` (or is refused), the disconnect of a socket of `u`, and a message submission
on a socket of `u` each leave the registry entry of `v` exactly as it was. -/
theorem other_users_entry_untouched (verify : String → Option TokenPayload) (st : Server)
    (u v : Int) (huv : u ≠ v) :
    (∀ (id : SocketId) (token : Option String),
      (∀ decoded, handshake verify token = .ok decoded → decoded.id = u) →
      (step verify st (.connect id token)).userSockets.get v = st.userSockets.get v) ∧
    (∀ socket : Socket, socket.user.id = u →
      (step verify st (.disconnect socket)).userSockets.get v = st.userSockets.get v) ∧
    (∀ (run : StoreRun) (socket : Socket) (p : Payload), socket.user.id = u →
      (step verify st (.sendMessage run socket p)).userSockets.get v =
        st.userSockets.get v) := by
  refine ⟨?_, ?_, ?_⟩
  · intro id token hu
    rcases handshake_cases verify token with ⟨msg, -, hbad⟩ | ⟨decoded, hok⟩
    · rw [step_connect_refused hbad]
    · rw [step_connect_admitted hok]
      have hd : decoded.id ≠ v := by
        rw [hu decoded hok]
        exact huv
      exact UserSockets.get_set_other _ _ _ _ hd
  · intro socket hs
    have hd : socket.user.id ≠ v := by
      rw [hs]
      exact huv
    exact UserSockets.get_delete_other _ _ _ hd
  · intro run socket p _
    rfl

theorem other_users_entry_untouched_witness :
    (5 : Int) ≠ 6 ∧
    (step (fun t => if t = "t5" then some ⟨5, "e@x"⟩ else none)
        ⟨⟨[], []⟩, ⟨[(5, ⟨"h0", by decide⟩), (6, ⟨"k", by decide⟩)]⟩, []⟩
        (.connect ⟨"h1", by decide⟩ (some "t5"))).userSockets.get 6 = some ⟨"k", by decide⟩ ∧
    (step (fun t => if t = "t5" then some ⟨5, "e@x"⟩ else none)
        ⟨⟨[], []⟩, ⟨[(5, ⟨"h0", by decide⟩), (6, ⟨"k", by decide⟩)]⟩, []⟩
        (.disconnect ⟨⟨"h0", by decide⟩, ⟨5, "e@x"⟩⟩)).userSockets.get 6 =
      some ⟨"k", by decide⟩ :=
  have h := other_users_entry_untouched (fun t => if t = "t5" then some ⟨5, "e@x"⟩ else none)
    ⟨⟨[], []⟩, ⟨[(5, ⟨"h0", by decide⟩), (6, ⟨"k", by decide⟩)]⟩, []⟩ 5 6 (by decide)
  ⟨by decide,
   (h.1 ⟨"h1", by decide⟩ (some "t5") (by
      intro decoded hd
      have hd2 : (Except.ok ⟨5, "e@x"⟩ : Except String TokenPayload) = .ok decoded := hd
      cases hd2
      rfl)).trans (by decide),
   (h.2.1 ⟨⟨"h0", by decide⟩, ⟨5, "e@x"⟩⟩ rfl).trans (by decide)⟩

/-! ## The `authenticate` middleware -/

/-- C20. On the routes guarded by `authenticate` the handler runs (the middleware calls
`next()`) if and only if the request carries a token cookie that verifies; a missing token
is answered 401 `Unauthorized`, a token that fails verification 401 `Invalid token`, and in
both cases the route does nothing else: the database is as it was and no row is returned
(the three message routes are the guarded routes of the embedding). -/
theorem authenticate_guards_routes (verify : String → Option TokenPayload)
    (number : String → Option Int) (run : StoreRun) (frun : FetchRun) (db : Db)
    (req : Request) (chatId : String) :
    ((∃ user, authenticate verify req = .ok user) ↔
      ∃ t user, req.token = some t ∧ t ≠ "" ∧ verify t = some user) ∧
    (truthyOptStr req.token = false →
      authenticate verify req = .error { status := 401, body := .error "Unauthorized" } ∧
      postMessage verify run db req =
        ({ status := 401, body := .error "Unauthorized" }, db) ∧
      postSendMessage verify run db req =
        ({ status := 401, body := .error "Unauthorized" }, db) ∧
      getMessages verify number frun db req chatId =
        { status := 401, body := .error "Unauthorized" }) ∧
    (truthyOptStr req.token = true → req.token.bind verify = none →
      authenticate verify req = .error { status := 401, body := .error "Invalid token" } ∧
      postMessage verify run db req =
        ({ status := 401, body := .error "Invalid token" }, db) ∧
      postSendMessage verify run db req =
        ({ status := 401, body := .error "Invalid token" }, db) ∧
      getMessages verify number frun db req chatId =
        { status := 401, body := .error "Invalid token" }) := by
  refine ⟨?_, ?_, ?_⟩
  · constructor
    · rintro ⟨user, h⟩
      obtain ⟨t, h1, h2, h3⟩ := (authenticate_ok_iff verify req user).mp h
      exact ⟨t, user, h1, h2, h3⟩
    · rintro ⟨t, user, h1, h2, h3⟩
      exact ⟨user, (authenticate_ok_iff verify req user).mpr ⟨t, h1, h2, h3⟩⟩
  · intro h
    have ha : authenticate verify req =
        .error { status := 401, body := .error "Unauthorized" } := by
      simp [authenticate, h]
    exact ⟨ha, by simp only [postMessage, ha], by simp only [postSendMessage, ha],
      by simp only [getMessages, ha]⟩
  · intro h hv
    have ha : authenticate verify req =
        .error { status := 401, body := .error "Invalid token" } := by
      simp [authenticate, h, hv]
    exact ⟨ha, by simp only [postMessage, ha], by simp only [postSendMessage, ha],
      by simp only [getMessages, ha]⟩

theorem authenticate_guards_routes_witness :
    truthyOptStr (⟨none, some 2, some "hi", none, 0⟩ : Request).token = false ∧
    postMessage (fun t => if t = "t1" then some ⟨1, "a@x"⟩ else none) ⟨50, 9, false, false⟩
        ⟨[⟨1, "A", "a@x", none⟩, ⟨2, "B", "b@x", none⟩], []⟩
        ⟨none, some 2, some "hi", none, 0⟩ =
      ({ status := 401, body := .error "Unauthorized" },
       ⟨[⟨1, "A", "a@x", none⟩, ⟨2, "B", "b@x", none⟩], []⟩) ∧
    (truthyOptStr (⟨some "forged", some 2, some "hi", none, 0⟩ : Request).token = true ∧
     (⟨some "forged", some 2, some "hi", none, 0⟩ : Request).token.bind
        (fun t => if t = "t1" then some (⟨1, "a@x"⟩ : TokenPayload) else none) = none) ∧
    postMessage (fun t => if t = "t1" then some ⟨1, "a@x"⟩ else none) ⟨50, 9, false, false⟩
        ⟨[⟨1, "A", "a@x", none⟩, ⟨2, "B", "b@x", none⟩], []⟩
        ⟨some "forged", some 2, some "hi", none, 0⟩ =
      ({ status := 401, body := .error "Invalid token" },
       ⟨[⟨1, "A", "a@x", none⟩, ⟨2, "B", "b@x", none⟩], []⟩) :=
  ⟨by decide,
   ((authenticate_guards_routes (fun t => if t = "t1" then some ⟨1, "a@x"⟩ else none)
      Number ⟨50, 9, false, false⟩ ⟨false, false, fun m => m.id⟩
      ⟨[⟨1, "A", "a@x", none⟩, ⟨2, "B", "b@x", none⟩], []⟩
      ⟨none, some 2, some "hi", none, 0⟩ "1_2").2.1 (by decide)).2.1,
   ⟨by decide, by decide⟩,
   ((authenticate_guards_routes (fun t => if t = "t1" then some ⟨1, "a@x"⟩ else none)
      Number ⟨50, 9, false, false⟩ ⟨false, false, fun m => m.id⟩
      ⟨[⟨1, "A", "a@x", none⟩, ⟨2, "B", "b@x", none⟩], []⟩
      ⟨some "forged", some 2, some "hi", none, 0⟩ "1_2").2.2 (by decide) (by decide)).2.1⟩

/-! ## The history of a conversation -/

theorem filter_append_row (db : Db) (row : Message) (key : String) :
    (db.messages ++ [row]).filter (fun m => m.chat_id == key) =
      db.messages.filter (fun m => m.chat_id == key) ++
        (if row.chat_id = key then [row] else []) := by
  rw [List.filter_append]
  by_cases h : row.chat_id = key
  · simp [h]
  · simp [h]

/-- Two orders of the same rows that both ascend by timestamp are equal when no two of the
rows have the same timestamp. -/
theorem sorted_perm_unique {l1 l2 : List Message} (hp : l1.Perm l2)
    (h1 : l1.Pairwise (fun a b => a.timestamp ≤ b.timestamp))
    (h2 : l2.Pairwise (fun a b => a.timestamp ≤ b.timestamp))
    (hd : l2.Pairwise (fun a b => a.timestamp ≠ b.timestamp)) : l1 = l2 := by
  have hd1 : l1.Pairwise (fun a b => a.timestamp ≠ b.timestamp) :=
    (hp.pairwise_iff (fun {a b} (h : a.timestamp ≠ b.timestamp) => Ne.symm h)).mpr hd
  have s1 : l1.Pairwise (fun a b => a.timestamp < b.timestamp) :=
    (h1.and hd1).imp (fun h => lt_of_le_of_ne h.1 h.2)
  have s2 : l2.Pairwise (fun a b => a.timestamp < b.timestamp) :=
    (h2.and hd).imp (fun h => lt_of_le_of_ne h.1 h.2)
  haveI : IsAntisymm Message (fun a b => a.timestamp < b.timestamp) :=
    ⟨fun a b hab hba => absurd hab (by omega)⟩
  exact List.eq_of_perm_of_sorted hp s1 s2

/-- What an insert of a row does to the history of the row's conversation. -/
theorem history_after_insert {db : Db} {row : Message} {before after : List Message}
    (hb : IsHistory db row.chat_id before)
    (ha : IsHistory { db with messages := db.messages ++ [row] } row.chat_id after) :
    after.Perm (before ++ [row]) ∧
    ((∀ m ∈ db.messages, m.chat_id = row.chat_id → m.timestamp ≤ row.timestamp) →
      (∀ m ∈ before, m.timestamp ≤ row.timestamp) ∧
      IsHistory { db with messages := db.messages ++ [row] } row.chat_id
        (before ++ [row])) := by
  have hf := filter_append_row db row row.chat_id
  simp only [if_true] at hf
  have hperm : after.Perm (before ++ [row]) := by
    refine ha.1.trans ?_
    show ((db.messages ++ [row]).filter (fun m => m.chat_id == row.chat_id)).Perm _
    rw [hf]
    exact List.Perm.append_right _ hb.1.symm
  refine ⟨hperm, ?_⟩
  intro hclock
  have hle : ∀ m ∈ before, m.timestamp ≤ row.timestamp := by
    intro m hm
    have hm2 := hb.1.subset hm
    rw [List.mem_filter] at hm2
    exact hclock m hm2.1 (by simpa using hm2.2)
  refine ⟨hle, ?_, ?_⟩
  · show (before ++ [row]).Perm
      ((db.messages ++ [row]).filter (fun m => m.chat_id == row.chat_id))
    rw [hf]
    exact List.Perm.append_right _ hb.1
  · rw [List.pairwise_append]
    refine ⟨hb.2, by simp, ?_⟩
    intro m hm x hx
    rw [List.mem_singleton.mp hx]
    exact hle m hm

theorem chat_id_swap (a b : Int) : chat_id b a = chat_id a b := by
  rw [chat_id_min_max a b, chat_id_min_max b a, min_comm a b, max_comm a b]

/-! ## Reading a conversation key back -/

theorem digitChar_isDigit (k : Nat) (hk : k < 10) :
    (Nat.digitChar k).isDigit = true ∧ digitValue (Nat.digitChar k) = some k := by
  interval_cases k <;> exact ⟨by decide, by decide⟩

theorem toDigitsCore_spec (fuel : Nat) :
    ∀ (n : Nat) (ds : List Char), n < fuel →
      ∃ pre, Nat.toDigitsCore 10 fuel n ds = pre ++ ds ∧ pre ≠ [] ∧
        (∀ c ∈ pre, c.isDigit = true) ∧
        pre.foldl (digitStep 10) (some 0) = some n := by
  induction fuel with
  | zero => intro n ds h; omega
  | succ fuel ih =>
    intro n ds h
    have hd := digitChar_isDigit (n % 10) (Nat.mod_lt _ (by decide))
    by_cases h0 : n / 10 = 0
    · refine ⟨[Nat.digitChar (n % 10)], by simp [Nat.toDigitsCore, h0], by simp, ?_, ?_⟩
      · intro c hc
        rw [List.mem_singleton.mp hc]
        exact hd.1
      · have hn : n % 10 = n := Nat.mod_eq_of_lt (by omega)
        have hlt : n % 10 < 10 := Nat.mod_lt _ (by decide)
        simp only [List.foldl_cons, List.foldl_nil, digitStep, hd.2, hlt, if_true]
        congr 1
        omega
    · obtain ⟨pre, h1, h2, h3, h4⟩ := ih (n / 10) (Nat.digitChar (n % 10) :: ds) (by omega)
      refine ⟨pre ++ [Nat.digitChar (n % 10)], by simp [Nat.toDigitsCore, h0, h1], by simp,
        ?_, ?_⟩
      · intro c hc
        rcases List.mem_append.mp hc with hc | hc
        · exact h3 c hc
        · rw [List.mem_singleton.mp hc]
          exact hd.1
      · rw [List.foldl_append, h4]
        simp only [List.foldl_cons, List.foldl_nil, digitStep, hd.2]
        have hlt : n % 10 < 10 := Nat.mod_lt _ (by decide)
        simp only [hlt, if_true]
        congr 1
        omega

theorem nat_toString_spec (n : Nat) :
    ∃ ds, (toString n).toList = ds ∧ ds ≠ [] ∧ (∀ c ∈ ds, c.isDigit = true) ∧
      ds.foldl (digitStep 10) (some 0) = some n := by
  obtain ⟨pre, h1, h2, h3, h4⟩ := toDigitsCore_spec (n + 1) n [] (by omega)
  refine ⟨pre, ?_, h2, h3, h4⟩
  show (Nat.repr n).toList = pre
  simp only [Nat.repr, Nat.toDigits, h1, List.append_nil]
  rfl

theorem isDigit_range {c : Char} (h : c.isDigit = true) : 48 ≤ c.toNat ∧ c.toNat ≤ 57 := by
  simp only [Char.isDigit, Bool.and_eq_true, decide_eq_true_eq] at h
  exact ⟨h.1, h.2⟩

theorem not_white_of_range {c : Char} (h : 45 ≤ c.toNat ∧ c.toNat ≤ 57) :
    isJsWhiteSpace c = false := by
  obtain ⟨h1, h2⟩ := h
  simp only [isJsWhiteSpace, Bool.or_eq_false_iff, beq_eq_false_iff_ne, ne_eq,
    Bool.and_eq_false_imp, decide_eq_true_eq, decide_eq_false_iff_not, not_le]
  omega

theorem dropWhile_of_head {α : Type} (p : α → Bool) (a : α) (l : List α)
    (h : p a = false) : (a :: l).dropWhile p = a :: l := by
  simp [List.dropWhile, h]

theorem trim_of_not_white (l : List Char) (h : ∀ c ∈ l, isJsWhiteSpace c = false) :
    trim (String.mk l) = String.mk l := by
  unfold trim
  congr 1
  show ((l.dropWhile isJsWhiteSpace).reverse.dropWhile isJsWhiteSpace).reverse = l
  have h1 : ∀ l : List Char, (∀ c ∈ l, isJsWhiteSpace c = false) →
      l.dropWhile isJsWhiteSpace = l := by
    intro l hl
    cases l with
    | nil => rfl
    | cons a t => exact dropWhile_of_head _ a t (hl a (by simp))
  rw [h1 l h, h1 l.reverse (fun c hc => h c (List.mem_reverse.mp hc)), List.reverse_reverse]

theorem takeWhile_all {α : Type} (p : α → Bool) (l : List α) (h : ∀ a ∈ l, p a = true) :
    l.takeWhile p = l ∧ l.dropWhile p = [] := by
  induction l with
  | nil => exact ⟨rfl, rfl⟩
  | cons a t ih =>
    have ha := h a (by simp)
    obtain ⟨h1, h2⟩ := ih (fun b hb => h b (List.mem_cons_of_mem _ hb))
    exact ⟨by rw [List.takeWhile_cons_of_pos ha, h1], by rw [List.dropWhile_cons_of_pos ha, h2]⟩

theorem unsignedDecimal_digits {ds : List Char} {n : Nat} (hne : ds ≠ [])
    (hd : ∀ c ∈ ds, c.isDigit = true) (hv : ds.foldl (digitStep 10) (some 0) = some n) :
    (unsignedDecimal ds).bind integerValue = some (n : Int) := by
  obtain ⟨h1, h2⟩ := takeWhile_all Char.isDigit ds hd
  have he : ds.isEmpty = false := by
    cases ds with
    | nil => exact absurd rfl hne
    | cons a t => rfl
  simp [unsignedDecimal, h1, h2, he, exponentPart, digitsValue, hv, integerValue]

theorem nonDecimalInteger_digits {ds : List Char} (hd : ∀ c ∈ ds, c.isDigit = true) :
    nonDecimalInteger ds = none := by
  unfold nonDecimalInteger
  split
  · rename_i c rest
    have hc := isDigit_range (hd c (by simp))
    have h1 : ¬ (c = 'x' ∨ c = 'X') := by
      rintro (h | h) <;> rw [h] at hc <;> revert hc <;> decide
    have h2 : ¬ (c = 'o' ∨ c = 'O') := by
      rintro (h | h) <;> rw [h] at hc <;> revert hc <;> decide
    have h3 : ¬ (c = 'b' ∨ c = 'B') := by
      rintro (h | h) <;> rw [h] at hc <;> revert hc <;> decide
    simp only [h1, h2, h3, if_false]
  · rfl

theorem nonDecimalInteger_minus (ds : List Char) : nonDecimalInteger ('-' :: ds) = none := by
  unfold nonDecimalInteger
  split
  · rename_i c rest heq
    simp only [List.cons.injEq] at heq
    exact absurd heq.1 (by decide)
  · rfl

theorem number_of_digits {ds : List Char} {n : Nat} (hne : ds ≠ [])
    (hd : ∀ c ∈ ds, c.isDigit = true) (hv : ds.foldl (digitStep 10) (some 0) = some n) :
    Number (String.mk ds) = some (n : Int) ∧
    Number (String.mk ('-' :: ds)) = some (-(n : Int)) := by
  have hw : ∀ c ∈ ds, isJsWhiteSpace c = false := fun c hc =>
    not_white_of_range ⟨by have := (isDigit_range (hd c hc)).1; omega,
      (isDigit_range (hd c hc)).2⟩
  have hw2 : ∀ c ∈ '-' :: ds, isJsWhiteSpace c = false := by
    intro c hc
    rcases List.mem_cons.mp hc with h | h
    · rw [h]; decide
    · exact hw c h
  constructor
  · unfold Number
    rw [trim_of_not_white ds hw]
    cases ds with
    | nil => exact absurd rfl hne
    | cons a t =>
      have ha := isDigit_range (hd a (by simp))
      have hm : a ≠ '-' := by intro h; rw [h] at ha; revert ha; decide
      have hp : a ≠ '+' := by intro h; rw [h] at ha; revert ha; decide
      simp only [String.toList, List.isEmpty_cons, Bool.false_eq_true, if_false,
        nonDecimalInteger_digits hd]
      split
      · rename_i r heq
        simp only [List.cons.injEq] at heq
        exact absurd heq.1 hm
      · rename_i r heq
        simp only [List.cons.injEq] at heq
        exact absurd heq.1 hp
      · exact unsignedDecimal_digits hne hd hv
  · unfold Number
    rw [trim_of_not_white _ hw2]
    simp only [String.toList, List.isEmpty_cons, Bool.false_eq_true, if_false,
      nonDecimalInteger_minus, unsignedDecimal_digits hne hd hv, Option.map_some']

theorem int_toString_spec (n : Int) :
    ∃ cs, (toString n).toList = cs ∧ (∀ c ∈ cs, c ≠ '_') ∧ Number (String.mk cs) = some n := by
  cases n with
  | ofNat m =>
    obtain ⟨ds, h1, h2, h3, h4⟩ := nat_toString_spec m
    refine ⟨ds, h1, ?_, (number_of_digits h2 h3 h4).1⟩
    intro c hc hu
    have := isDigit_range (h3 c hc)
    rw [hu] at this
    revert this
    decide
  | negSucc m =>
    obtain ⟨ds, h1, h2, h3, h4⟩ := nat_toString_spec (m + 1)
    refine ⟨'-' :: ds, ?_, ?_, ?_⟩
    · show ("-" ++ toString (m + 1)).toList = '-' :: ds
      rw [String.toList, String.data_append]
      rw [String.toList] at h1
      rw [h1]
      rfl
    · intro c hc hu
      rcases List.mem_cons.mp hc with h | h
      · rw [hu] at h
        revert h
        decide
      · have := isDigit_range (h3 c h)
        rw [hu] at this
        revert this
        decide
    · rw [(number_of_digits h2 h3 h4).2]
      rfl

theorem splitChars_no_sep (sep : Char) (xs : List Char) (h : ∀ c ∈ xs, c ≠ sep) :
    splitChars sep xs = [xs] := by
  induction xs with
  | nil => rfl
  | cons a t ih =>
    have ha : a ≠ sep := h a (by simp)
    simp [splitChars, ha, ih (fun c hc => h c (List.mem_cons_of_mem _ hc))]

theorem splitChars_two (sep : Char) (xs ys : List Char) (hx : ∀ c ∈ xs, c ≠ sep)
    (hy : ∀ c ∈ ys, c ≠ sep) : splitChars sep (xs ++ sep :: ys) = [xs, ys] := by
  induction xs with
  | nil => simp [splitChars, splitChars_no_sep sep ys hy]
  | cons a t ih =>
    have ha : a ≠ sep := hx a (by simp)
    simp [splitChars, ha, ih (fun c hc => hx c (List.mem_cons_of_mem _ hc))]

/-- Splitting a conversation key on the underscore and converting the parts to numbers
gives the smaller and the larger identifier. -/
theorem parts_of_chat_id (a b : Int) :
    (split (chat_id a b) '_').map Number = [some (min a b), some (max a b)] := by
  obtain ⟨xs, hx1, hx2, hx3⟩ := int_toString_spec (min a b)
  obtain ⟨ys, hy1, hy2, hy3⟩ := int_toString_spec (max a b)
  have hl : (chat_id a b).toList = xs ++ '_' :: ys := by
    rw [chat_id_min_max, String.toList, String.data_append, String.data_append]
    rw [String.toList] at hx1 hy1
    rw [hx1, hy1]
    simp
  unfold split
  rw [hl, splitChars_two '_' xs ys hx2 hy2]
  simp [hx3, hy3]


/-! ## Access to a history -/

/-- The parts of a conversation key between the underscores are the renderings of the
smaller and of the larger identifier. -/
theorem split_chat_id (a b : Int) :
    split (chat_id a b) '_' = [toString (min a b), toString (max a b)] := by
  obtain ⟨xs, hx1, hx2, _⟩ := int_toString_spec (min a b)
  obtain ⟨ys, hy1, hy2, _⟩ := int_toString_spec (max a b)
  have hl : (chat_id a b).toList = xs ++ '_' :: ys := by
    rw [chat_id_min_max, String.toList, String.data_append, String.data_append]
    rw [String.toList] at hx1 hy1
    rw [hx1, hy1]
    simp
  unfold split
  rw [hl, splitChars_two '_' xs ys hx2 hy2, ← hx1, ← hy1]
  rfl

/-- The exact conversion reads the decimal rendering of an integer back. -/
theorem number_toString (n : Int) : Number (toString n) = some n := by
  obtain ⟨cs, h1, _, h3⟩ := int_toString_spec n
  rw [← h1] at h3
  exact h3

/-- C17. Whatever `Number` makes of the parts of `chatId` (the statement holds for every
conversion `number`): `GET /messages/:chatId` returns messages only to an authenticated user
whose id is the first or the second numeric component of `chatId` (the parts between the
underscores, converted); an authenticated user whose id is neither is answered 403 and gets
no message. In particular a user who is neither `a` nor `b` is answered 403 for the key of
the conversation of `a` and `b`, whenever the conversion reads the decimal renderings of `a`
and `b` back (JavaScript does so for every identifier a double holds exactly), so they
never read its history. -/
theorem history_only_for_participants (verify : String → Option TokenPayload)
    (number : String → Option Int) (run : FetchRun) (db : Db) (req : Request)
    (chatId : String) :
    (∀ rows, (getMessages verify number run db req chatId).body = .messages rows →
      ∃ user, authenticate verify req = .ok user ∧
        (((split chatId '_').map number)[0]? = some (some user.id) ∨
         ((split chatId '_').map number)[1]? = some (some user.id))) ∧
    (∀ user, authenticate verify req = .ok user →
      ¬ (((split chatId '_').map number)[0]? = some (some user.id) ∨
         ((split chatId '_').map number)[1]? = some (some user.id)) →
      getMessages verify number run db req chatId =
        { status := 403, body := .error "Unauthorized access to chat" }) ∧
    (∀ (a b : Int) user, authenticate verify req = .ok user → user.id ≠ a → user.id ≠ b →
      number (toString a) = some a → number (toString b) = some b →
      getMessages verify number run db req (chat_id a b) =
        { status := 403, body := .error "Unauthorized access to chat" }) := by
  have h403 : ∀ (cid : String) user, authenticate verify req = .ok user →
      ¬ (((split cid '_').map number)[0]? = some (some user.id) ∨
         ((split cid '_').map number)[1]? = some (some user.id)) →
      getMessages verify number run db req cid =
        { status := 403, body := .error "Unauthorized access to chat" } := by
    intro cid user hauth hnot
    have hc : (!(((split cid '_').map number)[0]? == some (some user.id) ||
        ((split cid '_').map number)[1]? == some (some user.id))) = true := by
      simpa using hnot
    simp only [getMessages, hauth, hc, if_true]
  refine ⟨?_, h403 chatId, ?_⟩
  · intro rows hrows
    cases hauth : authenticate verify req with
    | error res =>
      obtain ⟨msg, hmsg⟩ := authenticate_status hauth
      simp only [getMessages, hauth, hmsg] at hrows
      cases hrows
    | ok user =>
      refine ⟨user, rfl, ?_⟩
      by_contra hnot
      rw [h403 chatId user hauth hnot] at hrows
      cases hrows
  · intro a b user hauth ha hb hna hnb
    apply h403 (chat_id a b) user hauth
    rw [split_chat_id]
    have hmin : number (toString (min a b)) = some (min a b) := by
      rcases min_choice a b with hm | hm <;> rw [hm] <;> assumption
    have hmax : number (toString (max a b)) = some (max a b) := by
      rcases max_choice a b with hm | hm <;> rw [hm] <;> assumption
    have h0 : ([toString (min a b), toString (max a b)].map number)[0]? =
        some (some (min a b)) := by
      simp [hmin]
    have h1 : ([toString (min a b), toString (max a b)].map number)[1]? =
        some (some (max a b)) := by
      simp [hmax]
    rw [h0, h1]
    rintro (h | h)
    · have h2 : min a b = user.id := Option.some.inj (Option.some.inj h)
      rcases min_choice a b with hm | hm
      · exact ha (by rw [← h2, hm])
      · exact hb (by rw [← h2, hm])
    · have h2 : max a b = user.id := Option.some.inj (Option.some.inj h)
      rcases max_choice a b with hm | hm
      · exact ha (by rw [← h2, hm])
      · exact hb (by rw [← h2, hm])

theorem history_only_for_participants_witness :
    (authenticate (fun t => if t = "t5" then some ⟨5, "e@x"⟩ else none)
        ⟨some "t5", none, none, none, 0⟩ = .ok ⟨5, "e@x"⟩ ∧ (5 : Int) ≠ 7 ∧ (5 : Int) ≠ 3 ∧
      Number (toString (7 : Int)) = some 7 ∧ Number (toString (3 : Int)) = some 3) ∧
    getMessages (fun t => if t = "t5" then some ⟨5, "e@x"⟩ else none) Number
        ⟨false, false, fun m => m.id⟩
        ⟨[⟨3, "C", "c@x", none⟩, ⟨5, "E", "e@x", none⟩, ⟨7, "G", "g@x", none⟩],
          [⟨1, "3_7", 7, 3, some "a", none, 50⟩]⟩
        ⟨some "t5", none, none, none, 0⟩ (chat_id 7 3) =
      { status := 403, body := .error "Unauthorized access to chat" } :=
  ⟨⟨rfl, by decide, by decide, by decide, by decide⟩,
   (history_only_for_participants (fun t => if t = "t5" then some ⟨5, "e@x"⟩ else none)
      Number ⟨false, false, fun m => m.id⟩
      ⟨[⟨3, "C", "c@x", none⟩, ⟨5, "E", "e@x", none⟩, ⟨7, "G", "g@x", none⟩],
        [⟨1, "3_7", 7, 3, some "a", none, 50⟩]⟩
      ⟨some "t5", none, none, none, 0⟩ "3_7").2.2 7 3 ⟨5, "e@x"⟩ rfl (by decide) (by decide)
      (by decide) (by decide)⟩

/-- The route checks that the store has two rows for the two parts of the key, not that each
participant exists: for the key `"1_1"` of a conversation of user 1 with themselves (the
socket handler stores such rows) the query `WHERE id IN (1, 1)` finds one row, and user 1 is
answered 404 although they exist. -/
theorem self_chat_is_answered_not_found :
    getMessages (fun t => if t = "t1" then some ⟨1, "a@x"⟩ else none) Number
        ⟨false, false, fun m => m.id⟩
        ⟨[⟨1, "A", "a@x", none⟩], [⟨1, "1_1", 1, 1, some "note", none, 50⟩]⟩
        ⟨some "t1", none, none, none, 0⟩ (chat_id 1 1) =
      { status := 404, body := .error "Invalid chat participants" } := by
  decide

/-! ## The answer of the store to the history query -/

theorem historyOrder_total (rank : Message → Nat) : IsTotal Message (historyOrder rank) :=
  ⟨fun a b => by unfold historyOrder; omega⟩

theorem historyOrder_trans (rank : Message → Nat) : IsTrans Message (historyOrder rank) :=
  ⟨fun a b c h1 h2 => by unfold historyOrder at *; omega⟩

/-- The answer of the store is a history: the stored rows of the key, ascending by
timestamp. -/
theorem historyRows_isHistory (rank : Message → Nat) (db : Db) (chatId : String) :
    IsHistory db chatId (historyRows rank db chatId) := by
  haveI := historyOrder_total rank
  haveI := historyOrder_trans rank
  refine ⟨List.perm_insertionSort _ _, ?_⟩
  have h := List.sorted_insertionSort (historyOrder rank)
    (db.messages.filter (fun m => m.chat_id == chatId))
  exact List.Pairwise.imp (fun h => by unfold historyOrder at h; omega) h

theorem orderedInsert_append_last (r : Message → Message → Prop) [DecidableRel r]
    (a x : Message) (h : r a x) :
    ∀ s : List Message,
      List.orderedInsert r a (s ++ [x]) = List.orderedInsert r a s ++ [x] := by
  intro s
  induction s with
  | nil => simp [List.orderedInsert, h]
  | cons b t ih =>
    by_cases hab : r a b
    · simp [List.orderedInsert, hab]
    · simp [List.orderedInsert, hab, ih]

theorem insertionSort_append_last (r : Message → Message → Prop) [DecidableRel r]
    (x : Message) :
    ∀ l : List Message, (∀ y ∈ l, r y x) →
      List.insertionSort r (l ++ [x]) = List.insertionSort r l ++ [x] := by
  intro l
  induction l with
  | nil => intro _; rfl
  | cons a t ih =>
    intro h
    have ht := ih (fun y hy => h y (List.mem_cons_of_mem _ hy))
    show List.orderedInsert r a (List.insertionSort r (t ++ [x])) =
      List.orderedInsert r a (List.insertionSort r t) ++ [x]
    rw [ht]
    exact orderedInsert_append_last r a x (h a (List.mem_cons_self _ _)) _

theorem insertionSort_append_sorted (r : Message → Message → Prop) [DecidableRel r] :
    ∀ (news l : List Message), (∀ y ∈ l, ∀ x ∈ news, r y x) → news.Pairwise r →
      List.insertionSort r (l ++ news) = List.insertionSort r l ++ news := by
  intro news
  induction news with
  | nil => intro l _ _; simp
  | cons n ns ih =>
    intro l hold hinc
    have hsplit : l ++ n :: ns = (l ++ [n]) ++ ns := by simp
    rw [hsplit, ih (l ++ [n]) ?_ (List.pairwise_cons.mp hinc).2,
      insertionSort_append_last r n l (fun y hy => hold y hy n (List.mem_cons_self _ _))]
    · simp
    · intro y hy x hx
      rcases List.mem_append.mp hy with h | h
      · exact hold y h x (List.mem_cons_of_mem _ hx)
      · rw [List.mem_singleton.mp h]
        exact (List.pairwise_cons.mp hinc).1 x hx

/-- Rows of the key appended to the table with strictly ascending timestamps, all later than
the rows of the key already there, are listed after those, in the order they were
appended. -/
theorem historyRows_append (rank : Message → Nat) (db : Db) (chatId : String)
    (news : List Message) (hk : ∀ x ∈ news, x.chat_id = chatId)
    (hinc : news.Pairwise (fun x y => x.timestamp < y.timestamp))
    (hold : ∀ m ∈ db.messages, m.chat_id = chatId → ∀ x ∈ news, m.timestamp < x.timestamp) :
    historyRows rank { db with messages := db.messages ++ news } chatId =
      historyRows rank db chatId ++ news := by
  unfold historyRows
  have hf : (db.messages ++ news).filter (fun m => m.chat_id == chatId) =
      db.messages.filter (fun m => m.chat_id == chatId) ++ news := by
    rw [List.filter_append]
    congr 1
    rw [List.filter_eq_self]
    intro m hm
    simp [hk m hm]
  show List.insertionSort (historyOrder rank)
    ((db.messages ++ news).filter (fun m => m.chat_id == chatId)) = _
  rw [hf]
  apply insertionSort_append_sorted
  · intro y hy x hx
    rw [List.mem_filter] at hy
    exact Or.inl (hold y hy.1 (by simpa using hy.2) x hx)
  · exact hinc.imp (fun h => Or.inl h)

/-- The rows `GET /:chatId` sends are the answer of the store for `chatId`. -/
theorem getMessages_rows {verify : String → Option TokenPayload}
    {number : String → Option Int} {run : FetchRun} {db : Db} {req : Request}
    {chatId : String} {rows : List Message}
    (h : (getMessages verify number run db req chatId).body = .messages rows) :
    rows = historyRows run.rank db chatId ∧
      getMessages verify number run db req chatId = { status := 200, body := .messages rows } := by
  cases hauth : authenticate verify req with
  | error res =>
    obtain ⟨msg, hmsg⟩ := authenticate_status hauth
    simp only [getMessages, hauth, hmsg] at h
    cases h
  | ok user =>
    cases hacc : (!(((split chatId '_').map number)[0]? == some (some user.id) ||
        ((split chatId '_').map number)[1]? == some (some user.id))) with
    | true =>
      simp only [getMessages, hauth, hacc, if_true] at h
      cases h
    | false =>
      cases hsel : selectUsersIn run db ((split chatId '_').map number)[0]?
          ((split chatId '_').map number)[1]? with
      | none =>
        simp only [getMessages, hauth, hacc, hsel, Bool.false_eq_true, if_false] at h
        cases h
      | some rowCount =>
        by_cases hlt : rowCount < 2
        · simp only [getMessages, hauth, hacc, hsel, hlt, Bool.false_eq_true, if_false,
            if_true] at h
          cases h
        · cases hmsg : selectMessages run db chatId with
          | none =>
            simp only [getMessages, hauth, hacc, hsel, hlt, hmsg, Bool.false_eq_true,
              if_false] at h
            cases h
          | some rows1 =>
            simp only [getMessages, hauth, hacc, hsel, hlt, hmsg, Bool.false_eq_true,
              if_false, Body.messages.injEq] at h
            subst h
            refine ⟨?_, ?_⟩
            · unfold selectMessages at hmsg
              split at hmsg
              · cases hmsg
              · exact (Option.some.inj hmsg).symm
            · simp only [getMessages, hauth, hacc, hsel, hlt, hmsg, Bool.false_eq_true,
                if_false]

/-- A participant of the conversation of `a` and `b` gets the answer of the store for its
key when both users exist and the queries do not throw. -/
theorem getMessages_ok {verify : String → Option TokenPayload}
    {number : String → Option Int} {run : FetchRun} {db : Db} {req : Request}
    {user : TokenPayload} {a b : Int}
    (hauth : authenticate verify req = .ok user) (huser : user.id = a ∨ user.id = b)
    (hna : number (toString a) = some a) (hnb : number (toString b) = some b)
    (hu : run.usersThrows = false) (hm : run.messagesThrows = false)
    (hcount : 2 ≤ (db.users.filter (fun u => u.id == a || u.id == b)).length) :
    getMessages verify number run db req (chat_id a b) =
      { status := 200, body := .messages (historyRows run.rank db (chat_id a b)) } := by
  have hmin : number (toString (min a b)) = some (min a b) := by
    rcases min_choice a b with h | h <;> rw [h] <;> assumption
  have hmax : number (toString (max a b)) = some (max a b) := by
    rcases max_choice a b with h | h <;> rw [h] <;> assumption
  have h0 : ([toString (min a b), toString (max a b)].map number)[0]? =
      some (some (min a b)) := by simp [hmin]
  have h1 : ([toString (min a b), toString (max a b)].map number)[1]? =
      some (some (max a b)) := by simp [hmax]
  have hin : (!((some (some (min a b)) : Option (Option Int)) == some (some user.id) ||
      (some (some (max a b)) : Option (Option Int)) == some (some user.id))) = false := by
    have : min a b = user.id ∨ max a b = user.id := by
      rcases huser with h | h <;> rw [h] <;> omega
    rcases this with h | h <;> simp [h]
  have hfilter : (db.users.filter
      (fun u => (some (some u.id) : Option (Option Int)) == some (some (min a b)) ||
        (some (some u.id) : Option (Option Int)) == some (some (max a b)))) =
      db.users.filter (fun u => u.id == a || u.id == b) := by
    apply List.filter_congr
    intro u _
    have : (u.id = min a b ∨ u.id = max a b) ↔ (u.id = a ∨ u.id = b) := by omega
    by_cases hu : u.id = a ∨ u.id = b
    · have hu2 := this.mpr hu
      have e1 : ((some (some u.id) : Option (Option Int)) == some (some (min a b)) ||
          (some (some u.id) : Option (Option Int)) == some (some (max a b))) = true := by
        rcases hu2 with h | h <;> simp [h]
      have e2 : (u.id == a || u.id == b) = true := by
        rcases hu with h | h <;> simp [h]
      rw [e1, e2]
    · have hu2 : ¬ (u.id = min a b ∨ u.id = max a b) := fun h => hu (this.mp h)
      have e1 : ((some (some u.id) : Option (Option Int)) == some (some (min a b)) ||
          (some (some u.id) : Option (Option Int)) == some (some (max a b))) = false := by
        simpa using hu2
      have e2 : (u.id == a || u.id == b) = false := by simpa using hu
      rw [e1, e2]
  have hint : ((some (some (min a b)) : Option (Option Int)) == some none ||
      (some (some (max a b)) : Option (Option Int)) == some none) = false := by
    simp
  have hsel : selectUsersIn run db (some (some (min a b))) (some (some (max a b))) =
      some (db.users.filter (fun u => u.id == a || u.id == b)).length := by
    simp only [selectUsersIn, hu, hint, Bool.false_eq_true, if_false, hfilter]
  have hnot : ¬ (db.users.filter (fun u => u.id == a || u.id == b)).length < 2 := by omega
  simp only [getMessages, hauth, split_chat_id, h0, h1, hin, Bool.false_eq_true,
    if_false, hsel, hnot, selectMessages, hm]

/-- Every order of the stored rows of a key that ascends by timestamp is the answer of the
store for some rank, when the rows are distinct (as the rows of a table with a key column
are): the rank leaves the order among rows of equal timestamp free, and no more. -/
theorem historyRows_complete {db : Db} {chatId : String} {rows : List Message}
    (h : IsHistory db chatId rows) (hnodup : rows.Nodup) :
    ∃ rank : Message → Nat, historyRows rank db chatId = rows := by
  refine ⟨fun m => rows.indexOf m, ?_⟩
  haveI := historyOrder_total (fun m => rows.indexOf m)
  haveI := historyOrder_trans (fun m => rows.indexOf m)
  have hs1 := List.sorted_insertionSort (historyOrder (fun m => rows.indexOf m))
    (db.messages.filter (fun m => m.chat_id == chatId))
  have hp1 : (historyRows (fun m => rows.indexOf m) db chatId).Perm rows :=
    (List.perm_insertionSort _ _).trans h.1.symm
  have hidx : rows.Pairwise (fun a b => rows.indexOf a ≤ rows.indexOf b) := by
    rw [List.pairwise_iff_getElem]
    intro i j hi hj hij
    rw [List.indexOf_getElem hnodup i hi, List.indexOf_getElem hnodup j hj]
    exact Nat.le_of_lt hij
  have hs2 : rows.Pairwise (historyOrder (fun m => rows.indexOf m)) :=
    (h.2.and hidx).imp (fun h => by unfold historyOrder; dsimp only; omega)
  have hanti : ∀ {a b : Message}, a ∈ rows → b ∈ rows →
      historyOrder (fun m => rows.indexOf m) a b →
      historyOrder (fun m => rows.indexOf m) b a → a = b := by
    intro a b ha hb hab hba
    apply (List.indexOf_inj ha hb).mp
    unfold historyOrder at hab hba
    dsimp only at hab hba
    omega
  have hasym : IsAntisymm Message (fun a b => historyOrder (fun m => rows.indexOf m) a b ∧
      (historyOrder (fun m => rows.indexOf m) b a → a = b)) :=
    ⟨fun a b hab hba => hab.2 hba.1⟩
  refine @List.eq_of_perm_of_sorted Message _ hasym _ _ hp1 ?_ ?_
  · refine List.Pairwise.imp_of_mem ?_ hs1
    intro a b ha hb hab
    exact ⟨hab, fun hba => hanti (hp1.subset ha) (hp1.subset hb) hab hba⟩
  · refine List.Pairwise.imp_of_mem ?_ hs2
    intro a b ha hb hab
    exact ⟨hab, fun hba => hanti ha hb hab hba⟩

/-- C14, as stated, fails: the conversation `3_7` holds two rows with the same timestamp,
"a" inserted before "b". Both orders ascend by timestamp, and the store may answer either:
one fetch lists "a" before "b", another lists "b", inserted later, before "a". -/
theorem equal_timestamps_order_not_fixed :
    getMessages (fun t => if t = "t7" then some ⟨7, "g@x"⟩ else none) Number
        ⟨false, false, fun m => m.id⟩
        ⟨[⟨3, "C", "c@x", none⟩, ⟨7, "G", "g@x", none⟩],
          [⟨1, "3_7", 7, 3, some "a", none, 50⟩, ⟨2, "3_7", 3, 7, some "b", none, 50⟩]⟩
        ⟨some "t7", none, none, none, 0⟩ "3_7" =
      { status := 200,
        body := .messages [⟨1, "3_7", 7, 3, some "a", none, 50⟩,
          ⟨2, "3_7", 3, 7, some "b", none, 50⟩] } ∧
    getMessages (fun t => if t = "t7" then some ⟨7, "g@x"⟩ else none) Number
        ⟨false, false, fun m => 2 - m.id⟩
        ⟨[⟨3, "C", "c@x", none⟩, ⟨7, "G", "g@x", none⟩],
          [⟨1, "3_7", 7, 3, some "a", none, 50⟩, ⟨2, "3_7", 3, 7, some "b", none, 50⟩]⟩
        ⟨some "t7", none, none, none, 0⟩ "3_7" =
      { status := 200,
        body := .messages [⟨2, "3_7", 3, 7, some "b", none, 50⟩,
          ⟨1, "3_7", 7, 3, some "a", none, 50⟩] } := by
  decide

/-- C14, amended. The sequence `GET /messages/:chatId` returns holds exactly the stored rows
of the key, each as often as the table does, ascending by timestamp. When no two stored rows
of the key have the same timestamp, the order is strict and every fetch of the key returns
the same sequence; when the rows of the key were stored with strictly ascending timestamps,
the sequence is the order of insertion. -/
theorem history_ascends_by_timestamp (verify : String → Option TokenPayload)
    (number : String → Option Int) (run : FetchRun) (db : Db) (req : Request)
    (chatId : String) (rows : List Message)
    (h : (getMessages verify number run db req chatId).body = .messages rows) :
    rows.Perm (db.messages.filter (fun m => m.chat_id == chatId)) ∧
    rows.Pairwise (fun a b => a.timestamp ≤ b.timestamp) ∧
    ((db.messages.filter (fun m => m.chat_id == chatId)).Pairwise
        (fun a b => a.timestamp ≠ b.timestamp) →
      rows.Pairwise (fun a b => a.timestamp < b.timestamp) ∧
      ∀ (verify2 : String → Option TokenPayload) (number2 : String → Option Int)
        (run2 : FetchRun) (req2 : Request) (rows2 : List Message),
        (getMessages verify2 number2 run2 db req2 chatId).body = .messages rows2 →
        rows2 = rows) ∧
    ((db.messages.filter (fun m => m.chat_id == chatId)).Pairwise
        (fun a b => a.timestamp < b.timestamp) →
      rows = db.messages.filter (fun m => m.chat_id == chatId)) := by
  obtain ⟨hrows, -⟩ := getMessages_rows h
  have hH : IsHistory db chatId rows := by
    rw [hrows]
    exact historyRows_isHistory run.rank db chatId
  refine ⟨hH.1, hH.2, ?_, ?_⟩
  · intro hd
    have hd1 : rows.Pairwise (fun a b => a.timestamp ≠ b.timestamp) :=
      (hH.1.pairwise_iff (fun {a b} (h : a.timestamp ≠ b.timestamp) => Ne.symm h)).mpr hd
    refine ⟨(hH.2.and hd1).imp (fun h => lt_of_le_of_ne h.1 h.2), ?_⟩
    intro verify2 number2 run2 req2 rows2 h2
    obtain ⟨hrows2, -⟩ := getMessages_rows h2
    have hH2 : IsHistory db chatId rows2 := by
      rw [hrows2]
      exact historyRows_isHistory run2.rank db chatId
    exact sorted_perm_unique (hH2.1.trans hH.1.symm) hH2.2 hH.2 hd1
  · intro hs
    exact sorted_perm_unique hH.1 hH.2 (hs.imp (fun h => Nat.le_of_lt h))
      (hs.imp (fun h => Nat.ne_of_lt h))

theorem history_ascends_by_timestamp_witness :
    (getMessages (fun t => if t = "t7" then some ⟨7, "g@x"⟩ else none) Number
        ⟨false, false, fun m => 2 - m.id⟩
        ⟨[⟨3, "C", "c@x", none⟩, ⟨7, "G", "g@x", none⟩],
          [⟨1, "3_7", 7, 3, some "a", none, 50⟩, ⟨2, "3_7", 3, 7, some "b", none, 60⟩]⟩
        ⟨some "t7", none, none, none, 0⟩ "3_7").body =
      .messages [⟨1, "3_7", 7, 3, some "a", none, 50⟩,
        ⟨2, "3_7", 3, 7, some "b", none, 60⟩] ∧
    ([⟨1, "3_7", 7, 3, some "a", none, 50⟩, ⟨2, "3_7", 3, 7, some "b", none, 60⟩] :
        List Message).Pairwise (fun a b => a.timestamp ≤ b.timestamp) :=
  ⟨by decide,
   (history_ascends_by_timestamp (fun t => if t = "t7" then some ⟨7, "g@x"⟩ else none)
      Number ⟨false, false, fun m => 2 - m.id⟩
      ⟨[⟨3, "C", "c@x", none⟩, ⟨7, "G", "g@x", none⟩],
        [⟨1, "3_7", 7, 3, some "a", none, 50⟩, ⟨2, "3_7", 3, 7, some "b", none, 60⟩]⟩
      ⟨some "t7", none, none, none, 0⟩ "3_7"
      [⟨1, "3_7", 7, 3, some "a", none, 50⟩, ⟨2, "3_7", 3, 7, some "b", none, 60⟩]
      (by decide)).2.1⟩

/-! ## Identifiers as they arrive: numbers and strings -/

theorem toString_int_injective {a b : Int} (h : toString a = toString b) : a = b := by
  have ha := number_toString a
  rw [h, number_toString b] at ha
  exact (Option.some.inj ha).symm

theorem raw_chat_id_eq (toNumber : String → JsNumber) (x y : JsId) :
    Raw.chat_id toNumber x y =
      if x.less toNumber y = true then x.render ++ "_" ++ y.render
      else y.render ++ "_" ++ x.render := by
  unfold Raw.chat_id
  simp only [toString, toString_string, String.append_empty, String.empty_append]

/-- On two numbers the key of the namespace `Raw` is the key of two numbers. -/
theorem raw_chat_id_num (toNumber : String → JsNumber) (a b : Int) :
    Raw.chat_id toNumber (.num a) (.num b) = chat_id a b := by
  rw [raw_chat_id_eq, chat_id_eq]
  by_cases h : a < b <;> simp [JsId.less, JsId.render, h]

theorem column_denotes {toNumber : String → JsNumber} {asInteger : String → Option Int}
    {x : JsId} {n : Int} (h : x.Denotes toNumber asInteger n) :
    x.column asInteger = some n := by
  rcases h with h | ⟨h, -, h2⟩
  · rw [h]; rfl
  · rw [h]; exact h2

/-- The key of two identifiers that arrive as numbers or as decimal renderings, not both as
strings, is the key of the two numbers. -/
theorem raw_chat_id_denotes {toNumber : String → JsNumber} {asInteger : String → Option Int}
    {x y : JsId} {a b : Int} (hx : x.Denotes toNumber asInteger a)
    (hy : y.Denotes toNumber asInteger b) (hnum : x.isNum = true ∨ y.isNum = true) :
    Raw.chat_id toNumber x y = chat_id a b := by
  rcases hx with hx | ⟨hx, hx1, -⟩ <;> rcases hy with hy | ⟨hy, hy1, -⟩
  · rw [hx, hy]; exact raw_chat_id_num toNumber a b
  · rw [hx, hy, raw_chat_id_eq, chat_id_eq]
    by_cases h : a < b <;> simp [JsId.less, JsId.render, hy1, JsNumber.gtInt, h]
  · rw [hx, hy, raw_chat_id_eq, chat_id_eq]
    by_cases h : a < b <;> simp [JsId.less, JsId.render, hx1, JsNumber.ltInt, h]
  · rw [hx, hy] at hnum
    simp [JsId.isNum] at hnum

theorem getKey_num (m : UserSockets) (n : Int) : m.getKey (.num n) = m.get n := by
  unfold UserSockets.getKey UserSockets.get
  congr 1
  induction m.entries with
  | nil => rfl
  | cons e t ih =>
    have he : (toString e.1 == (JsId.num n).render) = (e.1 == n) := by
      by_cases h : e.1 = n
      · simp [h, JsId.render]
      · have h2 : toString e.1 ≠ toString n := fun hh => h (toString_int_injective hh)
        simp [h, JsId.render, h2]
    simp only [List.find?_cons, he, ih]

theorem raw_authenticate (verify : String → Option TokenPayload) (req : Request) :
    Raw.authenticate verify req.raw = authenticate verify req := rfl

theorem raw_uploadMessage (req : Request) : Raw.uploadMessage req.raw = uploadMessage req :=
  rfl

/-- On a payload whose identifiers are numbers, the `sendMessage` handler of the namespace
`Raw` is the handler on numbers. -/
theorem sendMessage_raw (toNumber : String → JsNumber) (asInteger : String → Option Int)
    (run : StoreRun) (db : Db) (userSockets : UserSockets) (socket : Socket) (p : Payload) :
    Raw.sendMessage toNumber asInteger run db userSockets socket p.raw =
      sendMessage run db userSockets socket p := by
  obtain ⟨ps, pr, pc⟩ := p
  cases ps <;> cases pr <;> cases pc <;>
    simp [Raw.sendMessage, sendMessage, Payload.raw, JsId.truthy, Raw.insertMessage,
      JsId.column, raw_chat_id_num, getKey_num]

/-- On a body whose receiver is a number, `POST /` of the namespace `Raw` is the route on
numbers. -/
theorem postMessage_raw (verify : String → Option TokenPayload)
    (toNumber : String → JsNumber) (asInteger : String → Option Int) (run : StoreRun)
    (db : Db) (req : Request) :
    Raw.postMessage verify toNumber asInteger run db req.raw =
      postMessage verify run db req := by
  unfold Raw.postMessage postMessage
  rw [raw_authenticate]
  cases authenticate verify req with
  | error res => rfl
  | ok user =>
    obtain ⟨tok, rid, content, file, dateNow⟩ := req
    cases rid with
    | none => rfl
    | some r =>
      simp [Request.raw, JsId.truthy, Raw.selectUserById, Raw.insertMessage, JsId.column,
        raw_chat_id_num]

/-- On a body whose receiver is a number, `POST /send-message` of the namespace `Raw` is the
route on numbers. -/
theorem postSendMessage_raw (verify : String → Option TokenPayload)
    (toNumber : String → JsNumber) (asInteger : String → Option Int) (run : StoreRun)
    (db : Db) (req : Request) :
    Raw.postSendMessage verify toNumber asInteger run db req.raw =
      postSendMessage verify run db req := by
  unfold Raw.postSendMessage postSendMessage
  rw [raw_authenticate, raw_uploadMessage]
  cases authenticate verify req with
  | error res => rfl
  | ok user =>
    obtain ⟨tok, rid, content, file, dateNow⟩ := req
    cases rid with
    | none => rfl
    | some r =>
      simp [Request.raw, JsId.truthy, Raw.insertMessage, JsId.column, raw_chat_id_num]

theorem raw_authenticate_status {verify : String → Option TokenPayload} {req : Raw.Request}
    {res : Response} (h : Raw.authenticate verify req = .error res) :
    ∃ msg, res = { status := 401, body := .error msg } := by
  unfold Raw.authenticate at h
  split at h
  · cases h; exact ⟨_, rfl⟩
  · split at h
    · cases h
    · cases h; exact ⟨_, rfl⟩

theorem raw_insertMessage_some {asInteger : String → Option Int} {run : StoreRun} {db : Db}
    {chat : String} {x y : JsId} {c f : Option String} {row : Message} {db1 : Db}
    (h : Raw.insertMessage asInteger run db chat x y c f = some (row, db1)) :
    ∃ cx cy, x.column asInteger = some cx ∧ y.column asInteger = some cy ∧
      run.insertThrows = false ∧
      row = { id := run.newId, chat_id := chat, sender_id := cx, receiver_id := cy,
              content := c, file_path := f, timestamp := run.now } ∧
      db1 = { db with messages := db.messages ++ [row] } := by
  unfold Raw.insertMessage at h
  cases hx : x.column asInteger with
  | none => simp only [hx] at h; cases h
  | some cx =>
    cases hy : y.column asInteger with
    | none => simp only [hx, hy] at h; cases h
    | some cy =>
      simp only [hx, hy] at h
      obtain ⟨h1, h2, h3⟩ := insertMessage_some h
      exact ⟨cx, cy, rfl, rfl, h1, h2, h3⟩

/-- A run of the `sendMessage` handler that stored a row, on identifiers as they arrive. -/
theorem raw_sendMessage_stored {toNumber : String → JsNumber}
    {asInteger : String → Option Int} {run : StoreRun} {db : Db} {reg : UserSockets}
    {sock : Socket} {p : Raw.Payload} {row : Message}
    (h : (Raw.sendMessage toNumber asInteger run db reg sock p).outcome = .stored row) :
    ∃ x y c cx cy, p.sender_id = some x ∧ p.receiver_id = some y ∧ p.content = some c ∧
      x.column asInteger = some cx ∧ y.column asInteger = some cy ∧
      row = { id := run.newId, chat_id := Raw.chat_id toNumber x y, sender_id := cx,
              receiver_id := cy, content := some c, file_path := none,
              timestamp := run.now } ∧
      (Raw.sendMessage toNumber asInteger run db reg sock p).db =
        { db with messages := db.messages ++ [row] } := by
  obtain ⟨ps, pr, pc⟩ := p
  cases ps with
  | none => simp [Raw.sendMessage] at h
  | some x =>
    cases pr with
    | none => simp [Raw.sendMessage] at h
    | some y =>
      cases pc with
      | none => simp [Raw.sendMessage] at h
      | some c =>
        cases hv : (!x.truthy || !y.truthy || !truthyStr c) with
        | true =>
          simp only [Raw.sendMessage, hv, if_true] at h
          cases h
        | false =>
          cases hins : Raw.insertMessage asInteger run db (Raw.chat_id toNumber x y) x y
              (some c) none with
          | none =>
            simp only [Raw.sendMessage, hv, hins, Bool.false_eq_true, if_false] at h
            cases h
          | some out =>
            obtain ⟨row1, db1⟩ := out
            obtain ⟨cx, cy, hx, hy, -, hrow, hdb⟩ := raw_insertMessage_some hins
            simp only [Raw.sendMessage, hv, hins, Bool.false_eq_true, if_false,
              Outcome.stored.injEq] at h
            subst h
            refine ⟨x, y, c, cx, cy, rfl, rfl, rfl, hx, hy, hrow, ?_⟩
            simp only [Raw.sendMessage, hv, hins, Bool.false_eq_true, if_false, hdb]

/-- A run of `POST /` that answered with a stored row, on identifiers as they arrive. -/
theorem raw_postMessage_created {verify : String → Option TokenPayload}
    {toNumber : String → JsNumber} {asInteger : String → Option Int} {run : StoreRun}
    {db : Db} {req : Raw.Request} {row : Message}
    (h : (Raw.postMessage verify toNumber asInteger run db req).1.body = .messageSent row) :
    ∃ user y cy, Raw.authenticate verify req = .ok user ∧ req.receiver_id = some y ∧
      y.column asInteger = some cy ∧
      row = { id := run.newId, chat_id := Raw.chat_id toNumber (.num user.id) y,
              sender_id := user.id, receiver_id := cy, content := req.content,
              file_path := none, timestamp := run.now } ∧
      (Raw.postMessage verify toNumber asInteger run db req).2 =
        { db with messages := db.messages ++ [row] } := by
  cases hauth : Raw.authenticate verify req with
  | error res =>
    obtain ⟨msg, hmsg⟩ := raw_authenticate_status hauth
    simp only [Raw.postMessage, hauth, hmsg] at h
    cases h
  | ok user =>
    cases hr : req.receiver_id with
    | none =>
      simp only [Raw.postMessage, hauth, hr] at h
      cases h
    | some y =>
      cases hv : (!y.truthy || !truthyOptStr (req.content.map trim)) with
      | true =>
        simp only [Raw.postMessage, hauth, hr, hv, if_true] at h
        cases h
      | false =>
        cases hself : (JsId.num user.id == y) with
        | true =>
          simp only [Raw.postMessage, hauth, hr, hv, hself, if_true, Bool.false_eq_true,
            if_false] at h
          cases h
        | false =>
          cases hsel : Raw.selectUserById asInteger run db y with
          | none =>
            simp only [Raw.postMessage, hauth, hr, hv, hself, hsel, Bool.false_eq_true,
              if_false] at h
            cases h
          | some rowCount =>
            cases hz : (rowCount == 0) with
            | true =>
              simp only [Raw.postMessage, hauth, hr, hv, hself, hsel, hz, if_true,
                Bool.false_eq_true, if_false] at h
              cases h
            | false =>
              cases hins : Raw.insertMessage asInteger run db
                  (Raw.chat_id toNumber (.num user.id) y) (.num user.id) y req.content
                  none with
              | none =>
                simp only [Raw.postMessage, hauth, hr, hv, hself, hsel, hz, hins,
                  Bool.false_eq_true, if_false] at h
                cases h
              | some out =>
                obtain ⟨row1, db1⟩ := out
                obtain ⟨cx, cy, hx, hy, -, hrow, hdb⟩ := raw_insertMessage_some hins
                simp only [Raw.postMessage, hauth, hr, hv, hself, hsel, hz, hins,
                  Bool.false_eq_true, if_false, Body.messageSent.injEq] at h
                subst h
                have hcx : cx = user.id := by
                  simp only [JsId.column, Option.some.injEq] at hx
                  exact hx.symm
                subst hcx
                refine ⟨user, y, cy, rfl, rfl, hy, hrow, ?_⟩
                simp only [Raw.postMessage, hauth, hr, hv, hself, hsel, hz, hins,
                  Bool.false_eq_true, if_false, hdb]

/-- A run of `POST /send-message` that answered with a stored row, on identifiers as they
arrive. -/
theorem raw_postSendMessage_created {verify : String → Option TokenPayload}
    {toNumber : String → JsNumber} {asInteger : String → Option Int} {run : StoreRun}
    {db : Db} {req : Raw.Request} {row : Message}
    (h : (Raw.postSendMessage verify toNumber asInteger run db req).1.body = .success row) :
    ∃ user y cy, Raw.authenticate verify req = .ok user ∧ req.receiver_id = some y ∧
      y.column asInteger = some cy ∧
      row = { id := run.newId, chat_id := Raw.chat_id toNumber (.num user.id) y,
              sender_id := user.id, receiver_id := cy,
              content := if truthyOptStr req.content then req.content else none,
              file_path := (Raw.uploadMessage req).1, timestamp := run.now } ∧
      (Raw.postSendMessage verify toNumber asInteger run db req).2 =
        { db with messages := db.messages ++ [row] } := by
  cases hauth : Raw.authenticate verify req with
  | error res =>
    obtain ⟨msg, hmsg⟩ := raw_authenticate_status hauth
    simp only [Raw.postSendMessage, hauth, hmsg] at h
    cases h
  | ok user =>
    cases hf : (Raw.uploadMessage req).2 with
    | some err =>
      simp only [Raw.postSendMessage, hauth, hf] at h
      cases h
    | none =>
      cases hr : req.receiver_id with
      | none =>
        simp only [Raw.postSendMessage, hauth, hf, hr] at h
        cases h
      | some y =>
        cases hv : (!y.truthy ||
            (!truthyOptStr req.content && !truthyOptStr (Raw.uploadMessage req).1)) with
        | true =>
          simp only [Raw.postSendMessage, hauth, hf, hr, hv, if_true] at h
          cases h
        | false =>
          cases hins : Raw.insertMessage asInteger run db
              (Raw.chat_id toNumber (.num user.id) y) (.num user.id) y
              (if truthyOptStr req.content then req.content else none)
              (Raw.uploadMessage req).1 with
          | none =>
            simp only [Raw.postSendMessage, hauth, hf, hr, hv, hins, Bool.false_eq_true,
              if_false] at h
            cases h
          | some out =>
            obtain ⟨row1, db1⟩ := out
            obtain ⟨cx, cy, hx, hy, -, hrow, hdb⟩ := raw_insertMessage_some hins
            simp only [Raw.postSendMessage, hauth, hf, hr, hv, hins, Bool.false_eq_true,
              if_false, Body.success.injEq] at h
            subst h
            have hcx : cx = user.id := by
              simp only [JsId.column, Option.some.injEq] at hx
              exact hx.symm
            subst hcx
            refine ⟨user, y, cy, rfl, rfl, hy, hrow, ?_⟩
            simp only [Raw.postSendMessage, hauth, hf, hr, hv, hins, Bool.false_eq_true,
              if_false, hdb]

/-- A submission that stored a row, on any of the three paths: the row holds the key of the
identifiers as they arrived, the integers the store read from them, the content bound to
the column and the value of `NOW()`, and it is appended to the table. -/
theorem raw_submit_stored {verify : String → Option TokenPayload}
    {toNumber : String → JsNumber} {asInteger : String → Option Int} {db : Db}
    {sub : Raw.Submission} {row : Message}
    (h : (Raw.submit verify toNumber asInteger db sub).2 = some row) :
    ∃ x y, sub.ids verify = some (x, y) ∧
      x.column asInteger = some row.sender_id ∧ y.column asInteger = some row.receiver_id ∧
      row.chat_id = Raw.chat_id toNumber x y ∧ row.content = sub.content ∧
      row.timestamp = sub.run.now ∧ row.id = sub.run.newId ∧
      (Raw.submit verify toNumber asInteger db sub).1 =
        { db with messages := db.messages ++ [row] } := by
  cases sub with
  | socket run reg sock p =>
    have hout : (Raw.sendMessage toNumber asInteger run db reg sock p).outcome =
        .stored row := by
      simp only [Raw.submit] at h
      cases ho : (Raw.sendMessage toNumber asInteger run db reg sock p).outcome with
      | ignored => rw [ho] at h; cases h
      | failed => rw [ho] at h; cases h
      | stored r => rw [ho] at h; simp only [Option.some.injEq] at h; rw [h]
    obtain ⟨x, y, c, cx, cy, hs, hr, hc, hx, hy, hrow, hdb⟩ := raw_sendMessage_stored hout
    refine ⟨x, y, ?_, ?_, ?_, ?_, ?_, ?_, ?_, ?_⟩
    · simp only [Raw.Submission.ids, hs, hr]
    · rw [hrow]; exact hx
    · rw [hrow]; exact hy
    · rw [hrow]
    · rw [hrow]; exact hc.symm
    · rw [hrow]; rfl
    · rw [hrow]; rfl
    · simp only [Raw.submit]; exact hdb
  | post run req =>
    have hout : (Raw.postMessage verify toNumber asInteger run db req).1.body =
        .messageSent row := by
      simp only [Raw.submit] at h
      cases ho : (Raw.postMessage verify toNumber asInteger run db req).1.body with
      | messageSent r => rw [ho] at h; simp only [Option.some.injEq] at h; rw [h]
      | error _ => rw [ho] at h; cases h
      | success _ => rw [ho] at h; cases h
      | messages _ => rw [ho] at h; cases h
      | users _ => rw [ho] at h; cases h
      | profile _ => rw [ho] at h; cases h
      | errorPage _ => rw [ho] at h; cases h
    obtain ⟨user, y, cy, hauth, hr, hy, hrow, hdb⟩ := raw_postMessage_created hout
    refine ⟨.num user.id, y, ?_, ?_, ?_, ?_, ?_, ?_, ?_, ?_⟩
    · simp only [Raw.Submission.ids, hauth, hr]
    · rw [hrow]; rfl
    · rw [hrow]; exact hy
    · rw [hrow]
    · rw [hrow]; rfl
    · rw [hrow]; rfl
    · rw [hrow]; rfl
    · simp only [Raw.submit]; exact hdb
  | upload run req =>
    have hout : (Raw.postSendMessage verify toNumber asInteger run db req).1.body =
        .success row := by
      simp only [Raw.submit] at h
      cases ho : (Raw.postSendMessage verify toNumber asInteger run db req).1.body with
      | success r => rw [ho] at h; simp only [Option.some.injEq] at h; rw [h]
      | error _ => rw [ho] at h; cases h
      | messageSent _ => rw [ho] at h; cases h
      | messages _ => rw [ho] at h; cases h
      | users _ => rw [ho] at h; cases h
      | profile _ => rw [ho] at h; cases h
      | errorPage _ => rw [ho] at h; cases h
    obtain ⟨user, y, cy, hauth, hr, hy, hrow, hdb⟩ := raw_postSendMessage_created hout
    refine ⟨.num user.id, y, ?_, ?_, ?_, ?_, ?_, ?_, ?_, ?_⟩
    · simp only [Raw.Submission.ids, hauth, hr]
    · rw [hrow]; rfl
    · rw [hrow]; exact hy
    · rw [hrow]
    · rw [hrow]; rfl
    · rw [hrow]; rfl
    · rw [hrow]; rfl
    · simp only [Raw.submit]; exact hdb

/-- The row of a submission from `s` to `r` that stored one: its key is the key of the two
numbers, its sender is `s` and its receiver is `r`. -/
theorem raw_submit_row {verify : String → Option TokenPayload}
    {toNumber : String → JsNumber} {asInteger : String → Option Int} {db : Db}
    {sub : Raw.Submission} {row : Message} {s r : Int}
    (hfrom : sub.From verify toNumber asInteger s r)
    (h : (Raw.submit verify toNumber asInteger db sub).2 = some row) :
    row.chat_id = chat_id s r ∧ row.sender_id = s ∧ row.receiver_id = r ∧
      row.content = sub.content ∧ row.timestamp = sub.run.now ∧
      (Raw.submit verify toNumber asInteger db sub).1 =
        { db with messages := db.messages ++ [row] } := by
  obtain ⟨x, y, hids, hx, hy, hkey, hc, hts, -, hdb⟩ := raw_submit_stored h
  unfold Raw.Submission.From at hfrom
  rw [hids] at hfrom
  obtain ⟨hnum, hdx, hdy⟩ := hfrom
  rw [column_denotes hdx] at hx
  rw [column_denotes hdy] at hy
  exact ⟨by rw [hkey, raw_chat_id_denotes hdx hdy hnum], (Option.some.inj hx).symm,
    (Option.some.inj hy).symm, hc, hts, hdb⟩

/-- Submissions that all stored a row leave the table with those rows appended, in the
order of the submissions. -/
theorem raw_submitAll_stored (verify : String → Option TokenPayload)
    (toNumber : String → JsNumber) (asInteger : String → Option Int) :
    ∀ (subs : List Raw.Submission) (db : Db) (rows : List Message),
      (Raw.submitAll verify toNumber asInteger db subs).2 = rows.map some →
      (Raw.submitAll verify toNumber asInteger db subs).1 =
        { db with messages := db.messages ++ rows } ∧
      List.Forall₂ (fun sub row =>
        ∃ db0, (Raw.submit verify toNumber asInteger db0 sub).2 = some row) subs rows := by
  intro subs
  induction subs with
  | nil =>
    intro db rows h
    cases rows with
    | nil => exact ⟨by simp [Raw.submitAll], List.Forall₂.nil⟩
    | cons r rs => simp [Raw.submitAll] at h
  | cons sub rest ih =>
    intro db rows h
    cases rows with
    | nil => simp [Raw.submitAll] at h
    | cons r rs =>
      simp only [Raw.submitAll, List.map_cons, List.cons.injEq] at h
      obtain ⟨h1, h2⟩ := h
      obtain ⟨-, -, -, -, -, -, -, -, -, hdb⟩ := raw_submit_stored h1
      obtain ⟨ih1, ih2⟩ := ih _ rs h2
      refine ⟨?_, List.Forall₂.cons ⟨db, h1⟩ ih2⟩
      simp only [Raw.submitAll]
      rw [ih1, hdb]
      simp

/-! ## The key of a stored row -/

/-- C2, as stated, fails for an identifier that arrives as a string. User 1 posts to
`/send-message` with the form field `receiver_id` set to `007`: the comparison `1 < "007"`
is numeric, the template literal renders the field as it was sent, the store reads the
integer 7 from it, and the row is stored for receiver 7 under the key `1_007`, which is not
`1_7`. On the socket the payload identifiers `"10"` and `"9"` are both strings, are compared
as strings, and the row is stored under `10_9`, the larger identifier first. -/
theorem string_identifier_is_rendered_as_sent :
    Raw.postSendMessage (fun t => if t = "t1" then some ⟨1, "a@x"⟩ else none) ToNumber
        pgInteger ⟨50, 9, false, false⟩
        ⟨[⟨1, "A", "a@x", none⟩, ⟨7, "G", "g@x", none⟩], []⟩
        ⟨some "t1", some (.str "007"), some "hi", none, 0⟩ =
      ({ status := 201, body := .success ⟨9, "1_007", 1, 7, some "hi", none, 50⟩ },
       ⟨[⟨1, "A", "a@x", none⟩, ⟨7, "G", "g@x", none⟩],
        [⟨9, "1_007", 1, 7, some "hi", none, 50⟩]⟩) ∧
    ("1_007" : String) ≠ toString (min (1 : Int) 7) ++ "_" ++ toString (max (1 : Int) 7) ∧
    (Raw.sendMessage ToNumber pgInteger ⟨51, 10, false, false⟩ ⟨[], []⟩ UserSockets.empty
        ⟨⟨"s10", by decide⟩, ⟨10, "j@x"⟩⟩
        ⟨some (.str "10"), some (.str "9"), some "hi"⟩).outcome =
      .stored ⟨10, "10_9", 10, 9, some "hi", none, 51⟩ ∧
    ("10_9" : String) ≠ toString (min (10 : Int) 9) ++ "_" ++ toString (max (10 : Int) 9) := by
  decide

/-- C2, amended. On each of the three submission paths the `chat_id` of the stored row
joins the renderings of the two identifiers as they arrived, in one order or the other.
When the identifiers arrive as the numbers `s` and `r`, or as their decimal renderings and
not both as strings, the row is stored for sender `s` and receiver `r` and its `chat_id` is
the decimal rendering of the smaller of the two, then `_`, then the decimal rendering of
the larger, which is the same string whichever of the two is the sender. -/
theorem stored_chat_id_canonical (verify : String → Option TokenPayload)
    (toNumber : String → JsNumber) (asInteger : String → Option Int) (db : Db)
    (sub : Raw.Submission) (row : Message)
    (hrow : (Raw.submit verify toNumber asInteger db sub).2 = some row) :
    row ∈ (Raw.submit verify toNumber asInteger db sub).1.messages ∧
    (∃ x y, sub.ids verify = some (x, y) ∧
      (row.chat_id = x.render ++ "_" ++ y.render ∨
       row.chat_id = y.render ++ "_" ++ x.render)) ∧
    (∀ s r : Int, sub.From verify toNumber asInteger s r →
      row.sender_id = s ∧ row.receiver_id = r ∧
      row.chat_id = toString (min s r) ++ "_" ++ toString (max s r) ∧
      toString (min s r) ++ "_" ++ toString (max s r) =
        toString (min r s) ++ "_" ++ toString (max r s)) := by
  obtain ⟨x, y, hids, -, -, hkey, -, -, -, hdb⟩ := raw_submit_stored hrow
  refine ⟨by rw [hdb]; simp, ⟨x, y, hids, ?_⟩, ?_⟩
  · rw [hkey, raw_chat_id_eq]
    by_cases h : x.less toNumber y = true
    · exact Or.inl (by rw [if_pos h])
    · exact Or.inr (by rw [if_neg h])
  · intro s r hfrom
    obtain ⟨h1, h2, h3, -⟩ := raw_submit_row hfrom hrow
    exact ⟨h2, h3, by rw [h1, chat_id_min_max], by rw [min_comm, max_comm]⟩

theorem stored_chat_id_canonical_witness :
    (Raw.submit (fun t => if t = "t7" then some ⟨7, "g@x"⟩ else none) ToNumber pgInteger
        ⟨[], []⟩
        (.upload ⟨50, 1, false, false⟩ ⟨some "t7", some (.str "3"), some "a", none, 0⟩)).2 =
      some ⟨1, "3_7", 7, 3, some "a", none, 50⟩ ∧
    Raw.Submission.From (fun t => if t = "t7" then some ⟨7, "g@x"⟩ else none) ToNumber
      pgInteger 7 3
      (.upload ⟨50, 1, false, false⟩ ⟨some "t7", some (.str "3"), some "a", none, 0⟩) ∧
    (⟨1, "3_7", 7, 3, some "a", none, 50⟩ : Message).chat_id =
      toString (min (7 : Int) 3) ++ "_" ++ toString (max (7 : Int) 3) :=
  ⟨by decide, by decide,
   ((stored_chat_id_canonical (fun t => if t = "t7" then some ⟨7, "g@x"⟩ else none) ToNumber
      pgInteger ⟨[], []⟩
      (.upload ⟨50, 1, false, false⟩ ⟨some "t7", some (.str "3"), some "a", none, 0⟩)
      ⟨1, "3_7", 7, 3, some "a", none, 50⟩ (by decide)).2.2 7 3 (by decide)).2.2.1⟩

/-! ## A submission and the history -/

/-- C13, as stated, fails twice. The conversation `3_7` holds a row stamped 100; user 7
posts "hi" to the existing user 3 while `NOW()` is 50: the request is answered 201, the new
row is stamped 50, below the row stored before it, and the history lists it first. And user
1 posts "hi" to the existing user 7 with `receiver_id` sent as the string `007`: the
request is answered 201 and the row is stored under `1_007`, so the history fetched for the
key `1_7` of users 1 and 7 is after the submission what it was before. -/
theorem new_row_may_be_stamped_earlier :
    (Raw.postMessage (fun t => if t = "t7" then some ⟨7, "g@x"⟩ else none) ToNumber
        pgInteger ⟨50, 2, false, false⟩
        ⟨[⟨3, "C", "c@x", none⟩, ⟨7, "G", "g@x", none⟩],
          [⟨1, "3_7", 3, 7, some "yo", none, 100⟩]⟩
        ⟨some "t7", some (.num 3), some "hi", none, 0⟩ =
      ({ status := 201, body := .messageSent ⟨2, "3_7", 7, 3, some "hi", none, 50⟩ },
       ⟨[⟨3, "C", "c@x", none⟩, ⟨7, "G", "g@x", none⟩],
        [⟨1, "3_7", 3, 7, some "yo", none, 100⟩, ⟨2, "3_7", 7, 3, some "hi", none, 50⟩]⟩) ∧
     getMessages (fun t => if t = "t7" then some ⟨7, "g@x"⟩ else none) Number
        ⟨false, false, fun m => m.id⟩
        ⟨[⟨3, "C", "c@x", none⟩, ⟨7, "G", "g@x", none⟩],
         [⟨1, "3_7", 3, 7, some "yo", none, 100⟩, ⟨2, "3_7", 7, 3, some "hi", none, 50⟩]⟩
        ⟨some "t7", none, none, none, 0⟩ (chat_id 7 3) =
      { status := 200,
        body := .messages [⟨2, "3_7", 7, 3, some "hi", none, 50⟩,
          ⟨1, "3_7", 3, 7, some "yo", none, 100⟩] } ∧
     ¬ ((⟨1, "3_7", 3, 7, some "yo", none, 100⟩ : Message).timestamp ≤
        (⟨2, "3_7", 7, 3, some "hi", none, 50⟩ : Message).timestamp)) ∧
    (Raw.postMessage (fun t => if t = "t1" then some ⟨1, "a@x"⟩ else none) ToNumber
        pgInteger ⟨50, 2, false, false⟩
        ⟨[⟨1, "A", "a@x", none⟩, ⟨7, "G", "g@x", none⟩], []⟩
        ⟨some "t1", some (.str "007"), some "hi", none, 0⟩ =
      ({ status := 201, body := .messageSent ⟨2, "1_007", 1, 7, some "hi", none, 50⟩ },
       ⟨[⟨1, "A", "a@x", none⟩, ⟨7, "G", "g@x", none⟩],
        [⟨2, "1_007", 1, 7, some "hi", none, 50⟩]⟩) ∧
     getMessages (fun t => if t = "t1" then some ⟨1, "a@x"⟩ else none) Number
        ⟨false, false, fun m => m.id⟩
        ⟨[⟨1, "A", "a@x", none⟩, ⟨7, "G", "g@x", none⟩], []⟩
        ⟨some "t1", none, none, none, 0⟩ (chat_id 1 7) =
      { status := 200, body := .messages [] } ∧
     getMessages (fun t => if t = "t1" then some ⟨1, "a@x"⟩ else none) Number
        ⟨false, false, fun m => m.id⟩
        ⟨[⟨1, "A", "a@x", none⟩, ⟨7, "G", "g@x", none⟩],
         [⟨2, "1_007", 1, 7, some "hi", none, 50⟩]⟩
        ⟨some "t1", none, none, none, 0⟩ (chat_id 1 7) =
      { status := 200, body := .messages [] }) := by
  decide

/-- C13, amended. A submission from `s` to `r` (on the socket, on `POST /messages` or on
`POST /messages/send-message`) whose identifiers arrive as numbers, or as their decimal
renderings and not both as strings, and which succeeds, appends one row to the table: its
key is the key of `s` and `r`, its sender `s`, its receiver `r`, its content the submitted
content and its timestamp the value of `NOW()` at the insert. A history fetched for the key
afterwards holds the rows of a history fetched before and that row, once. When `NOW()` is
not below the timestamps stored in the conversation, the timestamp of the new row is at
least that of every row of the previous history; when it is above them, the new row is
listed last, after the old rows. A participant gets that history when both users exist and
the queries do not throw. -/
theorem history_gains_the_new_row (verify : String → Option TokenPayload)
    (number : String → Option Int) (toNumber : String → JsNumber)
    (asInteger : String → Option Int) (db : Db) (sub : Raw.Submission) (s r : Int)
    (row : Message) (hfrom : sub.From verify toNumber asInteger s r)
    (hok : (Raw.submit verify toNumber asInteger db sub).2 = some row) :
    (row.chat_id = chat_id s r ∧ row.sender_id = s ∧ row.receiver_id = r ∧
      row.content = sub.content ∧ row.timestamp = sub.run.now) ∧
    (Raw.submit verify toNumber asInteger db sub).1 =
      { db with messages := db.messages ++ [row] } ∧
    (∀ (frun frun2 : FetchRun) (req req2 : Request) (before after : List Message),
      (getMessages verify number frun db req (chat_id s r)).body = .messages before →
      (getMessages verify number frun2 (Raw.submit verify toNumber asInteger db sub).1 req2
          (chat_id s r)).body = .messages after →
      after.Perm (before ++ [row]) ∧ after.length = before.length + 1 ∧
      ((∀ m ∈ db.messages, m.chat_id = chat_id s r → m.timestamp ≤ sub.run.now) →
        ∀ m ∈ before, m.timestamp ≤ row.timestamp) ∧
      ((∀ m ∈ db.messages, m.chat_id = chat_id s r → m.timestamp < sub.run.now) →
        (∃ old, old.Perm before ∧ after = old ++ [row]) ∧
        (frun2.rank = frun.rank → after = before ++ [row]))) ∧
    (∀ (frun : FetchRun) (req : Request) (user : TokenPayload),
      authenticate verify req = .ok user → (user.id = s ∨ user.id = r) →
      number (toString s) = some s → number (toString r) = some r →
      frun.usersThrows = false → frun.messagesThrows = false →
      2 ≤ (db.users.filter (fun u => u.id == s || u.id == r)).length →
      getMessages verify number frun (Raw.submit verify toNumber asInteger db sub).1 req
          (chat_id s r) =
        { status := 200,
          body := .messages (historyRows frun.rank
            (Raw.submit verify toNumber asInteger db sub).1 (chat_id s r)) }) := by
  obtain ⟨hkey, hs, hr, hc, hts, hdb⟩ := raw_submit_row hfrom hok
  refine ⟨⟨hkey, hs, hr, hc, hts⟩, hdb, ?_, ?_⟩
  · intro frun frun2 req req2 before after hb ha
    obtain ⟨hbefore, -⟩ := getMessages_rows hb
    obtain ⟨hafter, -⟩ := getMessages_rows ha
    rw [hdb] at hafter
    have hHb : IsHistory db row.chat_id before := by
      rw [hbefore, hkey]; exact historyRows_isHistory _ _ _
    have hHa : IsHistory { db with messages := db.messages ++ [row] } row.chat_id after := by
      rw [hafter, hkey]; exact historyRows_isHistory _ _ _
    obtain ⟨hperm, hclock⟩ := history_after_insert hHb hHa
    refine ⟨hperm, by rw [hperm.length_eq]; simp, ?_, ?_⟩
    · intro hle
      exact (hclock (fun m hm hk => by rw [hts]; exact hle m hm (by rw [← hkey]; exact hk))).1
    · intro hlt
      have happ : after = historyRows frun2.rank db (chat_id s r) ++ [row] := by
        rw [hafter]
        apply historyRows_append
        · intro x hx
          rw [List.mem_singleton.mp hx]; exact hkey
        · exact List.pairwise_singleton _ _
        · intro m hm hk x hx
          rw [List.mem_singleton.mp hx, hts]
          exact hlt m hm hk
      refine ⟨⟨historyRows frun2.rank db (chat_id s r), ?_, happ⟩, ?_⟩
      · rw [hbefore]
        exact (historyRows_isHistory frun2.rank db (chat_id s r)).1.trans
          (historyRows_isHistory frun.rank db (chat_id s r)).1.symm
      · intro hrank
        rw [happ, hbefore, hrank]
  · intro frun req user hauth huser hns hnr hu hm hcount
    apply getMessages_ok hauth huser hns hnr hu hm
    rw [hdb]
    exact hcount

theorem history_gains_the_new_row_witness :
    (Raw.Submission.From (fun t => if t = "t7" then some ⟨7, "g@x"⟩ else none) ToNumber
        pgInteger 7 3
        (.post ⟨150, 2, false, false⟩ ⟨some "t7", some (.num 3), some "hi", none, 0⟩) ∧
     (Raw.submit (fun t => if t = "t7" then some ⟨7, "g@x"⟩ else none) ToNumber pgInteger
        ⟨[⟨3, "C", "c@x", none⟩, ⟨7, "G", "g@x", none⟩],
          [⟨1, "3_7", 3, 7, some "yo", none, 100⟩]⟩
        (.post ⟨150, 2, false, false⟩ ⟨some "t7", some (.num 3), some "hi", none, 0⟩)).2 =
      some ⟨2, "3_7", 7, 3, some "hi", none, 150⟩) ∧
    getMessages (fun t => if t = "t7" then some ⟨7, "g@x"⟩ else none) Number
        ⟨false, false, fun m => m.id⟩
        (Raw.submit (fun t => if t = "t7" then some ⟨7, "g@x"⟩ else none) ToNumber pgInteger
          ⟨[⟨3, "C", "c@x", none⟩, ⟨7, "G", "g@x", none⟩],
            [⟨1, "3_7", 3, 7, some "yo", none, 100⟩]⟩
          (.post ⟨150, 2, false, false⟩ ⟨some "t7", some (.num 3), some "hi", none, 0⟩)).1
        ⟨some "t7", none, none, none, 0⟩ (chat_id 7 3) =
      { status := 200,
        body := .messages [⟨1, "3_7", 3, 7, some "yo", none, 100⟩,
          ⟨2, "3_7", 7, 3, some "hi", none, 150⟩] } :=
  ⟨⟨by decide, by decide⟩,
   (history_gains_the_new_row (fun t => if t = "t7" then some ⟨7, "g@x"⟩ else none) Number
      ToNumber pgInteger
      ⟨[⟨3, "C", "c@x", none⟩, ⟨7, "G", "g@x", none⟩],
        [⟨1, "3_7", 3, 7, some "yo", none, 100⟩]⟩
      (.post ⟨150, 2, false, false⟩ ⟨some "t7", some (.num 3), some "hi", none, 0⟩) 7 3
      ⟨2, "3_7", 7, 3, some "hi", none, 150⟩ (by decide) (by decide)).2.2.2
      ⟨false, false, fun m => m.id⟩ ⟨some "t7", none, none, none, 0⟩ ⟨7, "g@x"⟩ rfl
      (Or.inl rfl) (by decide) (by decide) rfl rfl (by decide)⟩

/-! ## Submissions made one after another -/

theorem forall2_and_left {α β : Type} {R : α → β → Prop} {Q : α → Prop} :
    ∀ {l1 : List α} {l2 : List β}, List.Forall₂ R l1 l2 → (∀ a ∈ l1, Q a) →
      List.Forall₂ (fun a b => R a b ∧ Q a) l1 l2 := by
  intro l1 l2 h
  induction h with
  | nil => intro _; exact List.Forall₂.nil
  | cons hab _ ih =>
    intro hq
    exact List.Forall₂.cons ⟨hab, hq _ (List.mem_cons_self _ _)⟩
      (ih (fun a ha => hq a (List.mem_cons_of_mem _ ha)))

theorem forall2_right_mem {α β : Type} {R : α → β → Prop} :
    ∀ {l1 : List α} {l2 : List β}, List.Forall₂ R l1 l2 →
      ∀ b ∈ l2, ∃ a ∈ l1, R a b := by
  intro l1 l2 h
  induction h with
  | nil => intro b hb; cases hb
  | cons hab _ ih =>
    intro b hb
    rcases List.mem_cons.mp hb with h | h
    · exact ⟨_, List.mem_cons_self _ _, h ▸ hab⟩
    · obtain ⟨a, ha, hr⟩ := ih b h
      exact ⟨a, List.mem_cons_of_mem _ ha, hr⟩

theorem forall2_pairwise {α β : Type} {R : α → β → Prop} {S : α → α → Prop}
    {T : β → β → Prop}
    (hRST : ∀ a1 b1 a2 b2, R a1 b1 → R a2 b2 → S a1 a2 → T b1 b2) :
    ∀ {l1 : List α} {l2 : List β}, List.Forall₂ R l1 l2 → l1.Pairwise S →
      l2.Pairwise T := by
  intro l1 l2 h
  induction h with
  | nil => intro _; exact List.Pairwise.nil
  | cons hab htail ih =>
    intro hp
    obtain ⟨h1, h2⟩ := List.pairwise_cons.mp hp
    refine List.Pairwise.cons ?_ (ih h2)
    intro b hb
    obtain ⟨a, ha, hr⟩ := forall2_right_mem htail b hb
    exact hRST _ _ _ _ hab hr (h1 a ha)

/-- C15, as stated, fails. User 7 sends "a" to user 3 and then user 3 sends "b" to user 7,
both on the socket, both stored. When the two inserts get the same value of `NOW()`, a
fetch of `3_7` may list "b" before "a"; when the clock was set back between the two and "b"
is stamped 40 after "a" was stamped 50, every fetch lists "b" before "a". -/
theorem later_submission_may_be_listed_first :
    ((Raw.submitAll (fun t => if t = "t7" then some ⟨7, "g@x"⟩ else none) ToNumber
        pgInteger ⟨[⟨3, "C", "c@x", none⟩, ⟨7, "G", "g@x", none⟩], []⟩
        [.socket ⟨50, 1, false, false⟩ UserSockets.empty ⟨⟨"h7", by decide⟩, ⟨7, "g@x"⟩⟩
           ⟨some (.num 7), some (.num 3), some "a"⟩,
         .socket ⟨50, 2, false, false⟩ UserSockets.empty ⟨⟨"h3", by decide⟩, ⟨3, "c@x"⟩⟩
           ⟨some (.num 3), some (.num 7), some "b"⟩]).2 =
      [some ⟨1, "3_7", 7, 3, some "a", none, 50⟩, some ⟨2, "3_7", 3, 7, some "b", none, 50⟩] ∧
     getMessages (fun t => if t = "t7" then some ⟨7, "g@x"⟩ else none) Number
        ⟨false, false, fun m => 2 - m.id⟩
        (Raw.submitAll (fun t => if t = "t7" then some ⟨7, "g@x"⟩ else none) ToNumber
          pgInteger ⟨[⟨3, "C", "c@x", none⟩, ⟨7, "G", "g@x", none⟩], []⟩
          [.socket ⟨50, 1, false, false⟩ UserSockets.empty ⟨⟨"h7", by decide⟩, ⟨7, "g@x"⟩⟩
             ⟨some (.num 7), some (.num 3), some "a"⟩,
           .socket ⟨50, 2, false, false⟩ UserSockets.empty ⟨⟨"h3", by decide⟩, ⟨3, "c@x"⟩⟩
             ⟨some (.num 3), some (.num 7), some "b"⟩]).1
        ⟨some "t7", none, none, none, 0⟩ "3_7" =
      { status := 200,
        body := .messages [⟨2, "3_7", 3, 7, some "b", none, 50⟩,
          ⟨1, "3_7", 7, 3, some "a", none, 50⟩] }) ∧
    ((Raw.submitAll (fun t => if t = "t7" then some ⟨7, "g@x"⟩ else none) ToNumber
        pgInteger ⟨[⟨3, "C", "c@x", none⟩, ⟨7, "G", "g@x", none⟩], []⟩
        [.socket ⟨50, 1, false, false⟩ UserSockets.empty ⟨⟨"h7", by decide⟩, ⟨7, "g@x"⟩⟩
           ⟨some (.num 7), some (.num 3), some "a"⟩,
         .socket ⟨40, 2, false, false⟩ UserSockets.empty ⟨⟨"h3", by decide⟩, ⟨3, "c@x"⟩⟩
           ⟨some (.num 3), some (.num 7), some "b"⟩]).2 =
      [some ⟨1, "3_7", 7, 3, some "a", none, 50⟩, some ⟨2, "3_7", 3, 7, some "b", none, 40⟩] ∧
     getMessages (fun t => if t = "t7" then some ⟨7, "g@x"⟩ else none) Number
        ⟨false, false, fun m => m.id⟩
        (Raw.submitAll (fun t => if t = "t7" then some ⟨7, "g@x"⟩ else none) ToNumber
          pgInteger ⟨[⟨3, "C", "c@x", none⟩, ⟨7, "G", "g@x", none⟩], []⟩
          [.socket ⟨50, 1, false, false⟩ UserSockets.empty ⟨⟨"h7", by decide⟩, ⟨7, "g@x"⟩⟩
             ⟨some (.num 7), some (.num 3), some "a"⟩,
           .socket ⟨40, 2, false, false⟩ UserSockets.empty ⟨⟨"h3", by decide⟩, ⟨3, "c@x"⟩⟩
             ⟨some (.num 3), some (.num 7), some "b"⟩]).1
        ⟨some "t7", none, none, none, 0⟩ "3_7" =
      { status := 200,
        body := .messages [⟨2, "3_7", 3, 7, some "b", none, 40⟩,
          ⟨1, "3_7", 7, 3, some "a", none, 50⟩] }) := by
  decide

/-- C15, amended. For every two users `a` and `b` and every sequence of submissions between
them, in either direction and on any of the three paths, made one after another, whose
identifiers arrive as numbers or as their decimal renderings (not both as strings), which
all succeed, and each of which gets a value of `NOW()` later than the one before and than
the timestamps already stored in the conversation: a participant who fetches the history of
their key afterwards gets the rows stored before, in the order that fetch gives them,
followed by the submitted messages in the order of submission; each of those rows has the
sender, the receiver, the content and the value of `NOW()` of its submission. -/
theorem submissions_listed_in_order (verify : String → Option TokenPayload)
    (number : String → Option Int) (toNumber : String → JsNumber)
    (asInteger : String → Option Int) (db : Db) (a b : Int) (subs : List Raw.Submission)
    (rows : List Message) (frun : FetchRun) (req : Request) (user : TokenPayload)
    (hsub : ∀ sub ∈ subs, sub.Between verify toNumber asInteger a b)
    (hok : (Raw.submitAll verify toNumber asInteger db subs).2 = rows.map some)
    (hinc : subs.Pairwise (fun x y => x.run.now < y.run.now))
    (hold : ∀ m ∈ db.messages, m.chat_id = chat_id a b →
      ∀ sub ∈ subs, m.timestamp < sub.run.now)
    (hauth : authenticate verify req = .ok user) (huser : user.id = a ∨ user.id = b)
    (hna : number (toString a) = some a) (hnb : number (toString b) = some b)
    (hu : frun.usersThrows = false) (hm : frun.messagesThrows = false)
    (hcount : 2 ≤ (db.users.filter (fun u => u.id == a || u.id == b)).length) :
    getMessages verify number frun (Raw.submitAll verify toNumber asInteger db subs).1 req
        (chat_id a b) =
      { status := 200,
        body := .messages (historyRows frun.rank db (chat_id a b) ++ rows) } ∧
    List.Forall₂ (fun sub row =>
      row.chat_id = chat_id a b ∧ row.content = sub.content ∧
      row.timestamp = sub.run.now ∧
      ((sub.From verify toNumber asInteger a b ∧ row.sender_id = a ∧ row.receiver_id = b) ∨
       (sub.From verify toNumber asInteger b a ∧ row.sender_id = b ∧ row.receiver_id = a)))
      subs rows := by
  obtain ⟨hdb, hF⟩ := raw_submitAll_stored verify toNumber asInteger subs db rows hok
  have hfacts : List.Forall₂ (fun sub row =>
      row.chat_id = chat_id a b ∧ row.content = sub.content ∧
      row.timestamp = sub.run.now ∧
      ((sub.From verify toNumber asInteger a b ∧ row.sender_id = a ∧ row.receiver_id = b) ∨
       (sub.From verify toNumber asInteger b a ∧ row.sender_id = b ∧ row.receiver_id = a)))
      subs rows := by
    refine List.Forall₂.imp ?_ (forall2_and_left hF hsub)
    rintro sub row ⟨⟨db0, h0⟩, hbetween⟩
    rcases hbetween with hab | hba
    · obtain ⟨h1, h2, h3, h4, h5, -⟩ := raw_submit_row hab h0
      exact ⟨h1, h4, h5, Or.inl ⟨hab, h2, h3⟩⟩
    · obtain ⟨h1, h2, h3, h4, h5, -⟩ := raw_submit_row hba h0
      exact ⟨by rw [h1, chat_id_swap], h4, h5, Or.inr ⟨hba, h2, h3⟩⟩
  refine ⟨?_, hfacts⟩
  have hkeys : ∀ x ∈ rows, x.chat_id = chat_id a b := by
    intro x hx
    obtain ⟨sub, -, hr⟩ := forall2_right_mem hfacts x hx
    exact hr.1
  have hrinc : rows.Pairwise (fun x y => x.timestamp < y.timestamp) := by
    refine forall2_pairwise ?_ hfacts hinc
    intro s1 r1 s2 r2 h1 h2 hlt
    rw [h1.2.2.1, h2.2.2.1]
    exact hlt
  have hrold : ∀ m ∈ db.messages, m.chat_id = chat_id a b →
      ∀ x ∈ rows, m.timestamp < x.timestamp := by
    intro m hm hk x hx
    obtain ⟨sub, hsubmem, hr⟩ := forall2_right_mem hfacts x hx
    rw [hr.2.2.1]
    exact hold m hm hk sub hsubmem
  have hget : getMessages verify number frun
      (Raw.submitAll verify toNumber asInteger db subs).1 req (chat_id a b) =
      { status := 200,
        body := .messages (historyRows frun.rank
          (Raw.submitAll verify toNumber asInteger db subs).1 (chat_id a b)) } :=
    getMessages_ok hauth huser hna hnb hu hm (by rw [hdb]; exact hcount)
  rw [hget, hdb, historyRows_append frun.rank db (chat_id a b) rows hkeys hrinc hrold]

theorem submissions_listed_in_order_witness :
    ((∀ sub ∈ ([.socket ⟨50, 1, false, false⟩ UserSockets.empty
            ⟨⟨"h7", by decide⟩, ⟨7, "g@x"⟩⟩ ⟨some (.num 7), some (.num 3), some "a"⟩,
          .upload ⟨60, 2, false, false⟩ ⟨some "t3", some (.str "7"), some "b", none, 0⟩] :
          List Raw.Submission),
        sub.Between (fun t => if t = "t7" then some ⟨7, "g@x"⟩
          else if t = "t3" then some ⟨3, "c@x"⟩ else none) ToNumber pgInteger 7 3) ∧
     (Raw.submitAll (fun t => if t = "t7" then some ⟨7, "g@x"⟩
          else if t = "t3" then some ⟨3, "c@x"⟩ else none) ToNumber pgInteger
        ⟨[⟨3, "C", "c@x", none⟩, ⟨7, "G", "g@x", none⟩], []⟩
        [.socket ⟨50, 1, false, false⟩ UserSockets.empty
            ⟨⟨"h7", by decide⟩, ⟨7, "g@x"⟩⟩ ⟨some (.num 7), some (.num 3), some "a"⟩,
         .upload ⟨60, 2, false, false⟩ ⟨some "t3", some (.str "7"), some "b", none, 0⟩]).2 =
      [some ⟨1, "3_7", 7, 3, some "a", none, 50⟩,
        some ⟨2, "3_7", 3, 7, some "b", none, 60⟩]) ∧
    getMessages (fun t => if t = "t7" then some ⟨7, "g@x"⟩
          else if t = "t3" then some ⟨3, "c@x"⟩ else none) Number
        ⟨false, false, fun m => 2 - m.id⟩
        (Raw.submitAll (fun t => if t = "t7" then some ⟨7, "g@x"⟩
            else if t = "t3" then some ⟨3, "c@x"⟩ else none) ToNumber pgInteger
          ⟨[⟨3, "C", "c@x", none⟩, ⟨7, "G", "g@x", none⟩], []⟩
          [.socket ⟨50, 1, false, false⟩ UserSockets.empty
              ⟨⟨"h7", by decide⟩, ⟨7, "g@x"⟩⟩ ⟨some (.num 7), some (.num 3), some "a"⟩,
           .upload ⟨60, 2, false, false⟩
              ⟨some "t3", some (.str "7"), some "b", none, 0⟩]).1
        ⟨some "t7", none, none, none, 0⟩ (chat_id 7 3) =
      { status := 200,
        body := .messages [⟨1, "3_7", 7, 3, some "a", none, 50⟩,
          ⟨2, "3_7", 3, 7, some "b", none, 60⟩] } :=
  ⟨⟨by decide, by decide⟩,
   (submissions_listed_in_order (fun t => if t = "t7" then some ⟨7, "g@x"⟩
        else if t = "t3" then some ⟨3, "c@x"⟩ else none) Number ToNumber pgInteger
      ⟨[⟨3, "C", "c@x", none⟩, ⟨7, "G", "g@x", none⟩], []⟩ 7 3
      [.socket ⟨50, 1, false, false⟩ UserSockets.empty
          ⟨⟨"h7", by decide⟩, ⟨7, "g@x"⟩⟩ ⟨some (.num 7), some (.num 3), some "a"⟩,
       .upload ⟨60, 2, false, false⟩ ⟨some "t3", some (.str "7"), some "b", none, 0⟩]
      [⟨1, "3_7", 7, 3, some "a", none, 50⟩, ⟨2, "3_7", 3, 7, some "b", none, 60⟩]
      ⟨false, false, fun m => 2 - m.id⟩ ⟨some "t7", none, none, none, 0⟩ ⟨7, "g@x"⟩
      (by decide) (by decide) (by decide) (by decide) rfl (Or.inl rfl) (by decide)
      (by decide) rfl rfl (by decide)).1⟩

/-! ## The users a user has talked to -/

theorem mem_selectConversationUsers (db : Db) (userId : Int) (x : UserSummary) :
    x ∈ selectConversationUsers db userId ↔
      ∃ v ∈ db.users, x = { id := v.id, name := v.name, profile_pic := v.profile_pic } ∧
        v.id ≠ userId ∧
        ∃ m ∈ db.messages, (m.sender_id = userId ∧ m.receiver_id = v.id) ∨
          (m.sender_id = v.id ∧ m.receiver_id = userId) := by
  unfold selectConversationUsers
  rw [List.mem_dedup, List.mem_map]
  constructor
  · rintro ⟨⟨v, m⟩, hmem, hx⟩
    rw [List.mem_filter, List.mem_filter, List.mem_flatMap] at hmem
    obtain ⟨⟨⟨u, hu, hum⟩, hon⟩, hwhere⟩ := hmem
    obtain ⟨m', hm', heq⟩ := List.mem_map.mp hum
    cases heq
    simp only [Bool.or_eq_true, beq_iff_eq, Bool.and_eq_true, bne_iff_ne, ne_eq] at hon hwhere
    refine ⟨v, hu, hx.symm, hwhere.1, m, hm', ?_⟩
    rcases hwhere.2 with h1 | h1
    · rcases hon with h2 | h2
      · exact absurd (h2.trans h1) hwhere.1
      · exact Or.inl ⟨h1, h2.symm⟩
    · rcases hon with h2 | h2
      · exact Or.inr ⟨h2.symm, h1⟩
      · exact absurd (h2.trans h1) hwhere.1
  · rintro ⟨v, hv, hx, hne, m, hm, hcase⟩
    refine ⟨(v, m), ?_, hx.symm⟩
    rw [List.mem_filter, List.mem_filter, List.mem_flatMap]
    refine ⟨⟨⟨v, hv, List.mem_map.mpr ⟨m, hm, rfl⟩⟩, ?_⟩, ?_⟩
    · simp only [Bool.or_eq_true, beq_iff_eq]
      rcases hcase with ⟨-, h⟩ | ⟨h, -⟩
      · exact Or.inr h.symm
      · exact Or.inl h.symm
    · simp only [Bool.or_eq_true, beq_iff_eq, Bool.and_eq_true, bne_iff_ne, ne_eq]
      refine ⟨hne, ?_⟩
      rcases hcase with ⟨h, -⟩ | ⟨-, h⟩
      · exact Or.inl h
      · exact Or.inr h

/-- C21. For an authenticated user `u` and every content of the two tables,
`GET /auth/users` (when its query does not throw) answers 200 with exactly the users
`v ≠ u` for whom some stored message has `u` and `v` as its sender and receiver, in either
direction, each such row once: `u` itself is never listed, nor a user without a message
exchanged with `u`; when the ids of the `users` table are distinct, so are the ids
listed. -/
theorem users_are_the_counterparts (verify : String → Option TokenPayload) (run : StoreRun)
    (db : Db) (req : Request) (user : TokenPayload)
    (hauth : authenticate verify req = .ok user) (hrun : run.selectThrows = false) :
    getUsers verify run db req =
      { status := 200, body := .users (selectConversationUsers db user.id) } ∧
    (selectConversationUsers db user.id).Nodup ∧
    (∀ x, x ∈ selectConversationUsers db user.id ↔
      ∃ v ∈ db.users, x = { id := v.id, name := v.name, profile_pic := v.profile_pic } ∧
        v.id ≠ user.id ∧
        ∃ m ∈ db.messages, (m.sender_id = user.id ∧ m.receiver_id = v.id) ∨
          (m.sender_id = v.id ∧ m.receiver_id = user.id)) ∧
    (∀ x ∈ selectConversationUsers db user.id, x.id ≠ user.id) ∧
    (db.users.Pairwise (fun a b => a.id ≠ b.id) →
      ((selectConversationUsers db user.id).map (fun x => x.id)).Nodup) := by
  have hnodup : (selectConversationUsers db user.id).Nodup := by
    unfold selectConversationUsers
    exact List.nodup_dedup _
  refine ⟨by simp [getUsers, hauth, hrun], hnodup, mem_selectConversationUsers db user.id,
    ?_, ?_⟩
  · intro x hx
    obtain ⟨v, -, hxv, hne, -⟩ := (mem_selectConversationUsers db user.id x).mp hx
    rw [hxv]
    exact hne
  · intro hids
    refine List.Nodup.map_on ?_ hnodup
    intro x hx y hy hxy
    obtain ⟨v, hv, hxv, -, -⟩ := (mem_selectConversationUsers db user.id x).mp hx
    obtain ⟨w, hw, hyw, -, -⟩ := (mem_selectConversationUsers db user.id y).mp hy
    have hvw : v = w := by
      by_contra hne
      have hsymm : Symmetric (fun a b : User => a.id ≠ b.id) := fun a b h => Ne.symm h
      have := hids.forall hsymm hv hw hne
      apply this
      rw [hxv, hyw] at hxy
      exact hxy
    rw [hxv, hyw, hvw]

theorem users_are_the_counterparts_witness :
    (authenticate (fun t => if t = "t1" then some ⟨1, "a@x"⟩ else none)
        ⟨some "t1", none, none, none, 0⟩ = .ok ⟨1, "a@x"⟩ ∧
     (⟨50, 9, false, false⟩ : StoreRun).selectThrows = false) ∧
    getUsers (fun t => if t = "t1" then some ⟨1, "a@x"⟩ else none) ⟨50, 9, false, false⟩
        ⟨[⟨1, "A", "a@x", none⟩, ⟨2, "B", "b@x", none⟩, ⟨3, "C", "c@x", some "c.png"⟩,
          ⟨4, "D", "d@x", none⟩],
         [⟨1, "1_2", 1, 2, some "x", none, 10⟩, ⟨2, "1_2", 2, 1, some "y", none, 11⟩,
          ⟨3, "1_3", 3, 1, some "z", none, 12⟩, ⟨4, "2_4", 2, 4, some "w", none, 13⟩,
          ⟨5, "1_1", 1, 1, some "v", none, 14⟩]⟩
        ⟨some "t1", none, none, none, 0⟩ =
      { status := 200, body := .users [⟨2, "B", none⟩, ⟨3, "C", some "c.png"⟩] } :=
  ⟨⟨rfl, rfl⟩,
   (users_are_the_counterparts (fun t => if t = "t1" then some ⟨1, "a@x"⟩ else none)
      ⟨50, 9, false, false⟩
      ⟨[⟨1, "A", "a@x", none⟩, ⟨2, "B", "b@x", none⟩, ⟨3, "C", "c@x", some "c.png"⟩,
        ⟨4, "D", "d@x", none⟩],
       [⟨1, "1_2", 1, 2, some "x", none, 10⟩, ⟨2, "1_2", 2, 1, some "y", none, 11⟩,
        ⟨3, "1_3", 3, 1, some "z", none, 12⟩, ⟨4, "2_4", 2, 4, some "w", none, 13⟩,
        ⟨5, "1_1", 1, 1, some "v", none, 14⟩]⟩
      ⟨some "t1", none, none, none, 0⟩ ⟨1, "a@x"⟩ rfl rfl).1.trans (by decide)⟩


/-! ## The upload filters -/

theorem startsWith_iff (s p : String) : startsWith s p = true ↔ ∃ rest, s = p ++ rest := by
  unfold startsWith
  rw [List.isPrefixOf_iff_prefix]
  constructor
  · rintro ⟨t, ht⟩
    refine ⟨String.mk t, ?_⟩
    apply String.ext
    rw [String.data_append]
    exact ht.symm
  · rintro ⟨rest, hrest⟩
    refine ⟨rest.toList, ?_⟩
    rw [hrest]
    show p.data ++ rest.data = (p ++ rest).data
    rw [String.data_append]

/-- C22. The message upload filter keeps a file if and only if its MIME type starts with
`image/` or `video/`; the profile picture filter keeps a file if and only if its MIME type
starts with `image/`; and when the message filter drops the file of an authenticated
request, `POST /messages/send-message` answers 400 and inserts no row. -/
theorem upload_filters (verify : String → Option TokenPayload) (run : StoreRun) (db : Db)
    (req : Request) (file : Upload) :
    (messageFileFilter file = true ↔
      (∃ rest, file.mimetype = "image/" ++ rest) ∨ (∃ rest, file.mimetype = "video/" ++ rest)) ∧
    (fileFilter file = .ok () ↔ ∃ rest, file.mimetype = "image/" ++ rest) ∧
    (∀ user, authenticate verify req = .ok user → req.file = some file →
      messageFileFilter file = false →
      postSendMessage verify run db req =
        ({ status := 400, body := .error "Only images and videos are allowed!" }, db)) := by
  refine ⟨?_, ?_, ?_⟩
  · unfold messageFileFilter
    rw [Bool.or_eq_true, startsWith_iff, startsWith_iff]
  · unfold fileFilter
    rw [← startsWith_iff]
    by_cases h : startsWith file.mimetype "image/" = true
    · simp [h]
    · simp [h]
  · intro user hauth hfile hdrop
    simp [postSendMessage, hauth, uploadMessage, hfile, hdrop]

theorem upload_filters_witness :
    (authenticate (fun t => if t = "t1" then some ⟨1, "a@x"⟩ else none)
        ⟨some "t1", some 2, some "hi", some ⟨"application/pdf", ".pdf"⟩, 1700⟩ =
          .ok ⟨1, "a@x"⟩ ∧
     messageFileFilter ⟨"application/pdf", ".pdf"⟩ = false ∧
     messageFileFilter ⟨"video/mp4", ".mp4"⟩ = true ∧
     fileFilter ⟨"video/mp4", ".mp4"⟩ = .error "Only image files are allowed!") ∧
    postSendMessage (fun t => if t = "t1" then some ⟨1, "a@x"⟩ else none)
        ⟨50, 9, false, false⟩
        ⟨[⟨1, "A", "a@x", none⟩, ⟨2, "B", "b@x", none⟩], []⟩
        ⟨some "t1", some 2, some "hi", some ⟨"application/pdf", ".pdf"⟩, 1700⟩ =
      ({ status := 400, body := .error "Only images and videos are allowed!" },
       ⟨[⟨1, "A", "a@x", none⟩, ⟨2, "B", "b@x", none⟩], []⟩) :=
  ⟨⟨rfl, by decide, by decide, rfl⟩,
   (upload_filters (fun t => if t = "t1" then some ⟨1, "a@x"⟩ else none)
      ⟨50, 9, false, false⟩ ⟨[⟨1, "A", "a@x", none⟩, ⟨2, "B", "b@x", none⟩], []⟩
      ⟨some "t1", some 2, some "hi", some ⟨"application/pdf", ".pdf"⟩, 1700⟩
      ⟨"application/pdf", ".pdf"⟩).2.2 ⟨1, "a@x"⟩ rfl rfl (by decide)⟩

/-! ## The sender of a stored row -/

/-- C23. User 1 is connected and submits on the socket a payload that names user 2 as the
sender: the row is stored with `sender_id` 2 and delivered to user 3 as a message of user 2.
The two HTTP routes take the sender from the verified token: the same submission by `POST`
is stored with `sender_id` 1. -/
theorem socket_sender_is_taken_from_payload :
    (sendMessage ⟨50, 9, false, false⟩ ⟨[], []⟩ ⟨[(3, ⟨"h3", by decide⟩)]⟩
        ⟨⟨"h1", by decide⟩, ⟨1, "a@x"⟩⟩ ⟨some 2, some 3, some "hi"⟩).db.messages =
      [⟨9, "2_3", 2, 3, some "hi", none, 50⟩] ∧
    (sendMessage ⟨50, 9, false, false⟩ ⟨[], []⟩ ⟨[(3, ⟨"h3", by decide⟩)]⟩
        ⟨⟨"h1", by decide⟩, ⟨1, "a@x"⟩⟩ ⟨some 2, some 3, some "hi"⟩).emits =
      [{ room := ⟨"h3", by decide⟩, event := .receiveMessage,
         payload := ⟨9, "2_3", 2, 3, some "hi", none, 50⟩ },
       { room := ⟨"h1", by decide⟩, event := .messageSent,
         payload := ⟨9, "2_3", 2, 3, some "hi", none, 50⟩ }] ∧
    (postMessage (fun t => if t = "t1" then some ⟨1, "a@x"⟩ else none) ⟨50, 9, false, false⟩
        ⟨[⟨1, "A", "a@x", none⟩, ⟨3, "C", "c@x", none⟩], []⟩
        ⟨some "t1", some 3, some "hi", none, 0⟩).2.messages =
      [⟨9, "1_3", 1, 3, some "hi", none, 50⟩] ∧
    (postSendMessage (fun t => if t = "t1" then some ⟨1, "a@x"⟩ else none)
        ⟨50, 9, false, false⟩ ⟨[⟨1, "A", "a@x", none⟩, ⟨3, "C", "c@x", none⟩], []⟩
        ⟨some "t1", some 3, some "hi", none, 0⟩).2.messages =
      [⟨9, "1_3", 1, 3, some "hi", none, 50⟩] := by
  refine ⟨by decide, by decide, by decide, by decide⟩


/-! ## The conversation key determines the pair -/

/-- C24. The conversation key is injective on unordered pairs of integer identifiers: the
key of `a` and `b` equals the key of `c` and `d` if and only if the two pairs hold the same
two identifiers, in either order; two different conversations never share a `chat_id`. -/
theorem chat_id_injective (a b c d : Int) :
    chat_id a b = chat_id c d ↔ (a = c ∧ b = d) ∨ (a = d ∧ b = c) := by
  constructor
  · intro h
    have hp : (split (chat_id a b) '_').map Number = (split (chat_id c d) '_').map Number := by
      rw [h]
    rw [parts_of_chat_id, parts_of_chat_id] at hp
    simp only [List.cons.injEq, Option.some.injEq, and_true] at hp
    obtain ⟨h1, h2⟩ := hp
    omega
  · rintro (⟨h1, h2⟩ | ⟨h1, h2⟩)
    · rw [h1, h2]
    · rw [h1, h2, chat_id_swap]

/-! ## Reading the key back -/

/-- C25. Splitting the key computed for `a` and `b` on the underscore and converting the
parts to numbers, as `GET /messages/:chatId` does, yields the smaller and the larger of the
two identifiers; hence an authenticated `a` or `b` passes the access check of the route for
that key (the answer is never 403), and gets the stored rows of that key, ascending by
timestamp, when both users exist and the queries do not throw. -/
theorem key_parses_back (verify : String → Option TokenPayload) (run : FetchRun) (db : Db)
    (req : Request) (a b : Int) :
    (split (chat_id a b) '_').map Number = [some (min a b), some (max a b)] ∧
    (∀ user, authenticate verify req = .ok user → (user.id = a ∨ user.id = b) →
      (getMessages verify Number run db req (chat_id a b)).status ≠ 403 ∧
      (run.usersThrows = false → run.messagesThrows = false →
        2 ≤ (db.users.filter (fun u => u.id == a || u.id == b)).length →
        getMessages verify Number run db req (chat_id a b) =
          { status := 200, body := .messages (historyRows run.rank db (chat_id a b)) })) := by
  refine ⟨parts_of_chat_id a b, ?_⟩
  intro user hauth hab
  have h0 : ([some (min a b), some (max a b)] : List (Option Int))[0]? =
      some (some (min a b)) := rfl
  have h1 : ([some (min a b), some (max a b)] : List (Option Int))[1]? =
      some (some (max a b)) := rfl
  have hin : (!((some (some (min a b)) : Option (Option Int)) == some (some user.id) ||
      (some (some (max a b)) : Option (Option Int)) == some (some user.id))) = false := by
    have : min a b = user.id ∨ max a b = user.id := by
      rcases hab with h | h <;> rw [h] <;> omega
    rcases this with h | h <;> simp [h]
  have hfilter : (db.users.filter
      (fun u => (some (some u.id) : Option (Option Int)) == some (some (min a b)) ||
        (some (some u.id) : Option (Option Int)) == some (some (max a b)))) =
      db.users.filter (fun u => u.id == a || u.id == b) := by
    apply List.filter_congr
    intro u _
    have : (u.id = min a b ∨ u.id = max a b) ↔ (u.id = a ∨ u.id = b) := by omega
    by_cases hu : u.id = a ∨ u.id = b
    · have hu2 := this.mpr hu
      have e1 : ((some (some u.id) : Option (Option Int)) == some (some (min a b)) ||
          (some (some u.id) : Option (Option Int)) == some (some (max a b))) = true := by
        rcases hu2 with h | h <;> simp [h]
      have e2 : (u.id == a || u.id == b) = true := by
        rcases hu with h | h <;> simp [h]
      rw [e1, e2]
    · have hu2 : ¬ (u.id = min a b ∨ u.id = max a b) := fun h => hu (this.mp h)
      have e1 : ((some (some u.id) : Option (Option Int)) == some (some (min a b)) ||
          (some (some u.id) : Option (Option Int)) == some (some (max a b))) = false := by
        simpa using hu2
      have e2 : (u.id == a || u.id == b) = false := by simpa using hu
      rw [e1, e2]
  have hint : ((some (some (min a b)) : Option (Option Int)) == some none ||
      (some (some (max a b)) : Option (Option Int)) == some none) = false := by
    simp
  constructor
  · simp only [getMessages, hauth, parts_of_chat_id, h0, h1, hin, Bool.false_eq_true,
      if_false]
    cases selectUsersIn run db (some (some (min a b))) (some (some (max a b))) with
    | none => simp
    | some rowCount =>
      by_cases hlt : rowCount < 2
      · simp [hlt]
      · cases selectMessages run db (chat_id a b) with
        | none => simp [hlt]
        | some rows => simp [hlt]
  · intro hu hm hcount
    have hsel : selectUsersIn run db (some (some (min a b))) (some (some (max a b))) =
        some (db.users.filter (fun u => u.id == a || u.id == b)).length := by
      simp only [selectUsersIn, hu, hint, Bool.false_eq_true, if_false, hfilter]
    have hnot : ¬ (db.users.filter (fun u => u.id == a || u.id == b)).length < 2 := by omega
    simp only [getMessages, hauth, parts_of_chat_id, h0, h1, hin, Bool.false_eq_true,
      if_false, hsel, hnot, selectMessages, hm]

theorem key_parses_back_witness :
    (authenticate (fun t => if t = "t7" then some ⟨7, "g@x"⟩ else none)
        ⟨some "t7", none, none, none, 0⟩ = .ok ⟨7, "g@x"⟩ ∧
     ((7 : Int) = 7 ∨ (7 : Int) = 3)) ∧
    (split (chat_id 7 3) '_').map Number = [some 3, some 7] ∧
    getMessages (fun t => if t = "t7" then some ⟨7, "g@x"⟩ else none) Number
        ⟨false, false, fun m => m.id⟩
        ⟨[⟨3, "C", "c@x", none⟩, ⟨7, "G", "g@x", none⟩],
          [⟨1, "3_7", 7, 3, some "a", none, 50⟩]⟩
        ⟨some "t7", none, none, none, 0⟩ (chat_id 7 3) =
      { status := 200, body := .messages [⟨1, "3_7", 7, 3, some "a", none, 50⟩] } :=
  have h := key_parses_back (fun t => if t = "t7" then some ⟨7, "g@x"⟩ else none)
    ⟨false, false, fun m => m.id⟩
    ⟨[⟨3, "C", "c@x", none⟩, ⟨7, "G", "g@x", none⟩], [⟨1, "3_7", 7, 3, some "a", none, 50⟩]⟩
    ⟨some "t7", none, none, none, 0⟩ 7 3
  ⟨⟨rfl, Or.inl rfl⟩, h.1,
   (h.2 ⟨7, "g@x"⟩ rfl (Or.inl rfl)).2 rfl rfl (by decide)⟩

/-! ## The statement of a profile update -/

theorem updateStatement_name (n : String) (hn : n ≠ "") (pic : Option String)
    (hp : truthyOptStr pic = false) (userId : Int) :
    updateStatement (some n) pic userId =
      { query := "UPDATE users SET name = $1 WHERE id = $2 RETURNING id, name, email, profile_pic",
        values := [.str n, .num userId] } := by
  cases pic with
  | none => simp [updateStatement, truthyStr, hn]; decide
  | some f =>
    have hf : f = "" := by simpa [truthyOptStr, truthyStr] using hp
    subst hf
    simp [updateStatement, truthyStr, hn]
    decide

theorem updateStatement_pic (name : Option String) (hn : truthyOptStr name = false)
    (f : String) (hf : f ≠ "") (userId : Int) :
    updateStatement name (some f) userId =
      { query :=
          "UPDATE users SET profile_pic = $1 WHERE id = $2 RETURNING id, name, email, profile_pic",
        values := [.str f, .num userId] } := by
  cases name with
  | none => simp [updateStatement, truthyStr, hf]; decide
  | some n =>
    have hn2 : n = "" := by simpa [truthyOptStr, truthyStr] using hn
    subst hn2
    simp [updateStatement, truthyStr, hf]
    decide

theorem updateStatement_both (n f : String) (hn : n ≠ "") (hf : f ≠ "") (userId : Int) :
    updateStatement (some n) (some f) userId =
      { query := "UPDATE users SET name = $1, profile_pic = $2 WHERE id = $3 " ++
          "RETURNING id, name, email, profile_pic",
        values := [.str n, .str f, .num userId] } := by
  simp [updateStatement, truthyStr, hn, hf]
  decide

theorem truthyOptStr_true {o : Option String} (h : truthyOptStr o = true) :
    ∃ s, o = some s ∧ s ≠ "" := by
  cases o with
  | none => cases h
  | some s => exact ⟨s, rfl, by simpa [truthyOptStr, truthyStr] using h⟩

/-- C26. For an authenticated profile update whose upload passed the filter: with a name, a
profile picture or both, the route issues one `UPDATE` whose placeholders are numbered
`$1..$n` in the order of the `values` array of length `n`: `name` (if given) is set from
`$1`, the name; `profile_pic` (if given) from the next placeholder, the file name; and the
`WHERE id` placeholder is the last one, `$n`, bound to the id of the authenticated user.
With neither, the route answers 400 and issues no statement. -/
theorem update_statement_binds_in_order (verify : String → Option TokenPayload)
    (run : UpdateRun) (req : Request) (name pic : Option String) (user : TokenPayload)
    (hauth : authenticate verify req = .ok user) (hup : upload req = .ok pic) :
    (truthyOptStr name = false → truthyOptStr pic = false →
      updateProfile verify run req name =
        ({ status := 400, body := .error "No changes provided" }, none)) ∧
    ((truthyOptStr name = true ∨ truthyOptStr pic = true) →
      (updateProfile verify run req name).2 = some (updateStatement name pic user.id) ∧
      placeholders (updateStatement name pic user.id).query =
        List.range' 1 (updateStatement name pic user.id).values.length ∧
      (updateStatement name pic user.id).values.getLast? = some (.num user.id)) ∧
    (∀ n, name = some n → n ≠ "" → truthyOptStr pic = false →
      updateStatement name pic user.id =
        { query :=
            "UPDATE users SET name = $1 WHERE id = $2 RETURNING id, name, email, profile_pic",
          values := [.str n, .num user.id] }) ∧
    (∀ f, truthyOptStr name = false → pic = some f → f ≠ "" →
      updateStatement name pic user.id =
        { query := "UPDATE users SET profile_pic = $1 WHERE id = $2 " ++
            "RETURNING id, name, email, profile_pic",
          values := [.str f, .num user.id] }) ∧
    (∀ n f, name = some n → n ≠ "" → pic = some f → f ≠ "" →
      updateStatement name pic user.id =
        { query := "UPDATE users SET name = $1, profile_pic = $2 WHERE id = $3 " ++
            "RETURNING id, name, email, profile_pic",
          values := [.str n, .str f, .num user.id] }) := by
  refine ⟨?_, ?_, ?_, ?_, ?_⟩
  · intro hn hp
    simp [updateProfile, hauth, hup, hn, hp]
  · intro h
    have hcond : (!truthyOptStr name && !truthyOptStr pic) = false := by
      rcases h with h | h <;> simp [h]
    refine ⟨?_, ?_⟩
    · cases hthrow : run.throws with
      | true =>
        simp only [updateProfile, hauth, hup, hcond, hthrow, Bool.false_eq_true, if_false,
          if_true]
      | false =>
        simp only [updateProfile, hauth, hup, hcond, hthrow, Bool.false_eq_true, if_false]
    · by_cases hn : truthyOptStr name = true
      · obtain ⟨n, hn1, hn2⟩ := truthyOptStr_true hn
        by_cases hp : truthyOptStr pic = true
        · obtain ⟨f, hf1, hf2⟩ := truthyOptStr_true hp
          rw [hn1, hf1, updateStatement_both n f hn2 hf2]
          exact ⟨rfl, rfl⟩
        · have hp2 : truthyOptStr pic = false := by simpa using hp
          rw [hn1, updateStatement_name n hn2 pic hp2]
          exact ⟨rfl, rfl⟩
      · have hn2 : truthyOptStr name = false := by simpa using hn
        have hp : truthyOptStr pic = true := by
          rcases h with h | h
          · exact absurd h hn
          · exact h
        obtain ⟨f, hf1, hf2⟩ := truthyOptStr_true hp
        rw [hf1, updateStatement_pic name hn2 f hf2]
        exact ⟨rfl, rfl⟩
  · intro n hn1 hn2 hp
    rw [hn1]
    exact updateStatement_name n hn2 pic hp _
  · intro f hn hf1 hf2
    rw [hf1]
    exact updateStatement_pic name hn f hf2 _
  · intro n f hn1 hn2 hf1 hf2
    rw [hn1, hf1]
    exact updateStatement_both n f hn2 hf2 _

theorem update_statement_binds_in_order_witness :
    (authenticate (fun t => if t = "t4" then some ⟨4, "d@x"⟩ else none)
        ⟨some "t4", none, none, some ⟨"image/png", ".png"⟩, 1700⟩ = .ok ⟨4, "d@x"⟩ ∧
     upload ⟨some "t4", none, none, some ⟨"image/png", ".png"⟩, 1700⟩ =
        .ok (some "1700.png")) ∧
    updateProfile (fun t => if t = "t4" then some ⟨4, "d@x"⟩ else none)
        ⟨false, some ⟨4, "Dee", "d@x", some "1700.png"⟩⟩
        ⟨some "t4", none, none, some ⟨"image/png", ".png"⟩, 1700⟩ (some "Dee") =
      ({ status := 200, body := .profile (some ⟨4, "Dee", "d@x", some "1700.png"⟩) },
       some { query := "UPDATE users SET name = $1, profile_pic = $2 WHERE id = $3 " ++
                "RETURNING id, name, email, profile_pic",
              values := [.str "Dee", .str "1700.png", .num 4] }) ∧
    updateStatement (some "Dee") (some "1700.png") 4 =
      { query := "UPDATE users SET name = $1, profile_pic = $2 WHERE id = $3 " ++
          "RETURNING id, name, email, profile_pic",
        values := [.str "Dee", .str "1700.png", .num 4] } :=
  ⟨⟨rfl, rfl⟩, by decide,
   (update_statement_binds_in_order (fun t => if t = "t4" then some ⟨4, "d@x"⟩ else none)
      ⟨false, some ⟨4, "Dee", "d@x", some "1700.png"⟩⟩
      ⟨some "t4", none, none, some ⟨"image/png", ".png"⟩, 1700⟩ (some "Dee")
      (some "1700.png") ⟨4, "d@x"⟩ rfl rfl).2.2.2.2 "Dee" "1700.png" rfl (by decide)
      rfl (by decide)⟩

end ChatApp
